import Mathlib

/-!
# Dual pose tracker: a shallow embedding of `DualPoseTracker.js`

JavaScript numbers are idealised as real numbers (no rounding, no NaN); the
value `Infinity` returned by `calculateDistance` is the top element of the
extended reals.  `null`/`undefined` is `none`.  A call that raises a
`TypeError` (reading a property of an absent array entry) returns `none`.
The tracker object becomes an explicit state value: every method takes the
state and returns the new state together with its result.  The tunables in
`this.params` are assigned once in the constructor and never written again, so
they are the constant `params`.  Real arithmetic and `Math.sqrt` make the
definitions noncomputable; concrete instances are evaluated by rewriting.

The source computes in IEEE-754 doubles.  Properties that hold of the real
formulas but not of their rounded evaluation (the exact value of a smoothed
coordinate, its position between the two inputs, the exact invariance of a
quotient under scaling) are not stated here: nothing below models rounding.
-/

set_option autoImplicit false

noncomputable section

namespace DualPoseTracker

/-- One landmark: normalized image coordinates and an optional visibility. -/
structure Landmark where
  x : ℝ
  y : ℝ
  visibility : Option ℝ

/-- A landmark array; an entry may be absent. -/
abbrev LandmarkList := List (Option Landmark)

/-- A point `{ x, y }`. -/
structure Position where
  x : ℝ
  y : ℝ

/-- The per-frame record built by `trackPersons` for one detected subject. -/
structure Person where
  landmarks : Option LandmarkList
  position : Position
  confidence : ℝ

/-- One of the two slots of `this.trackedPersons`. -/
structure TrackedPerson where
  id : Nat
  landmarks : Option LandmarkList
  position : Option Position
  history : List Position
  lostFrames : Nat

/-- The pair `{ left, right }`, both as stored and as returned to the caller. -/
structure TrackedPersons where
  left : TrackedPerson
  right : TrackedPerson

/-- The record `this.stats`. -/
structure Stats where
  swaps : Nat
  lostFrames : Nat
  recoveryCount : Nat

/-- The record `this.params`. -/
structure Params where
  positionThreshold : ℝ
  maxLostFrames : Nat
  smoothFactor : ℝ
  minConfidence : ℝ

/-- The mutable part of a tracker object. -/
structure Tracker where
  trackedPersons : TrackedPersons
  stats : Stats

/-- The tunables set by the constructor. -/
def params : Params :=
  { positionThreshold := 0.1, maxLostFrames := 10, smoothFactor := 0.3, minConfidence := 0.5 }

/-- The state built by the constructor (and by `reset`). -/
def fresh : Tracker :=
  { trackedPersons :=
      { left := { id := 0, landmarks := none, position := none, history := [], lostFrames := 0 }
        right := { id := 1, landmarks := none, position := none, history := [], lostFrames := 0 } }
    stats := { swaps := 0, lostFrames := 0, recoveryCount := 0 } }

/-- The method `calculateCenter`; `none` is the `TypeError` raised when entry 23 or
24 of a list of length at least 25 is absent. -/
def calculateCenter (landmarks : Option LandmarkList) : Option Position :=
  match landmarks with
  | none => some { x := 0, y := 0 }
  | some lms =>
    if lms.length < 25 then some { x := 0, y := 0 }
    else
      match lms.get? 23, lms.get? 24 with
      | some (some leftHip), some (some rightHip) =>
        some { x := (leftHip.x + rightHip.x) / 2, y := (leftHip.y + rightHip.y) / 2 }
      | _, _ => none

/-- The expression `landmarks[index].visibility || 0.5`: an absent or zero
visibility is falsy. -/
def visibilityOrDefault (lm : Landmark) : ℝ :=
  match lm.visibility with
  | none => 0.5
  | some v => if v = 0 then 0.5 else v

/-- The key points inspected by `calculateConfidence`. -/
def keyPoints : List Nat := [0, 11, 12, 23, 24, 25, 26, 27, 28]

/-- The method `calculateConfidence`. -/
def calculateConfidence (landmarks : Option LandmarkList) : ℝ :=
  match landmarks with
  | none => 0
  | some lms =>
    let acc : ℝ × Nat := keyPoints.foldl
      (fun a index =>
        match lms.get? index with
        | some (some lm) => (a.1 + visibilityOrDefault lm, a.2 + 1)
        | _ => a)
      (0, 0)
    if 0 < acc.2 then acc.1 / (acc.2 : ℝ) else 0

/-- The method `smoothPosition`. -/
def smoothPosition (oldPos : Option Position) (newPos : Position) : Position :=
  match oldPos with
  | none => newPos
  | some o =>
    { x := o.x * (1 - params.smoothFactor) + newPos.x * params.smoothFactor
      y := o.y * (1 - params.smoothFactor) + newPos.y * params.smoothFactor }

/-- The method `calculateDistance`. -/
def calculateDistance (pos1 pos2 : Option Position) : EReal :=
  match pos1, pos2 with
  | some p, some q =>
    let dx := p.x - q.x
    let dy := p.y - q.y
    ((Real.sqrt (dx * dx + dy * dy) : ℝ) : EReal)
  | _, _ => ⊤

/-- The method `getCurrentPersons`. -/
def getCurrentPersons (t : Tracker) : TrackedPersons :=
  { left :=
      if t.trackedPersons.left.lostFrames ≤ params.maxLostFrames then t.trackedPersons.left
      else { t.trackedPersons.left with landmarks := none }
    right :=
      if t.trackedPersons.right.lostFrames ≤ params.maxLostFrames then t.trackedPersons.right
      else { t.trackedPersons.right with landmarks := none } }

/-- The expression `[...history.slice(-9), position]`. -/
def pushHistory (history : List Position) (position : Position) : List Position :=
  history.drop (history.length - 9) ++ [position]

/-- The object literal that seeds a slot in `initializeTracking`. -/
def initSlot (slot : TrackedPerson) (person : Person) : TrackedPerson :=
  { slot with
    landmarks := person.landmarks
    position := some person.position
    history := [person.position]
    lostFrames := 0 }

/-- The object literal that updates a slot in `handleSinglePerson` and
`handleMultiplePersons`. -/
def updateSlot (slot : TrackedPerson) (person : Person) : TrackedPerson :=
  { slot with
    landmarks := person.landmarks
    position := some (smoothPosition slot.position person.position)
    history := pushHistory slot.history person.position
    lostFrames := 0 }

/-- The method `initializeTracking`. -/
def initializeTracking (t : Tracker) (persons : List Person) : Tracker × TrackedPersons :=
  let t1 : Tracker :=
    match persons with
    | p0 :: p1 :: _ =>
      { t with trackedPersons :=
          { left := initSlot t.trackedPersons.left p0
            right := initSlot t.trackedPersons.right p1 } }
    | [p0] =>
      if p0.position.x < 0.5 then
        { t with trackedPersons :=
            { t.trackedPersons with left := initSlot t.trackedPersons.left p0 } }
      else
        { t with trackedPersons :=
            { t.trackedPersons with right := initSlot t.trackedPersons.right p0 } }
    | [] => t
  (t1, getCurrentPersons t1)

/-- The method `handleSinglePerson`. -/
def handleSinglePerson (t : Tracker) (person : Person) : Tracker × TrackedPersons :=
  let distanceToLeft := calculateDistance t.trackedPersons.left.position (some person.position)
  let distanceToRight := calculateDistance t.trackedPersons.right.position (some person.position)
  let t1 : Tracker :=
    if distanceToLeft < distanceToRight then
      { t with trackedPersons :=
          { left := updateSlot t.trackedPersons.left person
            right := { t.trackedPersons.right with
                       lostFrames := t.trackedPersons.right.lostFrames + 1 } } }
    else
      { t with trackedPersons :=
          { left := { t.trackedPersons.left with
                      lostFrames := t.trackedPersons.left.lostFrames + 1 }
            right := updateSlot t.trackedPersons.right person } }
  (t1, getCurrentPersons t1)

/-- The record `distances` built by `matchPersons`. -/
structure Distances where
  leftToLeft : EReal
  leftToRight : EReal
  rightToLeft : EReal
  rightToRight : EReal

/-- The method `handleMultiplePersons`; `none` is the `TypeError` raised when
`persons[1]` is absent. -/
def handleMultiplePersons (t : Tracker) (persons : List Person) (distances : Distances) :
    Option (Tracker × TrackedPersons) :=
  let costLeftLeft := distances.leftToLeft
  let costLeftRight := distances.leftToRight
  let costRightLeft := distances.rightToLeft
  let costRightRight := distances.rightToRight
  let costScenario1 := costLeftLeft + costRightRight
  let costScenario2 := costLeftRight + costRightLeft
  match persons with
  | p0 :: p1 :: _ =>
    let t1 : Tracker :=
      if costScenario2 < costScenario1 * ((0.7 : ℝ) : EReal) then
        { trackedPersons :=
            { left := updateSlot t.trackedPersons.left p1
              right := updateSlot t.trackedPersons.right p0 }
          stats := { t.stats with swaps := t.stats.swaps + 1 } }
      else
        { t with trackedPersons :=
            { left := updateSlot t.trackedPersons.left p0
              right := updateSlot t.trackedPersons.right p1 } }
    some (t1, getCurrentPersons t1)
  | _ => none

/-- The method `matchPersons`. -/
def matchPersons (t : Tracker) (persons : List Person) : Option (Tracker × TrackedPersons) :=
  if t.trackedPersons.left.position.isNone ∨ t.trackedPersons.right.position.isNone then
    some (initializeTracking t persons)
  else
    let distances : Distances :=
      { leftToLeft :=
          calculateDistance t.trackedPersons.left.position ((persons.get? 0).map Person.position)
        leftToRight :=
          if (persons.get? 1).isSome then
            calculateDistance t.trackedPersons.left.position ((persons.get? 1).map Person.position)
          else ⊤
        rightToLeft :=
          calculateDistance t.trackedPersons.right.position ((persons.get? 0).map Person.position)
        rightToRight :=
          if (persons.get? 1).isSome then
            calculateDistance t.trackedPersons.right.position ((persons.get? 1).map Person.position)
          else ⊤ }
    match persons with
    | [p] => some (handleSinglePerson t p)
    | _ :: _ :: _ => handleMultiplePersons t persons distances
    | [] => some (t, getCurrentPersons t)

/-- The method `handleNoDetection`. -/
def handleNoDetection (t : Tracker) : Tracker :=
  let left1 : TrackedPerson :=
    { t.trackedPersons.left with lostFrames := t.trackedPersons.left.lostFrames + 1 }
  let right1 : TrackedPerson :=
    { t.trackedPersons.right with lostFrames := t.trackedPersons.right.lostFrames + 1 }
  let stats1 : Stats := { t.stats with lostFrames := t.stats.lostFrames + 1 }
  let left2 : TrackedPerson :=
    if left1.lostFrames > params.maxLostFrames then
      { left1 with landmarks := none, position := none }
    else left1
  let right2 : TrackedPerson :=
    if right1.lostFrames > params.maxLostFrames then
      { right1 with landmarks := none, position := none }
    else right1
  { trackedPersons := { left := left2, right := right2 }, stats := stats1 }

/-- The record built for one entry of `landmarksArray` by the `map` of
`trackPersons`; `none` when `calculateCenter` raises. -/
def mkPerson (lm : Option LandmarkList) : Option Person :=
  (calculateCenter lm).map fun c =>
    { landmarks := lm, position := c, confidence := calculateConfidence lm }

/-- The comparator order of `persons.sort((a, b) => a.position.x - b.position.x)`. -/
def byX (a b : Person) : Prop := a.position.x ≤ b.position.x

instance : DecidableRel byX := fun a b => inferInstanceAs (Decidable (a.position.x ≤ b.position.x))

/-- The stable ascending sort by `position.x`. -/
def sortPersons (persons : List Person) : List Person :=
  persons.insertionSort byX

/-- The `landmarksArray.map(...)` of `trackPersons`: one record per entry, and
`none` as soon as one `calculateCenter` raises. -/
def mkPersons : List (Option LandmarkList) → Option (List Person)
  | [] => some []
  | lm :: rest =>
    match mkPerson lm with
    | none => none
    | some p =>
      match mkPersons rest with
      | none => none
      | some ps => some (p :: ps)

/-- The method `trackPersons`; `none` is a raised `TypeError`, in which case the
stored state is left as it was. -/
def trackPersons (t : Tracker) (landmarksArray : Option (List (Option LandmarkList))) :
    Option (Tracker × TrackedPersons) :=
  match landmarksArray with
  | none => let t1 := handleNoDetection t; some (t1, getCurrentPersons t1)
  | some [] => let t1 := handleNoDetection t; some (t1, getCurrentPersons t1)
  | some (lm :: lms) =>
    match mkPersons (lm :: lms) with
    | none => none
    | some persons => matchPersons t (sortPersons persons)

/-- The stored state after a call of `trackPersons`. -/
def step (t : Tracker) (landmarksArray : Option (List (Option LandmarkList))) : Tracker :=
  match trackPersons t landmarksArray with
  | some r => r.1
  | none => t

/-- The states a tracker object can be in: the constructed one and every state
after a further call of `trackPersons`. -/
inductive Reachable : Tracker → Prop
  | init : Reachable fresh
  | call (t : Tracker) (landmarksArray : Option (List (Option LandmarkList))) :
      Reachable t → Reachable (step t landmarksArray)

/-! ### Vocabulary of the specification -/

/-- Euclidean distance between two points. -/
def euclid (p q : Position) : ℝ :=
  Real.sqrt ((p.x - q.x) ^ 2 + (p.y - q.y) ^ 2)

/-- The cost of keeping the natural assignment: `d(left, obs0) + d(right, obs1)`. -/
def costKeep (leftPrior rightPrior obs0 obs1 : Position) : ℝ :=
  euclid leftPrior obs0 + euclid rightPrior obs1

/-- The cost of the swapped assignment: `d(left, obs1) + d(right, obs0)`. -/
def costSwap (leftPrior rightPrior obs0 obs1 : Position) : ℝ :=
  euclid leftPrior obs1 + euclid rightPrior obs0

/-- A landmark list of 25 entries whose two hip entries both sit at `(x, y)`. -/
def hipsAt (x y : ℝ) : LandmarkList :=
  List.replicate 23 none ++
    [some { x := x, y := y, visibility := none }, some { x := x, y := y, visibility := none }]

/-- A slot that holds a prior position and nothing else of interest. -/
def slotAt (id : Nat) (x y : ℝ) : TrackedPerson :=
  { id := id, landmarks := some (hipsAt x y), position := some { x := x, y := y },
    history := [{ x := x, y := y }], lostFrames := 0 }

/-- A tracker whose two identities sit at `(xl, y)` and `(xr, y)`. -/
def trackerAt (xl xr y : ℝ) : Tracker :=
  { trackedPersons := { left := slotAt 0 xl y, right := slotAt 1 xr y }
    stats := { swaps := 0, lostFrames := 0, recoveryCount := 0 } }

/-- The lifecycle state *Uninitialized* of the data model: no landmarks and no position. -/
def Uninitialized (s : TrackedPerson) : Prop := s.landmarks = none ∧ s.position = none

instance : IsTotal Person byX := ⟨fun a b => le_total a.position.x b.position.x⟩
instance : IsTrans Person byX := ⟨fun _ _ _ h1 h2 => le_trans h1 h2⟩

/-- What the matching path does to one slot: either no observation is assigned to it and
only `lostFrames` grows by one, or one observation of the frame is assigned to it. -/
def MatchedOrLost (old new : TrackedPerson) (persons : List Person) : Prop :=
  new = { old with lostFrames := old.lostFrames + 1 } ∨ ∃ p ∈ persons, new = updateSlot old p

/-- The record built by `trackPersons` for a landmark list with both hips at `(x, y)`. -/
def personAt (x y : ℝ) : Person :=
  { landmarks := some (hipsAt x y), position := { x := x, y := y },
    confidence := calculateConfidence (some (hipsAt x y)) }

/-- A tracker in which only the left identity has been seeded, at `(0.2, 0.5)`. -/
def leftOnlyTracker : Tracker :=
  { trackedPersons := { left := slotAt 0 0.2 0.5, right := fresh.trackedPersons.right }
    stats := fresh.stats }

/-- The history bound: neither identity holds more than ten centers. -/
def HistoryBounded (t : Tracker) : Prop :=
  t.trackedPersons.left.history.length ≤ 10 ∧ t.trackedPersons.right.history.length ≤ 10

/-- The combined effect of `handleNoDetection` on one slot: `lostFrames++`, then the clearing
of `landmarks` and `position` once the new count exceeds ten (`handleNoDetection_eq` shows
that the embedded method does exactly this to both slots). -/
def agedSlot (s : TrackedPerson) : TrackedPerson :=
  { id := s.id
    landmarks := if s.lostFrames + 1 > 10 then none else s.landmarks
    position := if s.lostFrames + 1 > 10 then none else s.position
    history := s.history
    lostFrames := s.lostFrames + 1 }

/-- A tracker whose right identity, at `(0.8, 0.5)`, has been unmatched for ten frames
while the left one, at `(0.2, 0.5)`, was matched in the last frame. -/
def staleRightTracker : Tracker :=
  { trackedPersons :=
      { left := slotAt 0 0.2 0.5
        right := { id := 1, landmarks := some (hipsAt 0.8 0.5),
                   position := some { x := 0.8, y := 0.5 },
                   history := [{ x := 0.8, y := 0.5 }], lostFrames := 10 } }
    stats := { swaps := 0, lostFrames := 0, recoveryCount := 0 } }

/-- The stored state after `n` consecutive calls of `trackPersons` with an empty list. -/
def emptyFrames (n : Nat) (t : Tracker) : Tracker :=
  (fun s => step s (some []))^[n] t

/-- In both slots a missing position comes with missing landmarks. -/
def NoPositionNoLandmarks (t : Tracker) : Prop :=
  (t.trackedPersons.left.position = none → t.trackedPersons.left.landmarks = none) ∧
  (t.trackedPersons.right.position = none → t.trackedPersons.right.landmarks = none)

/-- A landmark list of 25 entries whose entry 23 (left hip) is absent and whose entry 24
(right hip) sits at `(0.5, 0.5)`. -/
def missingLeftHip : LandmarkList :=
  List.replicate 24 none ++ [some { x := 0.5, y := 0.5, visibility := none }]

/-- A landmark list whose only entry, the nose, has visibility 0. -/
def invisibleNose : LandmarkList :=
  [some { x := 0.5, y := 0.5, visibility := some 0 }]

/-- The strict order by `position.x`. -/
def beforeX (a b : Person) : Prop := a.position.x < b.position.x

instance : IsAntisymm Person beforeX :=
  ⟨fun _ _ h1 h2 => absurd h1 (not_lt.mpr (le_of_lt h2))⟩

end DualPoseTracker

namespace ExerciseDetector

/-!
# Exercise detector: a shallow embedding of `ExerciseDetector.js`

The detector object becomes an explicit state value holding `this.config` (the
field `stateCache` is never read or written).  `Date.now()` is the argument
`now`; the values that successive calls of `Math.random()` return during one
call are the argument `random` (`random 0` is the first draw).  A result's
`feedback` is `some ""` for the empty string and `none` for `undefined`.
-/

open DualPoseTracker (Landmark LandmarkList)

/-- One entry of `config.high_knees.side`. -/
structure LegState where
  up : Bool
  lastCountTime : ℝ

/-- The record `config.high_knees.side`. -/
structure Sides where
  left : LegState
  right : LegState

/-- The record `config.high_knees`. -/
structure HighKneesConfig where
  upRatio : ℝ
  downRatio : ℝ
  minInterval : ℝ
  speedCompensation : ℝ
  side : Sides

/-- The record `config.side_slide`. -/
structure SideSlideConfig where
  leftThreshold : ℝ
  rightThreshold : ℝ
  centerMin : ℝ
  centerMax : ℝ
  state : String
  lastMoveTime : ℝ
  minInterval : ℝ

/-- The record `this.config`. -/
structure Config where
  high_knees : HighKneesConfig
  side_slide : SideSlideConfig

/-- The mutable part of a detector object. -/
structure Detector where
  config : Config

/-- The body metrics passed by the driver (never read by the detector). -/
structure Metrics where
  legLength : ℝ
  torsoLength : ℝ
  overallHeight : ℝ

/-- The object `{ detected, newState, feedback }` returned by a detection. -/
structure DetectionResult where
  detected : Bool
  newState : String
  feedback : Option String

/-- The state built by the constructor. -/
def fresh : Detector :=
  { config :=
      { high_knees :=
          { upRatio := 0.15, downRatio := 0.05, minInterval := 150, speedCompensation := 0.1,
            side := { left := { up := false, lastCountTime := 0 },
                      right := { up := false, lastCountTime := 0 } } }
        side_slide :=
          { leftThreshold := 0.35, rightThreshold := 0.65, centerMin := 0.45, centerMax := 0.55,
            state := "center", lastMoveTime := 0, minInterval := 300 } } }

/-- Whether `needle` starts at the head of the first list. -/
def matchesAt : List Char → List Char → Bool
  | _, [] => true
  | [], _ :: _ => false
  | c :: cs, n :: ns => c == n && matchesAt cs ns

/-- Whether `needle` occurs somewhere in the first list. -/
def includesChars : List Char → List Char → Bool
  | [], needle => needle.isEmpty
  | c :: cs, needle => matchesAt (c :: cs) needle || includesChars cs needle

/-- The string method `s.includes(sub)`. -/
def includes (s sub : String) : Bool := includesChars s.data sub.data

/-- The phrase list `feedbacks.high_knees`. -/
def highKneesFeedbacks : List String :=
  ["标准!", "优秀!", "完美!", "加油!", "Nice!", "快速!", "厉害!", "准确!", "漂亮!", "继续!"]

/-- The phrase list `feedbacks.side_slide`. -/
def sideSlideFeedbacks : List String :=
  ["侧移!", "滑步!", "流畅!", "标准!", "Good!", "敏捷!", "迅速!", "准确!", "稳定!", "继续!"]

/-- The property names every object literal inherits from `Object.prototype`: for these
`feedbacks[exerciseType]` is a function (or the prototype object), which is truthy and has
no indexed entries. -/
def objectPrototypeKeys : List String :=
  ["constructor", "__defineGetter__", "__defineSetter__", "hasOwnProperty",
   "__lookupGetter__", "__lookupSetter__", "isPrototypeOf", "propertyIsEnumerable",
   "toString", "valueOf", "__proto__", "toLocaleString"]

/-- The method `getRandomFeedback`, with `r` the value returned by `Math.random()`. -/
def getRandomFeedback (r : ℝ) (exerciseType : String) : Option String :=
  if exerciseType = "high_knees" then
    highKneesFeedbacks.get? (Nat.floor (r * (highKneesFeedbacks.length : ℝ)))
  else if exerciseType = "side_slide" then
    sideSlideFeedbacks.get? (Nat.floor (r * (sideSlideFeedbacks.length : ℝ)))
  else if exerciseType ∈ objectPrototypeKeys then none
  else highKneesFeedbacks.get? (Nat.floor (r * (highKneesFeedbacks.length : ℝ)))

/-- The leg length of `detectHighKnees`: the distance from hip to ankle. -/
def legLength (hip ankle : Landmark) : ℝ :=
  Real.sqrt ((hip.x - ankle.x) ^ 2 + (hip.y - ankle.y) ^ 2)

/-- The lift ratio of `detectHighKnees`: `(hip.y - knee.y) / legLength`. For a leg of
length zero the source divides by zero (`Infinity`, `-Infinity` or `NaN`) and the real
quotient below does not model that case. -/
def liftRatio (hip knee ankle : Landmark) : ℝ :=
  (hip.y - knee.y) / legLength hip ankle

/-- The value `dynamicUpRatio` of `detectHighKnees`. -/
def dynamicUpRatio (config : HighKneesConfig) (now : ℝ) : ℝ :=
  let timeSinceLastCount :=
    min (now - config.side.left.lastCountTime) (now - config.side.right.lastCountTime)
  let speedFactor := max 0.7 (1 - timeSinceLastCount / 1000 * config.speedCompensation)
  config.upRatio * speedFactor

/-- The local variables `detected`, `newState`, `feedback` of a detection, with the number
of `Math.random()` draws made so far. -/
structure Locals where
  detected : Bool
  newState : String
  feedback : Option String
  draws : Nat

/-- The entry `landmarks[index]`, absent when the index is out of range or the entry is
null. -/
def entry (landmarks : LandmarkList) (index : Nat) : Option Landmark :=
  (landmarks.get? index).join

set_option linter.unusedVariables false in
/-- The method `detectHighKnees`; `none` is the `TypeError` raised when an ankle entry is
absent while hips and knees are present. -/
def detectHighKnees (d : Detector) (now : ℝ) (random : Nat → ℝ) (landmarks : LandmarkList)
    (metrics : Metrics) (currentState : String) : Option (Detector × DetectionResult) :=
  let config := d.config.high_knees
  match entry landmarks 23, entry landmarks 24, entry landmarks 25, entry landmarks 26 with
  | some leftHip, some rightHip, some leftKnee, some rightKnee =>
    match entry landmarks 27, entry landmarks 28 with
    | some leftAnkle, some rightAnkle =>
      let leftLiftRatio := liftRatio leftHip leftKnee leftAnkle
      let rightLiftRatio := liftRatio rightHip rightKnee rightAnkle
      let dynamicUpRatio := dynamicUpRatio config now
      let start : Locals :=
        { detected := false, newState := currentState, feedback := some "", draws := 0 }
      let afterLeft : LegState × Locals :=
        if config.side.left.up = false ∧ leftLiftRatio > dynamicUpRatio then
          if now - config.side.left.lastCountTime > config.minInterval then
            ({ up := true, lastCountTime := now },
             { detected := true, newState := "up_left",
               feedback := getRandomFeedback (random start.draws) "high_knees",
               draws := start.draws + 1 })
          else (config.side.left, start)
        else if config.side.left.up = true ∧ leftLiftRatio < config.downRatio then
          ({ config.side.left with up := false }, start)
        else (config.side.left, start)
      let afterRight : LegState × Locals :=
        if config.side.right.up = false ∧ rightLiftRatio > dynamicUpRatio then
          if now - config.side.right.lastCountTime > config.minInterval then
            ({ up := true, lastCountTime := now },
             { detected := true, newState := "up_right",
               feedback := getRandomFeedback (random afterLeft.2.draws) "high_knees",
               draws := afterLeft.2.draws + 1 })
          else (config.side.right, afterLeft.2)
        else if config.side.right.up = true ∧ rightLiftRatio < config.downRatio then
          ({ config.side.right with up := false }, afterLeft.2)
        else (config.side.right, afterLeft.2)
      let newState :=
        if afterLeft.1.up = false ∧ afterRight.1.up = false
            ∧ includes afterRight.2.newState "up" = true then "down"
        else afterRight.2.newState
      some (
        { config := { d.config with
            high_knees := { config with side := { left := afterLeft.1, right := afterRight.1 } } } },
        { detected := afterRight.2.detected, newState := newState,
          feedback := afterRight.2.feedback })
    | _, _ => none
  | _, _, _, _ =>
    some (d, { detected := false, newState := currentState, feedback := some "" })

/-- The method `detectSideSlide`. -/
def detectSideSlide (d : Detector) (now : ℝ) (random : Nat → ℝ) (landmarks : LandmarkList)
    (currentState : String) : Detector × DetectionResult :=
  let config := d.config.side_slide
  match entry landmarks 23, entry landmarks 24 with
  | some leftHip, some rightHip =>
    let hipCenterX := (leftHip.x + rightHip.x) / 2
    if config.state = "center" ∨ config.state = "idle" then
      if hipCenterX < config.leftThreshold ∧ now - config.lastMoveTime > config.minInterval then
        ({ config := { d.config with
             side_slide := { config with state := "left", lastMoveTime := now } } },
         { detected := true, newState := "left",
           feedback := getRandomFeedback (random 0) "side_slide" })
      else if hipCenterX > config.rightThreshold
          ∧ now - config.lastMoveTime > config.minInterval then
        ({ config := { d.config with
             side_slide := { config with state := "right", lastMoveTime := now } } },
         { detected := true, newState := "right",
           feedback := getRandomFeedback (random 0) "side_slide" })
      else (d, { detected := false, newState := config.state, feedback := some "" })
    else if config.state = "left" ∨ config.state = "right" then
      if hipCenterX > config.centerMin ∧ hipCenterX < config.centerMax then
        ({ config := { d.config with side_slide := { config with state := "center" } } },
         { detected := false, newState := "center", feedback := some "" })
      else (d, { detected := false, newState := config.state, feedback := some "" })
    else (d, { detected := false, newState := config.state, feedback := some "" })
  | _, _ => (d, { detected := false, newState := currentState, feedback := some "" })

/-- The method `detectExercise`; `none` is a raised `TypeError`, in which case the stored
state is left as it was. -/
def detectExercise (d : Detector) (now : ℝ) (random : Nat → ℝ)
    (landmarks : Option LandmarkList) (metrics : Metrics) (exerciseType currentState : String) :
    Option (Detector × DetectionResult) :=
  match landmarks with
  | none => some (d, { detected := false, newState := currentState, feedback := some "" })
  | some lms =>
    if lms.length < 29 then
      some (d, { detected := false, newState := currentState, feedback := some "" })
    else if exerciseType = "high_knees" then
      detectHighKnees d now random lms metrics currentState
    else if exerciseType = "side_slide" then
      some (detectSideSlide d now random lms currentState)
    else some (d, { detected := false, newState := currentState, feedback := some "" })

/-- The method `reset`. -/
def reset (d : Detector) (exerciseType : String) : Detector :=
  if exerciseType = "high_knees" then
    { config := { d.config with
        high_knees := { d.config.high_knees with
          side := { left := { up := false, lastCountTime := 0 },
                    right := { up := false, lastCountTime := 0 } } } } }
  else if exerciseType = "side_slide" then
    { config := { d.config with
        side_slide := { d.config.side_slide with state := "center", lastMoveTime := 0 } } }
  else d

/-- The rising condition of one leg: its flag is down, its lift ratio exceeds the dynamic
threshold, and more than 150 ms have passed since its last count. -/
def Rising (config : HighKneesConfig) (now : ℝ) (leg : LegState) (ratio : ℝ) : Prop :=
  leg.up = false ∧ ratio > dynamicUpRatio config now ∧ now - leg.lastCountTime > 150

/-- A landmark list of 29 entries with the left hip, knee and ankle at heights `hipY`,
`kneeLY`, 1 and the right hip, knee and ankle at heights `hipY`, `kneeRY`, 1, all at x = 0.5. -/
def legsAt (hipY kneeLY kneeRY : ℝ) : LandmarkList :=
  List.replicate 23 none ++
    [some { x := 0.5, y := hipY, visibility := none },
     some { x := 0.5, y := hipY, visibility := none },
     some { x := 0.5, y := kneeLY, visibility := none },
     some { x := 0.5, y := kneeRY, visibility := none },
     some { x := 0.5, y := 1, visibility := none },
     some { x := 0.5, y := 1, visibility := none }]

/-- Some body metrics (the detector never reads them). -/
def someMetrics : Metrics := { legLength := 0.2, torsoLength := 0.15, overallHeight := 0.6 }

/-- The effect of one leg's block of `detectHighKnees` on that leg's entry of
`config.high_knees.side` (`detectHighKnees_present` shows that the embedded method does this
to both legs). -/
def legStep (config : HighKneesConfig) (now dyn : ℝ) (leg : LegState) (ratio : ℝ) : LegState :=
  if leg.up = false ∧ ratio > dyn then
    if now - leg.lastCountTime > config.minInterval then { up := true, lastCountTime := now }
    else leg
  else if leg.up = true ∧ ratio < config.downRatio then { leg with up := false }
  else leg

/-- The leg's block counts: the flag is down, the ratio exceeds the threshold and the
interval since the leg's last count exceeds `minInterval`. -/
def Fires (config : HighKneesConfig) (now dyn : ℝ) (leg : LegState) (ratio : ℝ) : Prop :=
  leg.up = false ∧ ratio > dyn ∧ now - leg.lastCountTime > config.minInterval

/-- The up-threshold as a function of `timeSinceLastCount`, for the constructor's `upRatio`
and `speedCompensation`: `0.15 * max(0.7, 1 - (t / 1000) * 0.1)`. -/
def thresholdAt (t : ℝ) : ℝ := 0.15 * max 0.7 (1 - t / 1000 * 0.1)

/-- A detector state with the constructor's thresholds and the given last count times. -/
def countedAt (leftTime rightTime : ℝ) : Detector :=
  { config := { fresh.config with
      high_knees := { fresh.config.high_knees with
        side := { left := { up := false, lastCountTime := leftTime },
                  right := { up := false, lastCountTime := rightTime } } } } }

/-- The arguments of one call of `detectHighKnees`, with the clock and random values it
reads. -/
structure HighKneesCall where
  now : ℝ
  random : Nat → ℝ
  landmarks : LandmarkList
  metrics : Metrics
  currentState : String

/-- The stored state after a call of `detectHighKnees` (unchanged when the call raises). -/
def highKneesStep (d : Detector) (call : HighKneesCall) : Detector :=
  match detectHighKnees d call.now call.random call.landmarks call.metrics call.currentState with
  | some r => r.1
  | none => d

/-- The timestamps, in call order, of the calls of a sequence in which the given leg's flag
goes from false to true. -/
def countTimes (leg : Sides → LegState) : Detector → List HighKneesCall → List ℝ
  | _, [] => []
  | d, call :: rest =>
    if (leg d.config.high_knees.side).up = false
        ∧ (leg (highKneesStep d call).config.high_knees.side).up = true then
      call.now :: countTimes leg (highKneesStep d call) rest
    else countTimes leg (highKneesStep d call) rest

/-- A call of `detectHighKnees` at time `now` on the landmark list `legsAt 0.5 kneeLY 0.6`,
whose right knee is below its hip. -/
def leftKneeCall (now kneeLY : ℝ) : HighKneesCall :=
  { now := now, random := fun _ => 0, landmarks := legsAt 0.5 kneeLY 0.6,
    metrics := someMetrics, currentState := "idle" }

/-- The side-slide thresholds and interval are the ones set by the constructor. -/
def SideSlideThresholds (config : SideSlideConfig) : Prop :=
  config.leftThreshold = 0.35 ∧ config.rightThreshold = 0.65 ∧ config.centerMin = 0.45 ∧
  config.centerMax = 0.55 ∧ config.minInterval = 300

/-- The value `hipCenterX` of `detectSideSlide`. -/
def hipCenterX (leftHip rightHip : Landmark) : ℝ := (leftHip.x + rightHip.x) / 2

/-- The effect of the state machine of `detectSideSlide` on `config.side_slide`, with the
value of `detected` (`detectSideSlide_present` shows that the embedded method does this). -/
def slideStep (config : SideSlideConfig) (now x : ℝ) : SideSlideConfig × Bool :=
  if config.state = "center" ∨ config.state = "idle" then
    if x < config.leftThreshold ∧ now - config.lastMoveTime > config.minInterval then
      ({ config with state := "left", lastMoveTime := now }, true)
    else if x > config.rightThreshold ∧ now - config.lastMoveTime > config.minInterval then
      ({ config with state := "right", lastMoveTime := now }, true)
    else (config, false)
  else if config.state = "left" ∨ config.state = "right" then
    if x > config.centerMin ∧ x < config.centerMax then ({ config with state := "center" }, false)
    else (config, false)
  else (config, false)

/-- A landmark list of 29 entries whose only present entries are the two hips, both at
`(x, 0.5)`. -/
def slideAt (x : ℝ) : LandmarkList :=
  List.replicate 23 none ++
    [some { x := x, y := 0.5, visibility := none }, some { x := x, y := 0.5, visibility := none },
     none, none, none, none]

/-- A detector with the constructor's thresholds in the given lateral state. -/
def slideState (state : String) (lastMoveTime : ℝ) : Detector :=
  { config := { fresh.config with
      side_slide := { fresh.config.side_slide with
        state := state, lastMoveTime := lastMoveTime } } }

/-- The arguments of one call of `detectSideSlide`, with the clock and random values it
reads. -/
structure SideSlideCall where
  now : ℝ
  random : Nat → ℝ
  landmarks : LandmarkList
  currentState : String

/-- The stored state after a call of `detectSideSlide`. -/
def sideSlideStep (d : Detector) (call : SideSlideCall) : Detector :=
  (detectSideSlide d call.now call.random call.landmarks call.currentState).1

/-- The field `detected` of the result of a call of `detectSideSlide`. -/
def sideSlideDetected (d : Detector) (call : SideSlideCall) : Bool :=
  (detectSideSlide d call.now call.random call.landmarks call.currentState).2.detected

/-- The stored state after a sequence of calls of `detectSideSlide`. -/
def runSideSlide (d : Detector) (calls : List SideSlideCall) : Detector :=
  calls.foldl sideSlideStep d

/-- For each call of a sequence, the internal lateral state after it and its `detected`. -/
def slideTrace : Detector → List SideSlideCall → List (String × Bool)
  | _, [] => []
  | d, call :: rest =>
    ((sideSlideStep d call).config.side_slide.state, sideSlideDetected d call)
      :: slideTrace (sideSlideStep d call) rest

/-- The call's hips are present and their center x lies strictly between 0.45 and 0.55. -/
def ReturnsToCenter (call : SideSlideCall) : Prop :=
  ∃ leftHip rightHip : Landmark,
    entry call.landmarks 23 = some leftHip ∧ entry call.landmarks 24 = some rightHip ∧
    0.45 < hipCenterX leftHip rightHip ∧ hipCenterX leftHip rightHip < 0.55

/-- A call of `detectSideSlide` at time `now` with the hips at `x`. -/
def slideCall (now x : ℝ) : SideSlideCall :=
  { now := now, random := fun _ => 0, landmarks := slideAt x, currentState := "idle" }

/-- A landmark list of 29 entries with hips and knees as in `legsAt 0.5 0.3 0.6`, the left
ankle (entry 27) absent and the right ankle present. -/
def missingLeftAnkle : LandmarkList :=
  List.replicate 23 none ++
    [some { x := 0.5, y := 0.5, visibility := none },
     some { x := 0.5, y := 0.5, visibility := none },
     some { x := 0.5, y := 0.3, visibility := none },
     some { x := 0.5, y := 0.6, visibility := none },
     none,
     some { x := 0.5, y := 1, visibility := none }]

/-- A detector state in the middle of a session: left leg up, lateral state `left`. -/
def busyDetector : Detector :=
  { config :=
      { high_knees := { fresh.config.high_knees with
          side := { left := { up := true, lastCountTime := 1000 },
                    right := { up := false, lastCountTime := 700 } } }
        side_slide := { fresh.config.side_slide with state := "left", lastMoveTime := 900 } } }

/-- The stored state after a sequence of calls of `detectHighKnees`. -/
def runHighKnees (d : Detector) (calls : List HighKneesCall) : Detector :=
  calls.foldl highKneesStep d

/-- The left leg of the call has a non-zero length: its hip and ankle, when present, do
not coincide, so that the division in `liftRatio` is by a non-zero number. -/
def LeftLegNonZero (call : HighKneesCall) : Prop :=
  ∀ leftHip leftAnkle : Landmark,
    entry call.landmarks 23 = some leftHip → entry call.landmarks 27 = some leftAnkle →
    legLength leftHip leftAnkle ≠ 0

/-- The right leg of the call has a non-zero length. -/
def RightLegNonZero (call : HighKneesCall) : Prop :=
  ∀ rightHip rightAnkle : Landmark,
    entry call.landmarks 24 = some rightHip → entry call.landmarks 28 = some rightAnkle →
    legLength rightHip rightAnkle ≠ 0

/-- The call acts on the legs (hips, knees and ankles present), its left leg has a non-zero
length and its left lift ratio is below 0.05. -/
def LeftLowered (call : HighKneesCall) : Prop :=
  ∃ leftHip rightHip leftKnee rightKnee leftAnkle rightAnkle : Landmark,
    entry call.landmarks 23 = some leftHip ∧ entry call.landmarks 24 = some rightHip ∧
    entry call.landmarks 25 = some leftKnee ∧ entry call.landmarks 26 = some rightKnee ∧
    entry call.landmarks 27 = some leftAnkle ∧ entry call.landmarks 28 = some rightAnkle ∧
    legLength leftHip leftAnkle ≠ 0 ∧
    liftRatio leftHip leftKnee leftAnkle < 0.05

/-- The call acts on the legs (hips, knees and ankles present), its right leg has a non-zero
length and its right lift ratio is below 0.05. -/
def RightLowered (call : HighKneesCall) : Prop :=
  ∃ leftHip rightHip leftKnee rightKnee leftAnkle rightAnkle : Landmark,
    entry call.landmarks 23 = some leftHip ∧ entry call.landmarks 24 = some rightHip ∧
    entry call.landmarks 25 = some leftKnee ∧ entry call.landmarks 26 = some rightKnee ∧
    entry call.landmarks 27 = some leftAnkle ∧ entry call.landmarks 28 = some rightAnkle ∧
    legLength rightHip rightAnkle ≠ 0 ∧
    liftRatio rightHip rightKnee rightAnkle < 0.05

/-- A detector with the constructor's thresholds and the given leg entries. -/
def legsState (leftUp : Bool) (leftTime : ℝ) (rightUp : Bool) (rightTime : ℝ) : Detector :=
  { config := { fresh.config with
      high_knees := { fresh.config.high_knees with
        side := { left := { up := leftUp, lastCountTime := leftTime },
                  right := { up := rightUp, lastCountTime := rightTime } } } } }

end ExerciseDetector

namespace DualPoseTracker

/-! ### Auxiliary lemmas -/

theorem calculateDistance_some (p q : Position) :
    calculateDistance (some p) (some q) = ((euclid p q : ℝ) : EReal) := by
  simp only [calculateDistance, euclid]
  congr 2
  ring

theorem calculateCenter_hipsAt (x y : ℝ) :
    calculateCenter (some (hipsAt x y)) = some { x := x, y := y } := by
  simp [calculateCenter, hipsAt, List.replicate]

theorem mkPerson_hipsAt (x y : ℝ) :
    mkPerson (some (hipsAt x y)) =
      some { landmarks := some (hipsAt x y), position := { x := x, y := y },
             confidence := calculateConfidence (some (hipsAt x y)) } := by
  simp [mkPerson, calculateCenter_hipsAt]

theorem euclid_same_y (a b y : ℝ) :
    euclid { x := a, y := y } { x := b, y := y } = |a - b| := by
  simp only [euclid, sub_self]
  rw [show (a - b) ^ 2 + (0:ℝ) ^ 2 = (a - b) * (a - b) by ring]
  exact Real.sqrt_mul_self_eq_abs _

theorem euclid_nonneg (p q : Position) : 0 ≤ euclid p q := Real.sqrt_nonneg _

theorem matchPersons_two (t : Tracker) (lp rp : Position) (p0 p1 : Person) (rest : List Person)
    (hl : t.trackedPersons.left.position = some lp)
    (hr : t.trackedPersons.right.position = some rp) :
    matchPersons t (p0 :: p1 :: rest) =
      some (
        if costSwap lp rp p0.position p1.position < 0.7 * costKeep lp rp p0.position p1.position then
          let t1 : Tracker :=
            { trackedPersons :=
                { left := updateSlot t.trackedPersons.left p1
                  right := updateSlot t.trackedPersons.right p0 }
              stats := { t.stats with swaps := t.stats.swaps + 1 } }
          (t1, getCurrentPersons t1)
        else
          let t1 : Tracker :=
            { t with trackedPersons :=
              { left := updateSlot t.trackedPersons.left p0
                right := updateSlot t.trackedPersons.right p1 } }
          (t1, getCurrentPersons t1)) := by
  simp only [matchPersons, hl, hr, Option.isNone_some, Bool.false_eq_true, or_self, if_false,
    handleMultiplePersons, List.get?_cons_zero, List.get?_cons_succ, Option.map_some',
    Option.isSome_some, if_true, calculateDistance_some]
  have key : ((euclid lp p1.position : ℝ) : EReal) + ((euclid rp p0.position : ℝ) : EReal)
        < (((euclid lp p0.position : ℝ) : EReal) + ((euclid rp p1.position : ℝ) : EReal)) * ((0.7 : ℝ) : EReal)
      ↔ costSwap lp rp p0.position p1.position < 0.7 * costKeep lp rp p0.position p1.position := by
    rw [← EReal.coe_add, ← EReal.coe_add, ← EReal.coe_mul, EReal.coe_lt_coe_iff, costSwap, costKeep,
      mul_comm]
  by_cases h : costSwap lp rp p0.position p1.position < 0.7 * costKeep lp rp p0.position p1.position
  · simp [h, key.mpr h]
  · have h2 := mt key.mp h
    simp [h, h2]

theorem mkPersons_length : ∀ (frame : List (Option LandmarkList)) (persons : List Person),
    mkPersons frame = some persons → persons.length = frame.length
  | [], persons, h => by
    simp [mkPersons] at h; subst h; rfl
  | lm :: rest, persons, h => by
    simp only [mkPersons] at h
    cases hp : mkPerson lm with
    | none => simp [hp] at h
    | some p =>
      cases hps : mkPersons rest with
      | none => simp [hp, hps] at h
      | some ps =>
        simp [hp, hps] at h
        subst h
        simp [mkPersons_length rest ps hps]

theorem sortPersons_length (persons : List Person) :
    (sortPersons persons).length = persons.length :=
  List.length_insertionSort _ _

theorem trackPersons_nonempty (t : Tracker) (frame : List (Option LandmarkList))
    (persons : List Person) (hframe : mkPersons frame = some persons) (hne : persons ≠ []) :
    trackPersons t (some frame) = matchPersons t (sortPersons persons) := by
  cases frame with
  | nil => simp [mkPersons] at hframe; exact absurd hframe hne
  | cons lm lms => simp only [trackPersons, hframe]

theorem sortPersons_perm (persons : List Person) : (sortPersons persons).Perm persons :=
  List.perm_insertionSort _ _

theorem sortPersons_sorted (persons : List Person) : (sortPersons persons).Sorted byX :=
  List.sorted_insertionSort _ _

theorem sortPersons_singleton (p : Person) : sortPersons [p] = [p] := rfl

theorem matchPersons_init (t : Tracker) (persons : List Person)
    (h : t.trackedPersons.left.position = none ∨ t.trackedPersons.right.position = none) :
    matchPersons t persons = some (initializeTracking t persons) := by
  have h2 : t.trackedPersons.left.position.isNone = true ∨
      t.trackedPersons.right.position.isNone = true := by
    rcases h with h | h
    · left; simp [h]
    · right; simp [h]
  simp only [matchPersons, if_pos h2]

theorem sortPersons_pair_swap (a b : Person) (h : b.position.x < a.position.x) :
    sortPersons [a, b] = [b, a] := by
  simp [sortPersons, List.insertionSort, List.orderedInsert, byX, not_le.mpr h]

theorem matchPersons_single (t : Tracker) (lp rp : Position) (p : Person)
    (hl : t.trackedPersons.left.position = some lp)
    (hr : t.trackedPersons.right.position = some rp) :
    matchPersons t [p] = some (handleSinglePerson t p) := by
  simp [matchPersons, hl, hr]

theorem handleSinglePerson_eq (t : Tracker) (lp rp : Position) (p : Person)
    (hl : t.trackedPersons.left.position = some lp)
    (hr : t.trackedPersons.right.position = some rp) :
    handleSinglePerson t p =
      if euclid lp p.position < euclid rp p.position then
        let t1 : Tracker :=
          { t with trackedPersons :=
              { left := updateSlot t.trackedPersons.left p
                right := { t.trackedPersons.right with
                           lostFrames := t.trackedPersons.right.lostFrames + 1 } } }
        (t1, getCurrentPersons t1)
      else
        let t1 : Tracker :=
          { t with trackedPersons :=
              { left := { t.trackedPersons.left with
                          lostFrames := t.trackedPersons.left.lostFrames + 1 }
                right := updateSlot t.trackedPersons.right p } }
        (t1, getCurrentPersons t1) := by
  simp only [handleSinglePerson, hl, hr, calculateDistance_some, EReal.coe_lt_coe_iff]
  split <;> rfl

theorem matchPersons_matching (t : Tracker) (lp rp : Position) (persons : List Person)
    (hl : t.trackedPersons.left.position = some lp)
    (hr : t.trackedPersons.right.position = some rp) (hne : persons ≠ []) :
    ∃ t1 : Tracker, matchPersons t persons = some (t1, getCurrentPersons t1) ∧
      MatchedOrLost t.trackedPersons.left t1.trackedPersons.left persons ∧
      MatchedOrLost t.trackedPersons.right t1.trackedPersons.right persons := by
  match persons, hne with
  | [p], _ =>
    rw [matchPersons_single t lp rp p hl hr, handleSinglePerson_eq t lp rp p hl hr]
    by_cases h : euclid lp p.position < euclid rp p.position
    · rw [if_pos h]
      exact ⟨_, rfl, Or.inr ⟨p, by simp, rfl⟩, Or.inl rfl⟩
    · rw [if_neg h]
      exact ⟨_, rfl, Or.inl rfl, Or.inr ⟨p, by simp, rfl⟩⟩
  | p0 :: p1 :: rest, _ =>
    rw [matchPersons_two t lp rp p0 p1 rest hl hr]
    by_cases h : costSwap lp rp p0.position p1.position < 0.7 * costKeep lp rp p0.position p1.position
    · rw [if_pos h]
      exact ⟨_, rfl, Or.inr ⟨p1, by simp, rfl⟩, Or.inr ⟨p0, by simp, rfl⟩⟩
    · rw [if_neg h]
      exact ⟨_, rfl, Or.inr ⟨p0, by simp, rfl⟩, Or.inr ⟨p1, by simp, rfl⟩⟩

theorem mkPersons_hipsAt_single (x y : ℝ) :
    mkPersons [some (hipsAt x y)] = some [personAt x y] := by
  simp [mkPersons, mkPerson_hipsAt, personAt]

theorem trackPersons_leftOnly (x y : ℝ) :
    trackPersons leftOnlyTracker (some [some (hipsAt x y)]) =
      some (initializeTracking leftOnlyTracker [personAt x y]) := by
  rw [trackPersons_nonempty _ _ _ (mkPersons_hipsAt_single x y) (by simp), sortPersons_singleton,
    matchPersons_init _ _ (Or.inr rfl)]

theorem mkPersons_single (lm : Option LandmarkList) (obs : Person) (h : mkPerson lm = some obs) :
    mkPersons [lm] = some [obs] := by
  simp [mkPersons, h]

theorem smoothPosition_some (old c : Position) :
    smoothPosition (some old) c =
      { x := 0.7 * old.x + 0.3 * c.x, y := 0.7 * old.y + 0.3 * c.y } := by
  simp only [smoothPosition, params]
  congr 1 <;> ring

theorem trackPersons_matching (t : Tracker) (frame : List (Option LandmarkList))
    (persons : List Person) (lp rp : Position)
    (hl : t.trackedPersons.left.position = some lp)
    (hr : t.trackedPersons.right.position = some rp)
    (hframe : mkPersons frame = some persons) (hne : persons ≠ []) :
    ∃ t1 : Tracker, trackPersons t (some frame) = some (t1, getCurrentPersons t1) ∧
      MatchedOrLost t.trackedPersons.left t1.trackedPersons.left persons ∧
      MatchedOrLost t.trackedPersons.right t1.trackedPersons.right persons := by
  rw [trackPersons_nonempty t frame persons hframe hne]
  have hne2 : sortPersons persons ≠ [] := by
    intro h
    have := sortPersons_length persons
    rw [h] at this
    exact hne (List.length_eq_zero.mp this.symm)
  obtain ⟨t1, h1, h2, h3⟩ := matchPersons_matching t lp rp (sortPersons persons) hl hr hne2
  have hmem : ∀ p, p ∈ sortPersons persons → p ∈ persons :=
    fun p hp => (sortPersons_perm persons).subset hp
  refine ⟨t1, h1, ?_, ?_⟩
  · rcases h2 with h | ⟨p, hp, h⟩
    · exact Or.inl h
    · exact Or.inr ⟨p, hmem p hp, h⟩
  · rcases h3 with h | ⟨p, hp, h⟩
    · exact Or.inl h
    · exact Or.inr ⟨p, hmem p hp, h⟩

theorem pushHistory_length_le (history : List Position) (c : Position) :
    (pushHistory history c).length ≤ 10 := by
  simp only [pushHistory, List.length_append, List.length_drop, List.length_singleton]
  omega

theorem pushHistory_suffix (history : List Position) (c : Position) :
    ∃ dropped kept : List Position, history = dropped ++ kept ∧
      kept.length = min 9 history.length ∧ pushHistory history c = kept ++ [c] := by
  refine ⟨history.take (history.length - 9), history.drop (history.length - 9),
    (List.take_append_drop _ _).symm, ?_, rfl⟩
  simp only [List.length_drop]
  omega

theorem initializeTracking_bounded (t : Tracker) (persons : List Person) (h : HistoryBounded t) :
    HistoryBounded (initializeTracking t persons).1 := by
  match persons with
  | [] => exact h
  | [p] =>
    simp only [initializeTracking]
    split
    · exact ⟨by simp [initSlot], h.2⟩
    · exact ⟨h.1, by simp [initSlot]⟩
  | p0 :: p1 :: rest =>
    exact ⟨by simp [initializeTracking, initSlot], by simp [initializeTracking, initSlot]⟩

theorem matchedOrLost_bounded (old new : TrackedPerson) (persons : List Person)
    (h : MatchedOrLost old new persons) (hold : old.history.length ≤ 10) :
    new.history.length ≤ 10 := by
  rcases h with h | ⟨p, -, h⟩
  · rw [h]; exact hold
  · rw [h]; exact pushHistory_length_le _ _

theorem handleNoDetection_history (t : Tracker) :
    (handleNoDetection t).trackedPersons.left.history = t.trackedPersons.left.history ∧
    (handleNoDetection t).trackedPersons.right.history = t.trackedPersons.right.history := by
  simp only [handleNoDetection]
  constructor <;> split <;> rfl

theorem matchPersons_bounded (t : Tracker) (persons : List Person)
    (r : Tracker × TrackedPersons) (h : HistoryBounded t) (hr : matchPersons t persons = some r) :
    HistoryBounded r.1 := by
  cases hl : t.trackedPersons.left.position with
  | none =>
    rw [matchPersons_init t persons (Or.inl hl)] at hr
    cases hr
    exact initializeTracking_bounded t persons h
  | some lp =>
    cases hrp : t.trackedPersons.right.position with
    | none =>
      rw [matchPersons_init t persons (Or.inr hrp)] at hr
      cases hr
      exact initializeTracking_bounded t persons h
    | some rp =>
      by_cases hne : persons = []
      · subst hne
        simp [matchPersons, hl, hrp] at hr
        subst hr
        exact h
      · obtain ⟨t1, h1, h2, h3⟩ := matchPersons_matching t lp rp persons hl hrp hne
        rw [h1] at hr
        cases hr
        exact ⟨matchedOrLost_bounded _ _ _ h2 h.1, matchedOrLost_bounded _ _ _ h3 h.2⟩

theorem step_bounded (t : Tracker) (la : Option (List (Option LandmarkList)))
    (h : HistoryBounded t) : HistoryBounded (step t la) := by
  have hnd : HistoryBounded (handleNoDetection t) := by
    have := handleNoDetection_history t
    exact ⟨this.1 ▸ h.1, this.2 ▸ h.2⟩
  match la with
  | none => exact hnd
  | some [] => exact hnd
  | some (lm :: lms) =>
    simp only [step, trackPersons]
    cases hp : mkPersons (lm :: lms) with
    | none => exact h
    | some persons =>
      simp only
      cases hm : matchPersons t (sortPersons persons) with
      | none => exact h
      | some r => exact matchPersons_bounded t _ r h hm

theorem reachable_bounded (t : Tracker) (h : Reachable t) : HistoryBounded t := by
  induction h with
  | init => exact ⟨by simp [fresh], by simp [fresh]⟩
  | call t la _ ih => exact step_bounded t la ih

theorem trackPersons_staleRight :
    trackPersons staleRightTracker (some [some (hipsAt 0.3 0.5)]) =
      some (
        { trackedPersons :=
            { left := updateSlot staleRightTracker.trackedPersons.left (personAt 0.3 0.5)
              right := { staleRightTracker.trackedPersons.right with lostFrames := 11 } }
          stats := staleRightTracker.stats },
        getCurrentPersons
          { trackedPersons :=
              { left := updateSlot staleRightTracker.trackedPersons.left (personAt 0.3 0.5)
                right := { staleRightTracker.trackedPersons.right with lostFrames := 11 } }
            stats := staleRightTracker.stats }) := by
  have hc : euclid { x := 0.2, y := 0.5 } (personAt 0.3 0.5).position
      < euclid { x := 0.8, y := 0.5 } (personAt 0.3 0.5).position := by
    simp only [personAt, euclid_same_y]
    norm_num [abs_of_nonneg, abs_of_neg]
  rw [trackPersons_nonempty _ _ _ (mkPersons_hipsAt_single 0.3 0.5) (by simp),
    sortPersons_singleton,
    matchPersons_single staleRightTracker { x := 0.2, y := 0.5 } { x := 0.8, y := 0.5 } _ rfl rfl,
    handleSinglePerson_eq staleRightTracker { x := 0.2, y := 0.5 } { x := 0.8, y := 0.5 } _
      rfl rfl, if_pos hc]
  rfl

theorem handleNoDetection_eq (t : Tracker) :
    handleNoDetection t =
      { trackedPersons :=
          { left := agedSlot t.trackedPersons.left, right := agedSlot t.trackedPersons.right }
        stats := { swaps := t.stats.swaps, lostFrames := t.stats.lostFrames + 1,
                   recoveryCount := t.stats.recoveryCount } } := by
  simp only [handleNoDetection, agedSlot, params]
  congr 2 <;> split <;> simp_all

theorem sortPersons_ne_nil (persons : List Person) (hne : persons ≠ []) :
    sortPersons persons ≠ [] := by
  intro h
  have := sortPersons_length persons
  rw [h] at this
  exact hne (List.length_eq_zero.mp this.symm)

theorem matchPersons_out (t : Tracker) (persons : List Person) (hne : persons ≠ []) :
    ∃ t1 : Tracker, matchPersons t persons = some (t1, getCurrentPersons t1) := by
  cases hl : t.trackedPersons.left.position with
  | none => exact ⟨_, matchPersons_init t persons (Or.inl hl)⟩
  | some lp =>
    cases hrp : t.trackedPersons.right.position with
    | none => exact ⟨_, matchPersons_init t persons (Or.inr hrp)⟩
    | some rp =>
      obtain ⟨t1, h1, -, -⟩ := matchPersons_matching t lp rp persons hl hrp hne
      exact ⟨t1, h1⟩

theorem matchPersons_ne_none (t : Tracker) (persons : List Person) (hne : persons ≠ []) :
    matchPersons t persons ≠ none := by
  obtain ⟨t1, h1⟩ := matchPersons_out t persons hne
  rw [h1]
  simp

theorem trackPersons_out (t : Tracker) (landmarksArray : Option (List (Option LandmarkList)))
    (t1 : Tracker) (out : TrackedPersons) (h : trackPersons t landmarksArray = some (t1, out)) :
    out = getCurrentPersons t1 := by
  match landmarksArray, h with
  | none, h =>
    simp only [trackPersons, Option.some.injEq, Prod.mk.injEq] at h
    rw [← h.1, ← h.2]
  | some [], h =>
    simp only [trackPersons, Option.some.injEq, Prod.mk.injEq] at h
    rw [← h.1, ← h.2]
  | some (lm :: lms), h =>
    cases hp : mkPersons (lm :: lms) with
    | none => simp [trackPersons, hp] at h
    | some persons =>
      have hne : persons ≠ [] := by
        intro h0
        have := mkPersons_length _ _ hp
        rw [h0] at this
        simp at this
      rw [trackPersons_nonempty t _ persons hp hne] at h
      obtain ⟨t2, h2⟩ := matchPersons_out t _ (sortPersons_ne_nil _ hne)
      rw [h2] at h
      simp only [Option.some.injEq, Prod.mk.injEq] at h
      rw [← h.1, ← h.2]

theorem emptyFrames_succ (n : Nat) (t : Tracker) :
    emptyFrames (n + 1) t = handleNoDetection (emptyFrames n t) := by
  simp only [emptyFrames, Function.iterate_succ_apply']
  rfl

theorem agedSlot_iterate (n : Nat) (s : TrackedPerson) :
    (agedSlot^[n] s).lostFrames = s.lostFrames + n ∧
    (agedSlot^[n] s).id = s.id ∧ (agedSlot^[n] s).history = s.history ∧
    (s.lostFrames + n ≤ 10 →
      (agedSlot^[n] s).landmarks = s.landmarks ∧ (agedSlot^[n] s).position = s.position) ∧
    (0 < n → 10 < s.lostFrames + n →
      (agedSlot^[n] s).landmarks = none ∧ (agedSlot^[n] s).position = none) := by
  induction n with
  | zero => simp
  | succ n ih =>
    rw [Function.iterate_succ_apply']
    obtain ⟨h1, h2, h3, h4, -⟩ := ih
    refine ⟨?_, ?_, ?_, ?_, ?_⟩
    · simp only [agedSlot, h1]; omega
    · simp only [agedSlot, h2]
    · simp only [agedSlot, h3]
    · intro hle
      have hle2 : s.lostFrames + n ≤ 10 := by omega
      have hn : ¬ (agedSlot^[n] s).lostFrames + 1 > 10 := by rw [h1]; omega
      simp only [agedSlot, if_neg hn]
      exact h4 hle2
    · intro _ hgt
      have hn : (agedSlot^[n] s).lostFrames + 1 > 10 := by rw [h1]; omega
      simp only [agedSlot, if_pos hn, and_self]

theorem emptyFrames_slots (n : Nat) (t : Tracker) :
    (emptyFrames n t).trackedPersons.left = agedSlot^[n] t.trackedPersons.left ∧
    (emptyFrames n t).trackedPersons.right = agedSlot^[n] t.trackedPersons.right := by
  induction n with
  | zero => exact ⟨rfl, rfl⟩
  | succ n ih =>
    rw [emptyFrames_succ, handleNoDetection_eq, Function.iterate_succ_apply',
      Function.iterate_succ_apply']
    exact ⟨congrArg agedSlot ih.1, congrArg agedSlot ih.2⟩

theorem getCurrentPersons_landmarks (t : Tracker) :
    ((getCurrentPersons t).left.landmarks =
      if t.trackedPersons.left.lostFrames ≤ 10 then t.trackedPersons.left.landmarks else none) ∧
    ((getCurrentPersons t).right.landmarks =
      if t.trackedPersons.right.lostFrames ≤ 10 then t.trackedPersons.right.landmarks
      else none) := by
  simp only [getCurrentPersons, params]
  constructor <;> split <;> rfl

theorem trackPersons_reseed (s : Tracker) (lm : Option LandmarkList) (obs : Person)
    (idL idR : Nat)
    (hidL : s.trackedPersons.left.id = idL) (hidR : s.trackedPersons.right.id = idR)
    (hlp : s.trackedPersons.left.position = none)
    (hrp : s.trackedPersons.right.position = none)
    (hLf : ¬ s.trackedPersons.left.lostFrames ≤ 10)
    (hRf : ¬ s.trackedPersons.right.lostFrames ≤ 10)
    (hobs : mkPerson lm = some obs) :
    ∃ (t1 : Tracker) (out : TrackedPersons),
      trackPersons s (some [lm]) = some (t1, out) ∧
      (obs.position.x < 0.5 →
        t1.trackedPersons.left =
          { id := idL, landmarks := obs.landmarks,
            position := some obs.position, history := [obs.position], lostFrames := 0 } ∧
        out.left = t1.trackedPersons.left ∧
        t1.trackedPersons.right.position = none ∧ out.right.landmarks = none) ∧
      (¬ obs.position.x < 0.5 →
        t1.trackedPersons.right =
          { id := idR, landmarks := obs.landmarks,
            position := some obs.position, history := [obs.position], lostFrames := 0 } ∧
        out.right = t1.trackedPersons.right ∧
        t1.trackedPersons.left.position = none ∧ out.left.landmarks = none) := by
  have hcall : trackPersons s (some [lm]) = some (initializeTracking s [obs]) := by
    rw [trackPersons_nonempty _ [lm] [obs] (mkPersons_single lm obs hobs) (by simp),
      sortPersons_singleton, matchPersons_init _ _ (Or.inl hlp)]
  refine ⟨_, _, hcall, ?_, ?_⟩
  · intro hx
    have hg1 := getCurrentPersons_landmarks (initializeTracking s [obs]).1
    simp only [initializeTracking, if_pos hx] at hg1 ⊢
    refine ⟨?_, ?_, hrp, ?_⟩
    · simp only [initSlot, hidL]
    · simp [getCurrentPersons, initSlot, params]
    · rw [hg1.2, if_neg hRf]
  · intro hx
    have hg1 := getCurrentPersons_landmarks (initializeTracking s [obs]).1
    simp only [initializeTracking, if_neg hx] at hg1 ⊢
    refine ⟨?_, ?_, hlp, ?_⟩
    · simp only [initSlot, hidR]
    · simp [getCurrentPersons, initSlot, params]
    · rw [hg1.1, if_neg hLf]

theorem sortPersons_pair (a b : Person) (h : a.position.x ≤ b.position.x) :
    sortPersons [a, b] = [a, b] := by
  simp [sortPersons, List.insertionSort, List.orderedInsert, byX, h]

theorem mkPersons_hipsAt_pair (x0 y0 x1 y1 : ℝ) :
    mkPersons [some (hipsAt x0 y0), some (hipsAt x1 y1)] =
      some [{ landmarks := some (hipsAt x0 y0), position := { x := x0, y := y0 },
              confidence := calculateConfidence (some (hipsAt x0 y0)) },
            { landmarks := some (hipsAt x1 y1), position := { x := x1, y := y1 },
              confidence := calculateConfidence (some (hipsAt x1 y1)) }] := by
  simp [mkPersons, mkPerson_hipsAt]

theorem initializeTracking_noPosition (t : Tracker) (persons : List Person)
    (h : NoPositionNoLandmarks t) : NoPositionNoLandmarks (initializeTracking t persons).1 := by
  match persons with
  | [] => exact h
  | [p] =>
    simp only [initializeTracking]
    split
    · exact ⟨fun h0 => by simp [initSlot] at h0, h.2⟩
    · exact ⟨h.1, fun h0 => by simp [initSlot] at h0⟩
  | p0 :: p1 :: rest =>
    exact ⟨fun h0 => by simp [initializeTracking, initSlot] at h0,
      fun h0 => by simp [initializeTracking, initSlot] at h0⟩

theorem matchedOrLost_noPosition (old new : TrackedPerson) (persons : List Person)
    (h : MatchedOrLost old new persons) (hold : old.position = none → old.landmarks = none) :
    new.position = none → new.landmarks = none := by
  rcases h with h | ⟨p, -, h⟩
  · rw [h]; exact hold
  · rw [h]; intro h0; simp [updateSlot] at h0

theorem handleNoDetection_noPosition (t : Tracker) (h : NoPositionNoLandmarks t) :
    NoPositionNoLandmarks (handleNoDetection t) := by
  rw [handleNoDetection_eq]
  simp only [NoPositionNoLandmarks, agedSlot]
  constructor
  · split
    · intro _; rfl
    · exact h.1
  · split
    · intro _; rfl
    · exact h.2

theorem step_noPosition (t : Tracker) (la : Option (List (Option LandmarkList)))
    (h : NoPositionNoLandmarks t) : NoPositionNoLandmarks (step t la) := by
  match la with
  | none => exact handleNoDetection_noPosition t h
  | some [] => exact handleNoDetection_noPosition t h
  | some (lm :: lms) =>
    simp only [step, trackPersons]
    cases hp : mkPersons (lm :: lms) with
    | none => exact h
    | some persons =>
      simp only
      cases hm : matchPersons t (sortPersons persons) with
      | none => exact h
      | some r =>
        simp only
        cases hl : t.trackedPersons.left.position with
        | none =>
          rw [matchPersons_init t _ (Or.inl hl)] at hm
          cases hm
          exact initializeTracking_noPosition t _ h
        | some lp =>
          cases hrp : t.trackedPersons.right.position with
          | none =>
            rw [matchPersons_init t _ (Or.inr hrp)] at hm
            cases hm
            exact initializeTracking_noPosition t _ h
          | some rp =>
            have hne : persons ≠ [] := by
              intro h0
              have := mkPersons_length _ _ hp
              rw [h0] at this
              simp at this
            obtain ⟨t1, h1, h2, h3⟩ := matchPersons_matching t lp rp _ hl hrp
              (sortPersons_ne_nil _ hne)
            rw [h1] at hm
            cases hm
            exact ⟨matchedOrLost_noPosition _ _ _ h2 h.1, matchedOrLost_noPosition _ _ _ h3 h.2⟩

theorem reachable_uninitialized (t : Tracker) (h : Reachable t) :
    (t.trackedPersons.left.position = none → Uninitialized t.trackedPersons.left) ∧
    (t.trackedPersons.right.position = none → Uninitialized t.trackedPersons.right) := by
  have hinv : NoPositionNoLandmarks t := by
    induction h with
    | init => exact ⟨fun _ => rfl, fun _ => rfl⟩
    | call t la _ ih => exact step_noPosition t la ih
  exact ⟨fun h0 => ⟨hinv.1 h0, h0⟩, fun h0 => ⟨hinv.2 h0, h0⟩⟩

theorem mkPerson_landmarks (lm : Option LandmarkList) (p : Person) (h : mkPerson lm = some p) :
    p.landmarks = lm := by
  simp only [mkPerson, Option.map_eq_some'] at h
  obtain ⟨c, -, rfl⟩ := h
  rfl

theorem mkPersons_mem : ∀ (frame : List (Option LandmarkList)) (persons : List Person),
    mkPersons frame = some persons → ∀ p ∈ persons, mkPerson p.landmarks = some p
  | [], persons, h => by
    simp [mkPersons] at h; subst h; simp
  | lm :: rest, persons, h => by
    simp only [mkPersons] at h
    cases hp : mkPerson lm with
    | none => simp [hp] at h
    | some q =>
      cases hps : mkPersons rest with
      | none => simp [hp, hps] at h
      | some ps =>
        simp [hp, hps] at h
        subst h
        intro p hmem
        rcases List.mem_cons.mp hmem with rfl | hmem2
        · rw [mkPerson_landmarks lm p hp]; exact hp
        · exact mkPersons_mem rest ps hps p hmem2

theorem matchPersons_first_two (t : Tracker) (p0 p1 : Person) (rest : List Person) :
    matchPersons t (p0 :: p1 :: rest) = matchPersons t [p0, p1] := by
  cases hl : t.trackedPersons.left.position with
  | none =>
    rw [matchPersons_init t _ (Or.inl hl), matchPersons_init t _ (Or.inl hl)]
    rfl
  | some lp =>
    cases hr : t.trackedPersons.right.position with
    | none =>
      rw [matchPersons_init t _ (Or.inr hr), matchPersons_init t _ (Or.inr hr)]
      rfl
    | some rp =>
      rw [matchPersons_two t lp rp p0 p1 rest hl hr, matchPersons_two t lp rp p0 p1 [] hl hr]

theorem mkPersons_hipsAt_triple (x0 y0 x1 y1 x2 y2 : ℝ) :
    mkPersons [some (hipsAt x0 y0), some (hipsAt x1 y1), some (hipsAt x2 y2)] =
      some [personAt x0 y0, personAt x1 y1, personAt x2 y2] := by
  simp [mkPersons, mkPerson_hipsAt, personAt]

theorem sortPersons_triple_rotate (a b c : Person) (hbc : b.position.x ≤ c.position.x)
    (hca : c.position.x < a.position.x) : sortPersons [a, b, c] = [b, c, a] := by
  have hba : ¬ a.position.x ≤ b.position.x := not_le.mpr (lt_of_le_of_lt hbc hca)
  simp [sortPersons, List.insertionSort, List.orderedInsert, byX, hbc, not_le.mpr hca, hba]

theorem abs_sorted_matching (l r a b : ℝ) (hlr : l ≤ r) (hab : a ≤ b) :
    |l - a| + |r - b| ≤ |l - b| + |r - a| := by
  rcases abs_cases (l - a) with ⟨h1, _⟩ | ⟨h1, _⟩ <;>
  rcases abs_cases (r - b) with ⟨h2, _⟩ | ⟨h2, _⟩ <;>
  rcases abs_cases (l - b) with ⟨h3, _⟩ | ⟨h3, _⟩ <;>
  rcases abs_cases (r - a) with ⟨h4, _⟩ | ⟨h4, _⟩ <;>
  rw [h1, h2, h3, h4] <;> linarith

theorem costKeep_le_costSwap_same_y (lp rp o0 o1 : Position) (y : ℝ)
    (hl : lp.y = y) (hr : rp.y = y) (h0 : o0.y = y) (h1 : o1.y = y)
    (hlr : lp.x ≤ rp.x) (hobs : o0.x ≤ o1.x) :
    costKeep lp rp o0 o1 ≤ costSwap lp rp o0 o1 := by
  obtain ⟨lx, ly⟩ := lp
  obtain ⟨rx, ry⟩ := rp
  obtain ⟨ax, ay⟩ := o0
  obtain ⟨bx, bying⟩ := o1
  simp only at hl hr h0 h1 hlr hobs
  subst hl hr h0 h1
  simp only [costKeep, costSwap, euclid_same_y]
  exact abs_sorted_matching lx rx ax bx hlr hobs

theorem mkPersons_cons (lm : Option LandmarkList) (rest : List (Option LandmarkList)) :
    mkPersons (lm :: rest) =
      (mkPerson lm).bind (fun p => (mkPersons rest).map (fun ps => p :: ps)) := by
  simp only [mkPersons]
  cases mkPerson lm with
  | none => rfl
  | some p => cases mkPersons rest <;> rfl

theorem mkPersons_perm (frame frame2 : List (Option LandmarkList)) (h : frame.Perm frame2) :
    (∀ persons, mkPersons frame = some persons →
      ∃ persons2, mkPersons frame2 = some persons2 ∧ persons.Perm persons2) ∧
    (mkPersons frame = none → mkPersons frame2 = none) := by
  induction h with
  | nil => exact ⟨fun persons hp => ⟨persons, hp, List.Perm.refl _⟩, fun hp => hp⟩
  | @cons lm l1 l2 _ ih =>
    rw [mkPersons_cons, mkPersons_cons]
    cases hlm : mkPerson lm with
    | none => simp
    | some p =>
      cases h1 : mkPersons l1 with
      | none => simp [ih.2 h1]
      | some ps =>
        obtain ⟨ps2, h2, hperm⟩ := ih.1 ps h1
        refine ⟨fun persons hp => ?_, fun hp => by simp at hp⟩
        simp only [Option.some_bind, Option.map_some', Option.some.injEq] at hp
        subst hp
        exact ⟨p :: ps2, by simp [h2], hperm.cons p⟩
  | swap a b l =>
    rw [mkPersons_cons, mkPersons_cons, mkPersons_cons, mkPersons_cons]
    cases ha : mkPerson a with
    | none => cases hb : mkPerson b <;> simp
    | some pa =>
      cases hb : mkPerson b with
      | none => simp
      | some pb =>
        cases hl : mkPersons l with
        | none => simp
        | some ps =>
          refine ⟨fun persons hp => ?_, fun hp => by simp at hp⟩
          simp only [Option.some_bind, Option.map_some', Option.some.injEq] at hp
          subst hp
          exact ⟨_, rfl, List.Perm.swap _ _ _⟩
  | trans _ _ ih1 ih2 =>
    constructor
    · intro persons hp
      obtain ⟨ps2, h2, hperm2⟩ := ih1.1 persons hp
      obtain ⟨ps3, h3, hperm3⟩ := ih2.1 ps2 h2
      exact ⟨ps3, h3, hperm2.trans hperm3⟩
    · intro hp
      exact ih2.2 (ih1.2 hp)

theorem sorted_beforeX_of_distinct (l : List Person) (hs : l.Sorted byX)
    (hd : l.Pairwise (fun a b => a.position.x ≠ b.position.x)) : l.Sorted beforeX := by
  have h := List.Pairwise.and hs hd
  exact h.imp (fun ⟨h1, h2⟩ => lt_of_le_of_ne h1 h2)

theorem pairwise_distinct_perm (l1 l2 : List Person) (hp : l1.Perm l2)
    (hd : l1.Pairwise (fun a b => a.position.x ≠ b.position.x)) :
    l2.Pairwise (fun a b => a.position.x ≠ b.position.x) :=
  hp.pairwise hd (fun h h2 => h h2.symm)

theorem sortPersons_perm_eq (persons persons2 : List Person) (hp : persons.Perm persons2)
    (hd : persons.Pairwise (fun a b => a.position.x ≠ b.position.x)) :
    sortPersons persons = sortPersons persons2 := by
  have hperm : (sortPersons persons).Perm (sortPersons persons2) :=
    (sortPersons_perm persons).trans (hp.trans (sortPersons_perm persons2).symm)
  have hd1 := pairwise_distinct_perm _ _ (sortPersons_perm persons).symm hd
  have hd2 := pairwise_distinct_perm _ _ (hp.trans (sortPersons_perm persons2).symm) hd
  exact List.eq_of_perm_of_sorted hperm
    (sorted_beforeX_of_distinct _ (sortPersons_sorted persons) hd1)
    (sorted_beforeX_of_distinct _ (sortPersons_sorted persons2) hd2)

/-! ### The claims -/

/-- C1: with both identities holding a prior position and a frame whose sorted
observations start with `obs0`, `obs1`, the call returns. When
`costSwap < 0.7 * costKeep` left takes the landmarks of `obs1` and right those of `obs0`,
each with the smoothing of its own prior position towards that observation's center, that
center pushed on its history and `lostFrames = 0`, and `stats.swaps` grows by one.
Otherwise left takes `obs0` and right `obs1` in the same way and `stats.swaps` is as it
was. The ids and the other two counters never change. -/
theorem trackPersons_swap_rule (t : Tracker) (frame : List (Option LandmarkList)) (persons rest : List Person)
    (obs0 obs1 : Person) (lp rp : Position)
    (hl : t.trackedPersons.left.position = some lp)
    (hr : t.trackedPersons.right.position = some rp)
    (hframe : mkPersons frame = some persons)
    (hsort : sortPersons persons = obs0 :: obs1 :: rest) :
    ∃ t1 : Tracker, trackPersons t (some frame) = some (t1, getCurrentPersons t1) ∧
      (costSwap lp rp obs0.position obs1.position < 0.7 * costKeep lp rp obs0.position obs1.position →
        t1.trackedPersons.left =
          { id := t.trackedPersons.left.id, landmarks := obs1.landmarks,
            position := some (smoothPosition (some lp) obs1.position),
            history := t.trackedPersons.left.history.drop (t.trackedPersons.left.history.length - 9)
              ++ [obs1.position],
            lostFrames := 0 } ∧
        t1.trackedPersons.right =
          { id := t.trackedPersons.right.id, landmarks := obs0.landmarks,
            position := some (smoothPosition (some rp) obs0.position),
            history := t.trackedPersons.right.history.drop
              (t.trackedPersons.right.history.length - 9) ++ [obs0.position],
            lostFrames := 0 } ∧
        t1.stats.swaps = t.stats.swaps + 1) ∧
      (¬ costSwap lp rp obs0.position obs1.position < 0.7 * costKeep lp rp obs0.position obs1.position →
        t1.trackedPersons.left =
          { id := t.trackedPersons.left.id, landmarks := obs0.landmarks,
            position := some (smoothPosition (some lp) obs0.position),
            history := t.trackedPersons.left.history.drop (t.trackedPersons.left.history.length - 9)
              ++ [obs0.position],
            lostFrames := 0 } ∧
        t1.trackedPersons.right =
          { id := t.trackedPersons.right.id, landmarks := obs1.landmarks,
            position := some (smoothPosition (some rp) obs1.position),
            history := t.trackedPersons.right.history.drop
              (t.trackedPersons.right.history.length - 9) ++ [obs1.position],
            lostFrames := 0 } ∧
        t1.stats.swaps = t.stats.swaps) ∧
      t1.stats.lostFrames = t.stats.lostFrames ∧ t1.stats.recoveryCount = t.stats.recoveryCount := by
  have hne : persons ≠ [] := by
    rintro rfl
    simp [sortPersons] at hsort
  rw [trackPersons_nonempty t frame persons hframe hne, hsort, matchPersons_two t lp rp obs0 obs1 rest hl hr]
  by_cases h : costSwap lp rp obs0.position obs1.position < 0.7 * costKeep lp rp obs0.position obs1.position
  · rw [if_pos h]
    refine ⟨_, rfl, fun _ => ⟨?_, ?_, rfl⟩, fun h2 => absurd h h2, rfl, rfl⟩
    · simp [updateSlot, pushHistory, hl]
    · simp [updateSlot, pushHistory, hr]
  · rw [if_neg h]
    refine ⟨_, rfl, fun h2 => absurd h2 h, fun _ => ⟨?_, ?_, rfl⟩, rfl, rfl⟩
    · simp [updateSlot, pushHistory, hl]
    · simp [updateSlot, pushHistory, hr]

/-- C1, at a concrete crossing: identities at x = 0.8 (left) and x = 0.2 (right), a frame
with hips at x = 0.75 and x = 0.25. Sorted, the observations are at 0.25 and 0.75, the
swapped cost 0.1 is below 0.7 times the kept cost 1.1, and so left takes the landmarks
at 0.75 and right those at 0.25, neither of which it held before; positions are smoothed,
histories extended, and `stats.swaps` becomes 1. -/
theorem trackPersons_swap_rule_witness :
    ∃ t1 : Tracker,
      trackPersons (trackerAt 0.8 0.2 0.5) (some [some (hipsAt 0.75 0.5), some (hipsAt 0.25 0.5)])
        = some (t1, getCurrentPersons t1) ∧
      t1.trackedPersons.left.landmarks = some (hipsAt 0.75 0.5) ∧
      t1.trackedPersons.left.position =
        some { x := 0.8 * (1 - 0.3) + 0.75 * 0.3, y := 0.5 * (1 - 0.3) + 0.5 * 0.3 } ∧
      t1.trackedPersons.left.history = [{ x := 0.8, y := 0.5 }, { x := 0.75, y := 0.5 }] ∧
      t1.trackedPersons.left.lostFrames = 0 ∧
      t1.trackedPersons.right.landmarks = some (hipsAt 0.25 0.5) ∧
      t1.trackedPersons.right.position =
        some { x := 0.2 * (1 - 0.3) + 0.25 * 0.3, y := 0.5 * (1 - 0.3) + 0.5 * 0.3 } ∧
      t1.trackedPersons.right.history = [{ x := 0.2, y := 0.5 }, { x := 0.25, y := 0.5 }] ∧
      t1.trackedPersons.right.lostFrames = 0 ∧
      t1.stats.swaps = 1 := by
  obtain ⟨t1, h1, hswap, -, -⟩ := trackPersons_swap_rule (trackerAt 0.8 0.2 0.5)
    [some (hipsAt 0.75 0.5), some (hipsAt 0.25 0.5)] _ [] _ _ { x := 0.8, y := 0.5 }
    { x := 0.2, y := 0.5 } rfl rfl (mkPersons_hipsAt_pair 0.75 0.5 0.25 0.5)
    (sortPersons_pair_swap _ _ (by norm_num))
  have hc : costSwap { x := 0.8, y := 0.5 } { x := 0.2, y := 0.5 } { x := 0.25, y := 0.5 }
      { x := 0.75, y := 0.5 } < 0.7 * costKeep { x := 0.8, y := 0.5 } { x := 0.2, y := 0.5 }
      { x := 0.25, y := 0.5 } { x := 0.75, y := 0.5 } := by
    simp only [costSwap, costKeep, euclid_same_y]
    norm_num [abs_of_nonneg, abs_of_neg]
  obtain ⟨hL, hR, hS⟩ := hswap hc
  refine ⟨t1, h1, by rw [hL], ?_, ?_, by rw [hL], by rw [hR], ?_, ?_, by rw [hR],
    by rw [hS]; rfl⟩
  · rw [hL]
    simp only [smoothPosition, params]
  · rw [hL]
    simp [trackerAt, slotAt]
  · rw [hR]
    simp only [smoothPosition, params]
  · rw [hR]
    simp [trackerAt, slotAt]

/-- C2: on a tracker whose two identities are uninitialized, a frame with at least two
observations seeds left with the observation of smallest center x and right with the
next one (unsmoothed center, one-point history, `lostFrames = 0`); a frame with exactly
one observation seeds left when its center x is below 0.5 and right otherwise, and the
other identity keeps `landmarks = null` and `position = null`. -/
theorem trackPersons_initializes (t : Tracker) (frame : List (Option LandmarkList)) (persons : List Person)
    (hl : Uninitialized t.trackedPersons.left) (hr : Uninitialized t.trackedPersons.right)
    (hframe : mkPersons frame = some persons) :
    (∀ (obs0 obs1 : Person) (rest : List Person), sortPersons persons = obs0 :: obs1 :: rest →
      (obs0 :: obs1 :: rest).Perm persons ∧
      (∀ p ∈ persons, obs0.position.x ≤ p.position.x) ∧
      (∀ p ∈ obs1 :: rest, obs1.position.x ≤ p.position.x) ∧
      trackPersons t (some frame) =
        some (
          { trackedPersons :=
              { left := { id := t.trackedPersons.left.id, landmarks := obs0.landmarks,
                          position := some obs0.position, history := [obs0.position],
                          lostFrames := 0 }
                right := { id := t.trackedPersons.right.id, landmarks := obs1.landmarks,
                           position := some obs1.position, history := [obs1.position],
                           lostFrames := 0 } }
            stats := t.stats },
          { left := { id := t.trackedPersons.left.id, landmarks := obs0.landmarks,
                      position := some obs0.position, history := [obs0.position],
                      lostFrames := 0 }
            right := { id := t.trackedPersons.right.id, landmarks := obs1.landmarks,
                       position := some obs1.position, history := [obs1.position],
                       lostFrames := 0 } })) ∧
    (∀ obs : Person, persons = [obs] →
      ∃ t1 : Tracker, trackPersons t (some frame) = some (t1, getCurrentPersons t1) ∧
        t1.stats = t.stats ∧
        (obs.position.x < 0.5 →
          t1.trackedPersons.left =
            { id := t.trackedPersons.left.id, landmarks := obs.landmarks,
              position := some obs.position, history := [obs.position], lostFrames := 0 } ∧
          t1.trackedPersons.right = t.trackedPersons.right ∧
          t1.trackedPersons.right.landmarks = none ∧ t1.trackedPersons.right.position = none) ∧
        (¬ obs.position.x < 0.5 →
          t1.trackedPersons.right =
            { id := t.trackedPersons.right.id, landmarks := obs.landmarks,
              position := some obs.position, history := [obs.position], lostFrames := 0 } ∧
          t1.trackedPersons.left = t.trackedPersons.left ∧
          t1.trackedPersons.left.landmarks = none ∧ t1.trackedPersons.left.position = none)) := by
  constructor
  · intro obs0 obs1 rest hsort
    have hne : persons ≠ [] := by
      rintro rfl
      simp [sortPersons] at hsort
    have hperm : (obs0 :: obs1 :: rest).Perm persons := hsort ▸ sortPersons_perm persons
    have hsorted : (obs0 :: obs1 :: rest).Sorted byX := hsort ▸ sortPersons_sorted persons
    refine ⟨hperm, ?_, ?_, ?_⟩
    · intro p hp
      have hp2 : p ∈ obs0 :: obs1 :: rest := hperm.symm.subset hp
      rcases List.mem_cons.mp hp2 with rfl | hp3
      · exact le_refl _
      · exact List.rel_of_sorted_cons hsorted p hp3
    · intro p hp
      rcases List.mem_cons.mp hp with rfl | hp3
      · exact le_refl _
      · exact List.rel_of_sorted_cons (List.sorted_cons.mp hsorted).2 p hp3
    · rw [trackPersons_nonempty t frame persons hframe hne, hsort,
        matchPersons_init t _ (Or.inl hl.2)]
      simp [initializeTracking, initSlot, getCurrentPersons, params]
  · intro obs hobs
    subst hobs
    rw [trackPersons_nonempty t frame [obs] hframe (by simp), sortPersons_singleton,
      matchPersons_init t _ (Or.inl hl.2)]
    by_cases hx : obs.position.x < 0.5
    · refine ⟨_, rfl, ?_, ?_, fun h => absurd hx h⟩
      · simp [initializeTracking, hx]
      · intro _
        simp [initializeTracking, hx, initSlot, hr.1, hr.2]
    · refine ⟨_, rfl, ?_, fun h => absurd h hx, ?_⟩
      · simp [initializeTracking, hx]
      · intro _
        simp [initializeTracking, hx, initSlot, hl.1, hl.2]


/-- C2, on the first call of a fresh tracker with observations at x = 0.8 and x = 0.2
(given in that order): left is seeded at x = 0.2 and right at x = 0.8. -/
theorem trackPersons_initializes_witness :
    trackPersons fresh (some [some (hipsAt 0.8 0.5), some (hipsAt 0.2 0.5)]) =
      some (
        { trackedPersons :=
            { left := { id := 0, landmarks := some (hipsAt 0.2 0.5),
                        position := some { x := 0.2, y := 0.5 },
                        history := [{ x := 0.2, y := 0.5 }], lostFrames := 0 }
              right := { id := 1, landmarks := some (hipsAt 0.8 0.5),
                         position := some { x := 0.8, y := 0.5 },
                         history := [{ x := 0.8, y := 0.5 }], lostFrames := 0 } }
          stats := { swaps := 0, lostFrames := 0, recoveryCount := 0 } },
        { left := { id := 0, landmarks := some (hipsAt 0.2 0.5),
                    position := some { x := 0.2, y := 0.5 },
                    history := [{ x := 0.2, y := 0.5 }], lostFrames := 0 }
          right := { id := 1, landmarks := some (hipsAt 0.8 0.5),
                     position := some { x := 0.8, y := 0.5 },
                     history := [{ x := 0.8, y := 0.5 }], lostFrames := 0 } }) :=
  ((trackPersons_initializes fresh [some (hipsAt 0.8 0.5), some (hipsAt 0.2 0.5)] _ ⟨rfl, rfl⟩ ⟨rfl, rfl⟩
      (mkPersons_hipsAt_pair 0.8 0.5 0.2 0.5)).1 _ _ []
    (sortPersons_pair_swap _ _ (by norm_num))).2.2.2

/-- C3, at the failing input: the tracker reached from a fresh one by a single observation
at x = 0.2 has a left identity with a prior position and an uninitialized right identity,
so it is past its first detection. A further single observation at x = 0.4 still goes
through the initialization path, because the guard of `matchPersons` tests
`!left.position || !right.position`: the left position becomes the unsmoothed center
(0.4, 0.5) and its history is reset to that one point, where the matching update of the
same identity gives the smoothed position (0.26, 0.5) and the history
[(0.2, 0.5), (0.4, 0.5)]. -/
theorem initialization_overwrites_tracked_identity :
    step fresh (some [some (hipsAt 0.2 0.5)]) = leftOnlyTracker ∧
    leftOnlyTracker.trackedPersons.left.position = some { x := 0.2, y := 0.5 } ∧
    leftOnlyTracker.trackedPersons.left.history = [{ x := 0.2, y := 0.5 }] ∧
    (trackPersons leftOnlyTracker (some [some (hipsAt 0.4 0.5)])).map
        (fun r => (r.1.trackedPersons.left.position, r.1.trackedPersons.left.history))
      = some (some { x := 0.4, y := 0.5 }, [{ x := 0.4, y := 0.5 }]) ∧
    (updateSlot leftOnlyTracker.trackedPersons.left (personAt 0.4 0.5)).position
      = some { x := 0.26, y := 0.5 } ∧
    (updateSlot leftOnlyTracker.trackedPersons.left (personAt 0.4 0.5)).history
      = [{ x := 0.2, y := 0.5 }, { x := 0.4, y := 0.5 }] := by
  refine ⟨?_, rfl, rfl, ?_, ?_, ?_⟩
  · have h : trackPersons fresh (some [some (hipsAt 0.2 0.5)]) =
        some (initializeTracking fresh [personAt 0.2 0.5]) := by
      rw [trackPersons_nonempty _ _ _ (mkPersons_hipsAt_single 0.2 0.5) (by simp),
        sortPersons_singleton, matchPersons_init _ _ (Or.inl rfl)]
    have hx : (personAt 0.2 0.5).position.x < 0.5 := by norm_num [personAt]
    simp only [step, h, initializeTracking, if_pos hx]
    rfl
  · have hx : (personAt 0.4 0.5).position.x < 0.5 := by norm_num [personAt]
    rw [trackPersons_leftOnly]
    simp only [initializeTracking, if_pos hx, Option.map_some']
    rfl
  · simp only [updateSlot, leftOnlyTracker, slotAt, smoothPosition, params, personAt]
    norm_num
  · simp [updateSlot, leftOnlyTracker, slotAt, pushHistory, personAt]


/-- C4: with both identities holding a prior position, a frame with exactly one observation
is assigned to the identity whose prior position is strictly closer to its center, and to
right when the distances are equal; that identity takes the landmarks, the smoothed
position, the pushed history and `lostFrames = 0`, and the other keeps its landmarks,
position and history while its `lostFrames` grows by one, whatever its value. -/
theorem trackPersons_single_observation (t : Tracker) (lm : Option LandmarkList) (obs : Person)
    (lp rp : Position)
    (hl : t.trackedPersons.left.position = some lp)
    (hr : t.trackedPersons.right.position = some rp)
    (hobs : mkPerson lm = some obs) :
    ∃ t1 : Tracker, trackPersons t (some [lm]) = some (t1, getCurrentPersons t1) ∧
      t1.stats = t.stats ∧
      (euclid lp obs.position < euclid rp obs.position →
        t1.trackedPersons.left =
          { id := t.trackedPersons.left.id, landmarks := obs.landmarks,
            position := some (smoothPosition (some lp) obs.position),
            history := t.trackedPersons.left.history.drop (t.trackedPersons.left.history.length - 9)
              ++ [obs.position],
            lostFrames := 0 } ∧
        t1.trackedPersons.right =
          { id := t.trackedPersons.right.id, landmarks := t.trackedPersons.right.landmarks,
            position := some rp, history := t.trackedPersons.right.history,
            lostFrames := t.trackedPersons.right.lostFrames + 1 }) ∧
      (¬ euclid lp obs.position < euclid rp obs.position →
        t1.trackedPersons.right =
          { id := t.trackedPersons.right.id, landmarks := obs.landmarks,
            position := some (smoothPosition (some rp) obs.position),
            history := t.trackedPersons.right.history.drop
              (t.trackedPersons.right.history.length - 9) ++ [obs.position],
            lostFrames := 0 } ∧
        t1.trackedPersons.left =
          { id := t.trackedPersons.left.id, landmarks := t.trackedPersons.left.landmarks,
            position := some lp, history := t.trackedPersons.left.history,
            lostFrames := t.trackedPersons.left.lostFrames + 1 }) := by
  rw [trackPersons_nonempty t [lm] [obs] (mkPersons_single lm obs hobs) (by simp),
    sortPersons_singleton, matchPersons_single t lp rp obs hl hr,
    handleSinglePerson_eq t lp rp obs hl hr]
  by_cases h : euclid lp obs.position < euclid rp obs.position
  · rw [if_pos h]
    refine ⟨_, rfl, rfl, fun _ => ⟨?_, ?_⟩, fun h2 => absurd h h2⟩
    · simp [updateSlot, pushHistory, hl]
    · simp [hr]
  · rw [if_neg h]
    refine ⟨_, rfl, rfl, fun h2 => absurd h2 h, fun _ => ⟨?_, ?_⟩⟩
    · simp [updateSlot, pushHistory, hr]
    · simp [hl]

/-- C4, with identities at x = 0.2 and x = 0.8 and one observation at x = 0.3: left takes
it and right only counts a lost frame. -/
theorem trackPersons_single_observation_witness :
    ∃ t1 : Tracker,
      trackPersons (trackerAt 0.2 0.8 0.5) (some [some (hipsAt 0.3 0.5)])
        = some (t1, getCurrentPersons t1) ∧
      t1.trackedPersons.left.landmarks = some (hipsAt 0.3 0.5) ∧
      t1.trackedPersons.left.position = some { x := 0.23, y := 0.5 } ∧
      t1.trackedPersons.left.history = [{ x := 0.2, y := 0.5 }, { x := 0.3, y := 0.5 }] ∧
      t1.trackedPersons.left.lostFrames = 0 ∧
      t1.trackedPersons.right.position = some { x := 0.8, y := 0.5 } ∧
      t1.trackedPersons.right.lostFrames = 1 := by
  obtain ⟨t1, h1, -, hleft, -⟩ := trackPersons_single_observation (trackerAt 0.2 0.8 0.5)
    (some (hipsAt 0.3 0.5)) (personAt 0.3 0.5) { x := 0.2, y := 0.5 } { x := 0.8, y := 0.5 }
    rfl rfl (mkPerson_hipsAt 0.3 0.5)
  have hc : euclid { x := 0.2, y := 0.5 } (personAt 0.3 0.5).position
      < euclid { x := 0.8, y := 0.5 } (personAt 0.3 0.5).position := by
    simp only [personAt, euclid_same_y]
    norm_num [abs_of_nonneg, abs_of_neg]
  obtain ⟨hL, hR⟩ := hleft hc
  refine ⟨t1, h1, by rw [hL]; rfl, ?_, ?_, by rw [hL], by rw [hR], by rw [hR]; rfl⟩
  · rw [hL]
    simp only [smoothPosition, params, personAt]
    norm_num
  · rw [hL]
    simp [trackerAt, slotAt, personAt]

/-- C6: in every state reachable from a fresh tracker both histories hold at most ten
entries; and in the matching path an identity that is assigned an observation gets as its
history the last `min 9 n` entries of its previous history of `n` entries followed by the
observation's center, so that a full history loses exactly its oldest entry. -/
theorem history_bounded_and_evicts_oldest :
    (∀ t : Tracker, Reachable t →
      t.trackedPersons.left.history.length ≤ 10 ∧ t.trackedPersons.right.history.length ≤ 10) ∧
    (∀ (slot : TrackedPerson) (p : Person),
      (∃ dropped kept : List Position, slot.history = dropped ++ kept ∧
        kept.length = min 9 slot.history.length ∧
        (updateSlot slot p).history = kept ++ [p.position]) ∧
      (∀ (oldest : Position) (others : List Position),
        slot.history = oldest :: others → others.length = 9 →
        (updateSlot slot p).history = others ++ [p.position])) ∧
    (∀ (t : Tracker) (frame : List (Option LandmarkList)) (persons : List Person)
      (lp rp : Position),
      t.trackedPersons.left.position = some lp → t.trackedPersons.right.position = some rp →
      mkPersons frame = some persons → persons ≠ [] →
      ∃ t1 : Tracker, trackPersons t (some frame) = some (t1, getCurrentPersons t1) ∧
        (t1.trackedPersons.left.history = t.trackedPersons.left.history ∨
          ∃ p ∈ persons, t1.trackedPersons.left = updateSlot t.trackedPersons.left p) ∧
        (t1.trackedPersons.right.history = t.trackedPersons.right.history ∨
          ∃ p ∈ persons, t1.trackedPersons.right = updateSlot t.trackedPersons.right p)) := by
  refine ⟨fun t h => reachable_bounded t h, fun slot p => ⟨?_, ?_⟩, ?_⟩
  · exact pushHistory_suffix slot.history p.position
  · intro oldest others hh hlen
    simp only [updateSlot, pushHistory, hh, List.length_cons, hlen]
    rfl
  · intro t frame persons lp rp hl hr hframe hne
    obtain ⟨t1, h1, h2, h3⟩ := trackPersons_matching t frame persons lp rp hl hr hframe hne
    refine ⟨t1, h1, ?_, ?_⟩
    · rcases h2 with h | h
      · exact Or.inl (by rw [h])
      · exact Or.inr h
    · rcases h3 with h | h
      · exact Or.inl (by rw [h])
      · exact Or.inr h

/-- C6, in the state reached from a fresh tracker by one single-observation frame. -/
theorem history_bounded_and_evicts_oldest_witness :
    (step fresh (some [some (hipsAt 0.2 0.5)])).trackedPersons.left.history.length ≤ 10 ∧
    (step fresh (some [some (hipsAt 0.2 0.5)])).trackedPersons.right.history.length ≤ 10 :=
  history_bounded_and_evicts_oldest.1 _ (Reachable.call fresh _ Reachable.init)

/-- C7: on a null or empty observation list `trackPersons` returns, adds one to both
identities' `lostFrames`, clears `landmarks` and `position` of exactly the identities whose
new `lostFrames` exceeds ten, and leaves `id`, `history` and the `landmarks`/`position` of the
other identities as they were; of the statistics only `stats.lostFrames` moves, by one. -/
theorem trackPersons_no_detection (t : Tracker) :
    ∃ t1 : Tracker,
      trackPersons t none = some (t1, getCurrentPersons t1) ∧
      trackPersons t (some []) = some (t1, getCurrentPersons t1) ∧
      t1.trackedPersons.left.lostFrames = t.trackedPersons.left.lostFrames + 1 ∧
      t1.trackedPersons.right.lostFrames = t.trackedPersons.right.lostFrames + 1 ∧
      (t1.trackedPersons.left.lostFrames > 10 →
        t1.trackedPersons.left.landmarks = none ∧ t1.trackedPersons.left.position = none) ∧
      (t1.trackedPersons.left.lostFrames ≤ 10 →
        t1.trackedPersons.left.landmarks = t.trackedPersons.left.landmarks ∧
        t1.trackedPersons.left.position = t.trackedPersons.left.position) ∧
      (t1.trackedPersons.right.lostFrames > 10 →
        t1.trackedPersons.right.landmarks = none ∧ t1.trackedPersons.right.position = none) ∧
      (t1.trackedPersons.right.lostFrames ≤ 10 →
        t1.trackedPersons.right.landmarks = t.trackedPersons.right.landmarks ∧
        t1.trackedPersons.right.position = t.trackedPersons.right.position) ∧
      t1.trackedPersons.left.history = t.trackedPersons.left.history ∧
      t1.trackedPersons.right.history = t.trackedPersons.right.history ∧
      t1.trackedPersons.left.id = t.trackedPersons.left.id ∧
      t1.trackedPersons.right.id = t.trackedPersons.right.id ∧
      t1.stats.swaps = t.stats.swaps ∧ t1.stats.recoveryCount = t.stats.recoveryCount ∧
      t1.stats.lostFrames = t.stats.lostFrames + 1 := by
  refine ⟨handleNoDetection t, rfl, rfl, ?_⟩
  rw [handleNoDetection_eq]
  refine ⟨rfl, rfl, ?_, ?_, ?_, ?_, rfl, rfl, rfl, rfl, rfl, rfl, rfl⟩
  · intro h
    simp only [agedSlot] at h ⊢
    simp [if_pos h]
  · intro h
    simp only [agedSlot] at h ⊢
    have h2 := not_lt.mpr h
    simp [if_neg h2]
  · intro h
    simp only [agedSlot] at h ⊢
    simp [if_pos h]
  · intro h
    simp only [agedSlot] at h ⊢
    have h2 := not_lt.mpr h
    simp [if_neg h2]

/-- C7, on the tracker whose right identity was unmatched for ten frames: an empty frame
clears the right identity and leaves the left one, now at `lostFrames = 1`, as it was. -/
theorem trackPersons_no_detection_witness :
    ∃ t1 : Tracker,
      trackPersons staleRightTracker (some []) = some (t1, getCurrentPersons t1) ∧
      t1.trackedPersons.right.lostFrames = 11 ∧
      t1.trackedPersons.right.landmarks = none ∧ t1.trackedPersons.right.position = none ∧
      t1.trackedPersons.left.lostFrames = 1 ∧
      t1.trackedPersons.left.landmarks = some (hipsAt 0.2 0.5) ∧
      t1.trackedPersons.left.position = some { x := 0.2, y := 0.5 } := by
  obtain ⟨t1, -, h, hl, hr, -, hLle, hRgt, -, -⟩ := trackPersons_no_detection staleRightTracker
  have hl1 : t1.trackedPersons.left.lostFrames = 1 := hl
  have hr1 : t1.trackedPersons.right.lostFrames = 11 := hr
  exact ⟨t1, h, hr1, (hRgt (by omega)).1, (hRgt (by omega)).2, hl1, (hLle (by omega)).1,
    (hLle (by omega)).2⟩

/-- C8: `trackPersons` raises only when some observation has no computable center, and every
value it returns holds a left and a right record that are the stored ones, except that
`landmarks` is reported as null for an identity whose stored `lostFrames` exceeds ten;
`id`, `position`, `history` and `lostFrames` are reported as stored in both cases. -/
theorem trackPersons_reports_filtered (t : Tracker)
    (landmarksArray : Option (List (Option LandmarkList))) :
    (trackPersons t landmarksArray = none ↔
      ∃ frame, landmarksArray = some frame ∧ mkPersons frame = none) ∧
    (∀ (t1 : Tracker) (out : TrackedPersons),
      trackPersons t landmarksArray = some (t1, out) →
      (t1.trackedPersons.left.lostFrames > 10 → out.left.landmarks = none) ∧
      (t1.trackedPersons.left.lostFrames ≤ 10 → out.left = t1.trackedPersons.left) ∧
      out.left.id = t1.trackedPersons.left.id ∧
      out.left.position = t1.trackedPersons.left.position ∧
      out.left.history = t1.trackedPersons.left.history ∧
      out.left.lostFrames = t1.trackedPersons.left.lostFrames ∧
      (t1.trackedPersons.right.lostFrames > 10 → out.right.landmarks = none) ∧
      (t1.trackedPersons.right.lostFrames ≤ 10 → out.right = t1.trackedPersons.right) ∧
      out.right.id = t1.trackedPersons.right.id ∧
      out.right.position = t1.trackedPersons.right.position ∧
      out.right.history = t1.trackedPersons.right.history ∧
      out.right.lostFrames = t1.trackedPersons.right.lostFrames) := by
  constructor
  · constructor
    · intro h
      match landmarksArray, h with
      | none, h => simp [trackPersons] at h
      | some [], h => simp [trackPersons] at h
      | some (lm :: lms), h =>
        refine ⟨lm :: lms, rfl, ?_⟩
        cases hp : mkPersons (lm :: lms) with
        | none => rfl
        | some persons =>
          exfalso
          have hne : persons ≠ [] := by
            intro h0
            have := mkPersons_length _ _ hp
            rw [h0] at this
            simp at this
          rw [trackPersons_nonempty t _ persons hp hne] at h
          exact matchPersons_ne_none t _ (sortPersons_ne_nil _ hne) h
    · rintro ⟨frame, rfl, hf⟩
      cases frame with
      | nil => simp [mkPersons] at hf
      | cons lm lms => simp only [trackPersons, hf]
  · intro t1 out h
    have hout : out = getCurrentPersons t1 := trackPersons_out t landmarksArray t1 out h
    subst hout
    simp only [getCurrentPersons, params]
    refine ⟨?_, ?_, ?_, ?_, ?_, ?_, ?_, ?_, ?_, ?_, ?_, ?_⟩ <;>
      first
        | (intro h2; simp [not_le.mpr h2])
        | (intro h2; simp [h2])
        | (split <;> rfl)


/-- C8, on the tracker whose right identity was unmatched for ten frames: after one more
frame with a single observation near the left identity, the right identity still stores
its landmarks and position, and is reported with `landmarks = null` and the stored position. -/
theorem trackPersons_reports_filtered_witness :
    ∃ (t1 : Tracker) (out : TrackedPersons),
      trackPersons staleRightTracker (some [some (hipsAt 0.3 0.5)]) = some (t1, out) ∧
      t1.trackedPersons.right.lostFrames = 11 ∧
      t1.trackedPersons.right.landmarks = some (hipsAt 0.8 0.5) ∧
      out.right.landmarks = none ∧
      out.right.position = some { x := 0.8, y := 0.5 } ∧
      out.left = t1.trackedPersons.left :=
  ⟨_, _, trackPersons_staleRight, rfl, rfl,
    ((trackPersons_reports_filtered staleRightTracker (some [some (hipsAt 0.3 0.5)])).2 _ _
      trackPersons_staleRight).2.2.2.2.2.2.1 (by decide),
    ((trackPersons_reports_filtered staleRightTracker (some [some (hipsAt 0.3 0.5)])).2 _ _
      trackPersons_staleRight).2.2.2.2.2.2.2.2.2.1,
    ((trackPersons_reports_filtered staleRightTracker (some [some (hipsAt 0.3 0.5)])).2 _ _
      trackPersons_staleRight).2.1 (by decide)⟩

/-- C9: from any state, the eleventh consecutive empty frame returns both identities with
`landmarks = null` and leaves both stored positions null; a following single observation then
seeds exactly one identity (left when its center x is below 0.5, right otherwise) with its
landmarks and `lostFrames = 0`, the other staying without position and reported without
landmarks; and after only ten empty frames an identity that started at `lostFrames = 0` is
still reported with the landmarks it had. -/
theorem trackPersons_loss_and_recovery (t : Tracker) :
    (∃ out : TrackedPersons,
      trackPersons (emptyFrames 10 t) (some []) = some (emptyFrames 11 t, out) ∧
      out.left.landmarks = none ∧ out.right.landmarks = none ∧
      (emptyFrames 11 t).trackedPersons.left.position = none ∧
      (emptyFrames 11 t).trackedPersons.right.position = none) ∧
    (∀ (lm : Option LandmarkList) (obs : Person), mkPerson lm = some obs →
      ∃ (t1 : Tracker) (out : TrackedPersons),
        trackPersons (emptyFrames 11 t) (some [lm]) = some (t1, out) ∧
        (obs.position.x < 0.5 →
          t1.trackedPersons.left =
            { id := t.trackedPersons.left.id, landmarks := obs.landmarks,
              position := some obs.position, history := [obs.position], lostFrames := 0 } ∧
          out.left = t1.trackedPersons.left ∧
          t1.trackedPersons.right.position = none ∧ out.right.landmarks = none) ∧
        (¬ obs.position.x < 0.5 →
          t1.trackedPersons.right =
            { id := t.trackedPersons.right.id, landmarks := obs.landmarks,
              position := some obs.position, history := [obs.position], lostFrames := 0 } ∧
          out.right = t1.trackedPersons.right ∧
          t1.trackedPersons.left.position = none ∧ out.left.landmarks = none)) ∧
    (t.trackedPersons.left.lostFrames = 0 →
      (getCurrentPersons (emptyFrames 10 t)).left.landmarks = t.trackedPersons.left.landmarks) ∧
    (t.trackedPersons.right.lostFrames = 0 →
      (getCurrentPersons (emptyFrames 10 t)).right.landmarks
        = t.trackedPersons.right.landmarks) := by
  have hL := agedSlot_iterate 11 t.trackedPersons.left
  have hR := agedSlot_iterate 11 t.trackedPersons.right
  have hs := emptyFrames_slots 11 t
  have hLn := hL.2.2.2.2 (by norm_num) (by omega)
  have hRn := hR.2.2.2.2 (by norm_num) (by omega)
  have hLf : ¬ (emptyFrames 11 t).trackedPersons.left.lostFrames ≤ 10 := by
    rw [hs.1, hL.1]; omega
  have hRf : ¬ (emptyFrames 11 t).trackedPersons.right.lostFrames ≤ 10 := by
    rw [hs.2, hR.1]; omega
  have hg := getCurrentPersons_landmarks (emptyFrames 11 t)
  rw [if_neg hLf, if_neg hRf] at hg
  refine ⟨⟨getCurrentPersons (emptyFrames 11 t), ?_, hg.1, hg.2, ?_, ?_⟩, ?_, ?_, ?_⟩
  · rw [emptyFrames_succ]; rfl
  · rw [hs.1]; exact hLn.2
  · rw [hs.2]; exact hRn.2
  · intro lm obs hobs
    have hlp : (emptyFrames 11 t).trackedPersons.left.position = none := by
      rw [hs.1]; exact hLn.2
    have hrp : (emptyFrames 11 t).trackedPersons.right.position = none := by
      rw [hs.2]; exact hRn.2
    have hidL : (emptyFrames 11 t).trackedPersons.left.id = t.trackedPersons.left.id := by
      rw [hs.1]; exact hL.2.1
    have hidR : (emptyFrames 11 t).trackedPersons.right.id = t.trackedPersons.right.id := by
      rw [hs.2]; exact hR.2.1
    exact trackPersons_reseed (emptyFrames 11 t) lm obs _ _ hidL hidR hlp hrp hLf hRf hobs
  · intro h0
    have h10 := agedSlot_iterate 10 t.trackedPersons.left
    have hs10 := emptyFrames_slots 10 t
    have hle : (emptyFrames 10 t).trackedPersons.left.lostFrames ≤ 10 := by
      rw [hs10.1, h10.1]; omega
    rw [(getCurrentPersons_landmarks _).1, if_pos hle, hs10.1]
    exact (h10.2.2.2.1 (by omega)).1
  · intro h0
    have h10 := agedSlot_iterate 10 t.trackedPersons.right
    have hs10 := emptyFrames_slots 10 t
    have hle : (emptyFrames 10 t).trackedPersons.right.lostFrames ≤ 10 := by
      rw [hs10.2, h10.1]; omega
    rw [(getCurrentPersons_landmarks _).2, if_pos hle, hs10.2]
    exact (h10.2.2.2.1 (by omega)).1


/-- C9, from identities matched at x = 0.2 and x = 0.8: after eleven empty frames one
observation at x = 0.3 seeds the left identity and the right one is reported without
landmarks; after ten empty frames the left identity is still reported with its landmarks. -/
theorem trackPersons_loss_and_recovery_witness :
    (∃ (t1 : Tracker) (out : TrackedPersons),
      trackPersons (emptyFrames 11 (trackerAt 0.2 0.8 0.5)) (some [some (hipsAt 0.3 0.5)])
        = some (t1, out) ∧
      t1.trackedPersons.left =
        { id := 0, landmarks := some (hipsAt 0.3 0.5), position := some { x := 0.3, y := 0.5 },
          history := [{ x := 0.3, y := 0.5 }], lostFrames := 0 } ∧
      out.left = t1.trackedPersons.left ∧
      t1.trackedPersons.right.position = none ∧ out.right.landmarks = none) ∧
    (getCurrentPersons (emptyFrames 10 (trackerAt 0.2 0.8 0.5))).left.landmarks
      = some (hipsAt 0.2 0.5) := by
  have hx : (personAt 0.3 0.5).position.x < 0.5 := by norm_num [personAt]
  obtain ⟨t1, out, h, hlt, -⟩ := (trackPersons_loss_and_recovery (trackerAt 0.2 0.8 0.5)).2.1
    (some (hipsAt 0.3 0.5)) (personAt 0.3 0.5) (mkPerson_hipsAt 0.3 0.5)
  exact ⟨⟨t1, out, h, hlt hx⟩,
    (trackPersons_loss_and_recovery (trackerAt 0.2 0.8 0.5)).2.2.1 rfl⟩

/-- C11, at the failing input: on a list of 25 entries whose entry 23 is absent
`calculateCenter` raises instead of returning `(0, 0)`, and so does `trackPersons` on a frame
holding that list. -/
theorem calculateCenter_raises_on_absent_hip :
    missingLeftHip.length = 25 ∧
    calculateCenter (some missingLeftHip) = none ∧
    trackPersons fresh (some [some missingLeftHip]) = none := by
  have h : calculateCenter (some missingLeftHip) = none := by
    simp [calculateCenter, missingLeftHip, List.replicate]
  refine ⟨by simp [missingLeftHip], h, ?_⟩
  simp [trackPersons, mkPersons, mkPerson, h]

/-- C12, at the failing input: a nose landmark with visibility 0 is counted with 0.5, so the
confidence of that list is 0.5 and not 0. -/
theorem calculateConfidence_zero_visibility :
    calculateConfidence (some invisibleNose) = 0.5 := by
  simp [calculateConfidence, keyPoints, invisibleNose, visibilityOrDefault]

/-- C13: whatever follows the first two observations of the sorted frame is ignored: the
call returns what the call on just those two observations' landmark lists returns, stored
state (swap statistic included) and reported records alike. -/
theorem trackPersons_ignores_beyond_two (t : Tracker) (frame : List (Option LandmarkList))
    (persons rest : List Person) (obs0 obs1 : Person)
    (hframe : mkPersons frame = some persons)
    (hsort : sortPersons persons = obs0 :: obs1 :: rest) :
    (∃ t1 : Tracker, trackPersons t (some frame) = some (t1, getCurrentPersons t1)) ∧
    trackPersons t (some frame) = trackPersons t (some [obs0.landmarks, obs1.landmarks]) := by
  have hne : persons ≠ [] := by
    rintro rfl
    simp [sortPersons] at hsort
  have hperm : (obs0 :: obs1 :: rest).Perm persons := hsort ▸ sortPersons_perm persons
  have hsorted : (obs0 :: obs1 :: rest).Sorted byX := hsort ▸ sortPersons_sorted persons
  have h0 : mkPerson obs0.landmarks = some obs0 :=
    mkPersons_mem frame persons hframe obs0 (hperm.subset (by simp))
  have h1 : mkPerson obs1.landmarks = some obs1 :=
    mkPersons_mem frame persons hframe obs1 (hperm.subset (by simp))
  have hle : obs0.position.x ≤ obs1.position.x :=
    List.rel_of_sorted_cons hsorted obs1 (by simp)
  have h2 : mkPersons [obs0.landmarks, obs1.landmarks] = some [obs0, obs1] := by
    simp [mkPersons, h0, h1]
  have hcall : trackPersons t (some frame) = matchPersons t [obs0, obs1] := by
    rw [trackPersons_nonempty t frame persons hframe hne, hsort, matchPersons_first_two]
  refine ⟨?_, ?_⟩
  · rw [hcall]
    exact matchPersons_out t _ (by simp)
  · rw [hcall, trackPersons_nonempty t _ _ h2 (by simp), sortPersons_pair obs0 obs1 hle]


/-- C13, with identities at x = 0.2 and x = 0.8 and observations at x = 0.9, 0.25 and 0.75:
the call returns what the call on the observations at x = 0.25 and x = 0.75 returns. -/
theorem trackPersons_ignores_beyond_two_witness :
    trackPersons (trackerAt 0.2 0.8 0.5)
        (some [some (hipsAt 0.9 0.5), some (hipsAt 0.25 0.5), some (hipsAt 0.75 0.5)]) =
      trackPersons (trackerAt 0.2 0.8 0.5)
        (some [some (hipsAt 0.25 0.5), some (hipsAt 0.75 0.5)]) :=
  (trackPersons_ignores_beyond_two (trackerAt 0.2 0.8 0.5)
    [some (hipsAt 0.9 0.5), some (hipsAt 0.25 0.5), some (hipsAt 0.75 0.5)]
    [personAt 0.9 0.5, personAt 0.25 0.5, personAt 0.75 0.5] [personAt 0.9 0.5]
    (personAt 0.25 0.5) (personAt 0.75 0.5)
    (mkPersons_hipsAt_triple 0.9 0.5 0.25 0.5 0.75 0.5)
    (sortPersons_triple_rotate _ _ _ (by norm_num [personAt]) (by norm_num [personAt]))).2

/-- C28: when both identities have prior positions with `left.x ≤ right.x` and the first two
sorted observations share their y coordinate with both prior positions, `costKeep ≤ costSwap`,
the swap test fails, `trackPersons` returns with `stats.swaps` unchanged, and the updated
positions still satisfy `left.x ≤ right.x`. -/
theorem trackPersons_keeps_order (t : Tracker) (frame : List (Option LandmarkList))
    (persons rest : List Person) (obs0 obs1 : Person) (lp rp : Position) (y : ℝ)
    (hl : t.trackedPersons.left.position = some lp)
    (hr : t.trackedPersons.right.position = some rp)
    (hframe : mkPersons frame = some persons)
    (hsort : sortPersons persons = obs0 :: obs1 :: rest)
    (hly : lp.y = y) (hry : rp.y = y) (h0y : obs0.position.y = y) (h1y : obs1.position.y = y)
    (hlr : lp.x ≤ rp.x) :
    costKeep lp rp obs0.position obs1.position ≤ costSwap lp rp obs0.position obs1.position ∧
    ¬ costSwap lp rp obs0.position obs1.position
        < 0.7 * costKeep lp rp obs0.position obs1.position ∧
    ∃ (t1 : Tracker) (lp1 rp1 : Position),
      trackPersons t (some frame) = some (t1, getCurrentPersons t1) ∧
      t1.stats.swaps = t.stats.swaps ∧
      t1.trackedPersons.left.position = some lp1 ∧
      t1.trackedPersons.right.position = some rp1 ∧ lp1.x ≤ rp1.x := by
  have hne : persons ≠ [] := by
    rintro rfl
    simp [sortPersons] at hsort
  have hsorted : (obs0 :: obs1 :: rest).Sorted byX := hsort ▸ sortPersons_sorted persons
  have hobs : obs0.position.x ≤ obs1.position.x :=
    List.rel_of_sorted_cons hsorted obs1 (by simp)
  have hcost := costKeep_le_costSwap_same_y lp rp obs0.position obs1.position y hly hry h0y h1y
    hlr hobs
  have hkeep : 0 ≤ costKeep lp rp obs0.position obs1.position :=
    add_nonneg (euclid_nonneg _ _) (euclid_nonneg _ _)
  have hno : ¬ costSwap lp rp obs0.position obs1.position
      < 0.7 * costKeep lp rp obs0.position obs1.position := by
    intro h
    linarith
  refine ⟨hcost, hno, ?_⟩
  rw [trackPersons_nonempty t frame persons hframe hne, hsort,
    matchPersons_two t lp rp obs0 obs1 rest hl hr, if_neg hno]
  refine ⟨_, smoothPosition (some lp) obs0.position, smoothPosition (some rp) obs1.position,
    rfl, rfl, ?_, ?_, ?_⟩
  · simp only [updateSlot, hl]
  · simp only [updateSlot, hr]
  · rw [smoothPosition_some, smoothPosition_some]
    simp only
    linarith

/-- C28, with identities at x = 0.2 and x = 0.8 and observations at x = 0.45 and x = 0.55, all
at y = 0.5: no swap, and left stays left of right. -/
theorem trackPersons_keeps_order_witness :
    ∃ (t1 : Tracker) (lp1 rp1 : Position),
      trackPersons (trackerAt 0.2 0.8 0.5) (some [some (hipsAt 0.45 0.5), some (hipsAt 0.55 0.5)])
        = some (t1, getCurrentPersons t1) ∧
      t1.stats.swaps = (trackerAt 0.2 0.8 0.5).stats.swaps ∧
      t1.trackedPersons.left.position = some lp1 ∧
      t1.trackedPersons.right.position = some rp1 ∧ lp1.x ≤ rp1.x :=
  (trackPersons_keeps_order (trackerAt 0.2 0.8 0.5)
    [some (hipsAt 0.45 0.5), some (hipsAt 0.55 0.5)] _ [] _ _
    { x := 0.2, y := 0.5 } { x := 0.8, y := 0.5 } 0.5 rfl rfl
    (mkPersons_hipsAt_pair 0.45 0.5 0.55 0.5) (sortPersons_pair _ _ (by norm_num))
    rfl rfl rfl rfl (by norm_num)).2.2

/-- C30: when the observations' centers have pairwise distinct x coordinates, `trackPersons`
returns, and returns the same stored state and the same records for every permutation of
the observation list. -/
theorem trackPersons_order_independent (t : Tracker) (frame frame2 : List (Option LandmarkList))
    (persons : List Person) (hperm : frame.Perm frame2)
    (hframe : mkPersons frame = some persons)
    (hdistinct : persons.Pairwise (fun a b => a.position.x ≠ b.position.x)) :
    (∃ t1 : Tracker, trackPersons t (some frame) = some (t1, getCurrentPersons t1)) ∧
    trackPersons t (some frame) = trackPersons t (some frame2) := by
  obtain ⟨persons2, hframe2, hp⟩ := (mkPersons_perm frame frame2 hperm).1 persons hframe
  by_cases hne : persons = []
  · subst hne
    have h2 : persons2 = [] := hp.nil_eq.symm
    subst h2
    have hf : frame = [] := by
      have := mkPersons_length frame [] hframe
      exact List.length_eq_zero.mp this.symm
    have hf2 : frame2 = [] := by
      have := mkPersons_length frame2 [] hframe2
      exact List.length_eq_zero.mp this.symm
    subst hf hf2
    exact ⟨⟨_, rfl⟩, rfl⟩
  · have hne2 : persons2 ≠ [] := by
      intro h
      rw [h] at hp
      exact hne hp.eq_nil
    rw [trackPersons_nonempty t frame persons hframe hne,
      trackPersons_nonempty t frame2 persons2 hframe2 hne2,
      sortPersons_perm_eq persons persons2 hp hdistinct]
    exact ⟨matchPersons_out t _ (sortPersons_ne_nil _ hne2), rfl⟩

/-- C30, with identities at x = 0.2 and x = 0.8: the observations at x = 0.75 and x = 0.25
give the same result in either order. -/
theorem trackPersons_order_independent_witness :
    trackPersons (trackerAt 0.2 0.8 0.5) (some [some (hipsAt 0.75 0.5), some (hipsAt 0.25 0.5)])
      = trackPersons (trackerAt 0.2 0.8 0.5)
          (some [some (hipsAt 0.25 0.5), some (hipsAt 0.75 0.5)]) :=
  (trackPersons_order_independent (trackerAt 0.2 0.8 0.5)
    [some (hipsAt 0.75 0.5), some (hipsAt 0.25 0.5)]
    [some (hipsAt 0.25 0.5), some (hipsAt 0.75 0.5)] _ (List.Perm.swap _ _ _)
    (mkPersons_hipsAt_pair 0.75 0.5 0.25 0.5)
    (by simp only [List.pairwise_cons, List.mem_singleton, forall_eq, List.not_mem_nil,
          false_implies, implies_true, List.Pairwise.nil, and_true]
        norm_num)).2

end DualPoseTracker

namespace ExerciseDetector

open DualPoseTracker (Landmark LandmarkList)

/-! ### Auxiliary lemmas for the detector -/

theorem legStep_of_fires (config : HighKneesConfig) (now dyn : ℝ) (leg : LegState) (ratio : ℝ)
    (h : Fires config now dyn leg ratio) :
    legStep config now dyn leg ratio = { up := true, lastCountTime := now } := by
  simp only [legStep, if_pos (And.intro h.1 h.2.1), if_pos h.2.2]

/-- The result and state of `detectHighKnees` when hips, knees and ankles are present. -/
theorem detectHighKnees_present (d : Detector) (now : ℝ) (random : Nat → ℝ)
    (landmarks : LandmarkList) (metrics : Metrics) (currentState : String)
    (leftHip rightHip leftKnee rightKnee leftAnkle rightAnkle : Landmark)
    (h23 : entry landmarks 23 = some leftHip) (h24 : entry landmarks 24 = some rightHip)
    (h25 : entry landmarks 25 = some leftKnee) (h26 : entry landmarks 26 = some rightKnee)
    (h27 : entry landmarks 27 = some leftAnkle) (h28 : entry landmarks 28 = some rightAnkle) :
    ∃ (d1 : Detector) (r : DetectionResult),
      detectHighKnees d now random landmarks metrics currentState = some (d1, r) ∧
      d1.config.side_slide = d.config.side_slide ∧
      d1.config.high_knees.upRatio = d.config.high_knees.upRatio ∧
      d1.config.high_knees.downRatio = d.config.high_knees.downRatio ∧
      d1.config.high_knees.minInterval = d.config.high_knees.minInterval ∧
      d1.config.high_knees.speedCompensation = d.config.high_knees.speedCompensation ∧
      d1.config.high_knees.side.left =
        legStep d.config.high_knees now (dynamicUpRatio d.config.high_knees now)
          d.config.high_knees.side.left (liftRatio leftHip leftKnee leftAnkle) ∧
      d1.config.high_knees.side.right =
        legStep d.config.high_knees now (dynamicUpRatio d.config.high_knees now)
          d.config.high_knees.side.right (liftRatio rightHip rightKnee rightAnkle) ∧
      (r.detected = true ↔
        Fires d.config.high_knees now (dynamicUpRatio d.config.high_knees now)
          d.config.high_knees.side.left (liftRatio leftHip leftKnee leftAnkle) ∨
        Fires d.config.high_knees now (dynamicUpRatio d.config.high_knees now)
          d.config.high_knees.side.right (liftRatio rightHip rightKnee rightAnkle)) ∧
      (Fires d.config.high_knees now (dynamicUpRatio d.config.high_knees now)
          d.config.high_knees.side.right (liftRatio rightHip rightKnee rightAnkle) →
        r.newState = "up_right") ∧
      (Fires d.config.high_knees now (dynamicUpRatio d.config.high_knees now)
          d.config.high_knees.side.left (liftRatio leftHip leftKnee leftAnkle) →
        ¬ Fires d.config.high_knees now (dynamicUpRatio d.config.high_knees now)
          d.config.high_knees.side.right (liftRatio rightHip rightKnee rightAnkle) →
        r.newState = "up_left") := by
  simp only [detectHighKnees, h23, h24, h25, h26, h27, h28]
  refine ⟨_, _, rfl, rfl, rfl, rfl, rfl, rfl, ?_, ?_, ?_, ?_, ?_⟩
  · simp only [legStep]
    split_ifs <;> rfl
  · simp only [legStep]
    split_ifs <;> rfl
  · simp only [Fires]
    split_ifs <;> simp_all
  · intro hR
    have h1 := And.intro hR.1 hR.2.1
    simp only [if_pos h1, if_pos hR.2.2]
    simp
  · intro hL hR
    have h1 := And.intro hL.1 hL.2.1
    simp only [if_pos h1, if_pos hL.2.2]
    simp only [Fires] at hR
    split_ifs <;> simp_all


theorem legLength_same_x (x hy ay : ℝ) (v w : Option ℝ) :
    legLength { x := x, y := hy, visibility := v } { x := x, y := ay, visibility := w }
      = |hy - ay| := by
  simp only [legLength, sub_self]
  rw [show (0:ℝ) ^ 2 + (hy - ay) ^ 2 = (hy - ay) * (hy - ay) by ring]
  exact Real.sqrt_mul_self_eq_abs _

theorem entry_legsAt (hipY kneeLY kneeRY : ℝ) :
    entry (legsAt hipY kneeLY kneeRY) 23 = some { x := 0.5, y := hipY, visibility := none } ∧
    entry (legsAt hipY kneeLY kneeRY) 24 = some { x := 0.5, y := hipY, visibility := none } ∧
    entry (legsAt hipY kneeLY kneeRY) 25 = some { x := 0.5, y := kneeLY, visibility := none } ∧
    entry (legsAt hipY kneeLY kneeRY) 26 = some { x := 0.5, y := kneeRY, visibility := none } ∧
    entry (legsAt hipY kneeLY kneeRY) 27 = some { x := 0.5, y := 1, visibility := none } ∧
    entry (legsAt hipY kneeLY kneeRY) 28 = some { x := 0.5, y := 1, visibility := none } :=
  ⟨rfl, rfl, rfl, rfl, rfl, rfl⟩

theorem dynamicUpRatio_fresh_1000 : dynamicUpRatio fresh.config.high_knees 1000 = 0.135 := by
  simp only [dynamicUpRatio, fresh, sub_zero, min_self]
  rw [max_eq_right (by norm_num)]
  norm_num

theorem liftRatio_legsAt (hipY kneeY : ℝ) (h : hipY < 1) :
    liftRatio { x := 0.5, y := hipY, visibility := none }
        { x := 0.5, y := kneeY, visibility := none } { x := 0.5, y := 1, visibility := none }
      = (hipY - kneeY) / (1 - hipY) := by
  simp only [liftRatio, legLength_same_x]
  rw [abs_of_neg (by linarith)]
  ring

theorem dynamicUpRatio_eq (config : HighKneesConfig) (now : ℝ)
    (hup : config.upRatio = 0.15) (hsc : config.speedCompensation = 0.1) :
    dynamicUpRatio config now =
      thresholdAt (min (now - config.side.left.lastCountTime)
        (now - config.side.right.lastCountTime)) := by
  simp only [dynamicUpRatio, thresholdAt, hup, hsc]

theorem thresholdAt_bounds (t : ℝ) (ht : 0 ≤ t) :
    0.105 ≤ thresholdAt t ∧ thresholdAt t ≤ 0.15 := by
  have h1 : (0.7 : ℝ) ≤ max 0.7 (1 - t / 1000 * 0.1) := le_max_left _ _
  have h2 : max 0.7 (1 - t / 1000 * 0.1) ≤ 1 := max_le (by norm_num) (by linarith)
  simp only [thresholdAt]
  constructor <;> nlinarith

theorem thresholdAt_floor (t : ℝ) (ht : 3000 ≤ t) : thresholdAt t = 0.105 := by
  have h : max 0.7 (1 - t / 1000 * 0.1) = 0.7 := max_eq_left (by linarith)
  simp only [thresholdAt, h]
  norm_num

theorem thresholdAt_antitone (t1 t2 : ℝ) (h : t1 ≤ t2) : thresholdAt t2 ≤ thresholdAt t1 := by
  have h1 : max 0.7 (1 - t2 / 1000 * 0.1) ≤ max 0.7 (1 - t1 / 1000 * 0.1) :=
    max_le_max (le_refl _) (by linarith)
  simp only [thresholdAt]
  linarith

theorem legStep_cases (config : HighKneesConfig) (now dyn : ℝ) (leg : LegState) (ratio : ℝ) :
    (leg.up = false ∧ (legStep config now dyn leg ratio).up = true ∧
      (legStep config now dyn leg ratio).lastCountTime = now ∧
      now - leg.lastCountTime > config.minInterval) ∨
    (¬ (leg.up = false ∧ (legStep config now dyn leg ratio).up = true) ∧
      (legStep config now dyn leg ratio).lastCountTime = leg.lastCountTime) := by
  simp only [legStep]
  split_ifs with h1 h2 h3
  · exact Or.inl ⟨h1.1, rfl, rfl, h2⟩
  · refine Or.inr ⟨?_, rfl⟩
    rintro ⟨h4, h5⟩
    rw [h4] at h5
    exact Bool.false_ne_true h5
  · refine Or.inr ⟨?_, rfl⟩
    rintro ⟨h4, -⟩
    rw [h3.1] at h4
    exact Bool.false_ne_true h4.symm
  · refine Or.inr ⟨?_, rfl⟩
    rintro ⟨h4, h5⟩
    rw [h4] at h5
    exact Bool.false_ne_true h5

/-- What a call of `detectHighKnees` does to the two legs' entries: nothing, or `legStep`. -/
theorem highKneesStep_cases (d : Detector) (call : HighKneesCall) :
    (highKneesStep d call).config.high_knees.minInterval = d.config.high_knees.minInterval ∧
    (highKneesStep d call = d ∨
      ∃ (dyn ratioL ratioR : ℝ),
        (highKneesStep d call).config.high_knees.side.left =
          legStep d.config.high_knees call.now dyn d.config.high_knees.side.left ratioL ∧
        (highKneesStep d call).config.high_knees.side.right =
          legStep d.config.high_knees call.now dyn d.config.high_knees.side.right ratioR) := by
  cases h23 : entry call.landmarks 23 with
  | none => simp [highKneesStep, detectHighKnees, h23]
  | some leftHip =>
  cases h24 : entry call.landmarks 24 with
  | none => simp [highKneesStep, detectHighKnees, h23, h24]
  | some rightHip =>
  cases h25 : entry call.landmarks 25 with
  | none => simp [highKneesStep, detectHighKnees, h23, h24, h25]
  | some leftKnee =>
  cases h26 : entry call.landmarks 26 with
  | none => simp [highKneesStep, detectHighKnees, h23, h24, h25, h26]
  | some rightKnee =>
  cases h27 : entry call.landmarks 27 with
  | none => simp [highKneesStep, detectHighKnees, h23, h24, h25, h26, h27]
  | some leftAnkle =>
  cases h28 : entry call.landmarks 28 with
  | none => simp [highKneesStep, detectHighKnees, h23, h24, h25, h26, h27, h28]
  | some rightAnkle =>
    obtain ⟨d1, r, hcall, -, -, -, hmin, -, hL, hR, -⟩ :=
      detectHighKnees_present d call.now call.random call.landmarks call.metrics
        call.currentState leftHip rightHip leftKnee rightKnee leftAnkle rightAnkle
        h23 h24 h25 h26 h27 h28
    have hstep : highKneesStep d call = d1 := by simp only [highKneesStep, hcall]
    rw [hstep]
    exact ⟨hmin, Or.inr ⟨_, _, _, hL, hR⟩⟩

/-- One call, seen from one leg: either the leg counts, its `lastCountTime` becoming `now`,
more than `minInterval` after the previous value; or it does not and `lastCountTime` stays. -/
theorem highKneesStep_leg (d : Detector) (call : HighKneesCall) :
    (highKneesStep d call).config.high_knees.minInterval = d.config.high_knees.minInterval ∧
    (∀ leg : Sides → LegState, leg = Sides.left ∨ leg = Sides.right →
      ((leg d.config.high_knees.side).up = false ∧
        (leg (highKneesStep d call).config.high_knees.side).up = true ∧
        (leg (highKneesStep d call).config.high_knees.side).lastCountTime = call.now ∧
        call.now - (leg d.config.high_knees.side).lastCountTime
          > d.config.high_knees.minInterval) ∨
      (¬ ((leg d.config.high_knees.side).up = false ∧
          (leg (highKneesStep d call).config.high_knees.side).up = true) ∧
        (leg (highKneesStep d call).config.high_knees.side).lastCountTime =
          (leg d.config.high_knees.side).lastCountTime)) := by
  obtain ⟨hmin, hcases⟩ := highKneesStep_cases d call
  refine ⟨hmin, ?_⟩
  intro leg hleg
  rcases hcases with h | ⟨dyn, ratioL, ratioR, hL, hR⟩
  · rw [h]
    refine Or.inr ⟨?_, rfl⟩
    rintro ⟨h1, h2⟩
    rw [h1] at h2
    exact Bool.false_ne_true h2
  · rcases hleg with rfl | rfl
    · rw [hL]
      exact legStep_cases _ _ _ _ _
    · rw [hR]
      exact legStep_cases _ _ _ _ _

theorem countTimes_spaced (leg : Sides → LegState) (hleg : leg = Sides.left ∨ leg = Sides.right) :
    ∀ (calls : List HighKneesCall) (d : Detector), d.config.high_knees.minInterval = 150 →
      (countTimes leg d calls).Pairwise (fun earlier later => later - earlier > 150) ∧
      ∀ c ∈ countTimes leg d calls, c - (leg d.config.high_knees.side).lastCountTime > 150
  | [], d, _ => by simp [countTimes]
  | call :: rest, d, hmin => by
    obtain ⟨hmin1, hlegs⟩ := highKneesStep_leg d call
    have ih := countTimes_spaced leg hleg rest (highKneesStep d call) (hmin1.trans hmin)
    rcases hlegs leg hleg with ⟨h1, h2, h3, h4⟩ | ⟨h1, h2⟩
    · simp only [countTimes, if_pos (And.intro h1 h2)]
      rw [h3] at ih
      rw [hmin] at h4
      refine ⟨List.pairwise_cons.mpr ⟨ih.2, ih.1⟩, ?_⟩
      intro c hc
      rcases List.mem_cons.mp hc with rfl | hc2
      · exact h4
      · have := ih.2 c hc2
        linarith
    · simp only [countTimes, if_neg h1]
      rw [h2] at ih
      exact ih

theorem countTimes_mem (leg : Sides → LegState) :
    ∀ (calls : List HighKneesCall) (d : Detector),
      ∀ c ∈ countTimes leg d calls, ∃ call ∈ calls, c = call.now
  | [], d => by simp [countTimes]
  | call :: rest, d => by
    intro c hc
    simp only [countTimes] at hc
    split_ifs at hc with h
    · rcases List.mem_cons.mp hc with rfl | hc2
      · exact ⟨call, by simp, rfl⟩
      · obtain ⟨call2, hm, he⟩ := countTimes_mem leg rest _ c hc2
        exact ⟨call2, List.mem_cons_of_mem _ hm, he⟩
    · obtain ⟨call2, hm, he⟩ := countTimes_mem leg rest _ c hc
      exact ⟨call2, List.mem_cons_of_mem _ hm, he⟩


theorem countTimes_quiet (leg : Sides → LegState) (hleg : leg = Sides.left ∨ leg = Sides.right)
    (d : Detector) (calls : List HighKneesCall) (hmin : d.config.high_knees.minInterval = 150)
    (hnear : ∀ call ∈ calls, call.now ≤ (leg d.config.high_knees.side).lastCountTime + 150) :
    countTimes leg d calls = [] := by
  apply List.eq_nil_iff_forall_not_mem.mpr
  intro c hc
  obtain ⟨call, hm, rfl⟩ := countTimes_mem leg calls d c hc
  have h1 := (countTimes_spaced leg hleg calls d hmin).2 _ hc
  have h2 := hnear call hm
  linarith

theorem countTimes_once (leg : Sides → LegState) (hleg : leg = Sides.left ∨ leg = Sides.right)
    (d : Detector) (first second third : HighKneesCall)
    (hmin : d.config.high_knees.minInterval = 150)
    (hdown : (leg d.config.high_knees.side).up = false)
    (hup : (leg (highKneesStep d first).config.high_knees.side).up = true)
    (h2 : second.now ≤ first.now + 100) (h3 : third.now ≤ first.now + 100) :
    countTimes leg d [first, second, third] = [first.now] := by
  obtain ⟨hmin1, hlegs⟩ := highKneesStep_leg d first
  rcases hlegs leg hleg with ⟨-, -, hlast, -⟩ | ⟨hno, -⟩
  · rw [countTimes, if_pos (And.intro hdown hup),
      countTimes_quiet leg hleg _ [second, third] (hmin1.trans hmin)]
    intro call hcall
    rw [hlast]
    rcases List.mem_cons.mp hcall with rfl | hcall2
    · linarith
    · rw [List.mem_singleton] at hcall2
      subst hcall2
      linarith
  · exact absurd (And.intro hdown hup) hno

theorem highKneesStep_fresh_left_up :
    ((highKneesStep fresh (leftKneeCall 1000 0.3)).config.high_knees.side.left).up = true := by
  obtain ⟨d1, r, hcall, -, -, -, -, -, hL, -⟩ :=
    detectHighKnees_present fresh 1000 (fun _ => 0) (legsAt 0.5 0.3 0.6) someMetrics "idle"
      _ _ _ _ _ _ (entry_legsAt 0.5 0.3 0.6).1 (entry_legsAt 0.5 0.3 0.6).2.1
      (entry_legsAt 0.5 0.3 0.6).2.2.1 (entry_legsAt 0.5 0.3 0.6).2.2.2.1
      (entry_legsAt 0.5 0.3 0.6).2.2.2.2.1 (entry_legsAt 0.5 0.3 0.6).2.2.2.2.2
  have hfires : Fires fresh.config.high_knees 1000 (dynamicUpRatio fresh.config.high_knees 1000)
      fresh.config.high_knees.side.left
      (liftRatio { x := 0.5, y := 0.5, visibility := none }
        { x := 0.5, y := 0.3, visibility := none }
        { x := 0.5, y := 1, visibility := none }) := by
    refine ⟨rfl, ?_, ?_⟩
    · rw [dynamicUpRatio_fresh_1000, liftRatio_legsAt 0.5 0.3 (by norm_num)]
      norm_num
    · simp only [fresh]; norm_num
  have hstep : highKneesStep fresh (leftKneeCall 1000 0.3) = d1 := by
    simp only [highKneesStep, leftKneeCall, hcall]
  rw [hstep, hL, legStep_of_fires _ _ _ _ _ hfires]

/-- The result and state of `detectSideSlide` when both hips are present. -/
theorem detectSideSlide_present (d : Detector) (now : ℝ) (random : Nat → ℝ)
    (landmarks : LandmarkList) (currentState : String) (leftHip rightHip : Landmark)
    (h23 : entry landmarks 23 = some leftHip) (h24 : entry landmarks 24 = some rightHip) :
    detectSideSlide d now random landmarks currentState =
      ({ config := { d.config with
           side_slide := (slideStep d.config.side_slide now (hipCenterX leftHip rightHip)).1 } },
       { detected := (slideStep d.config.side_slide now (hipCenterX leftHip rightHip)).2,
         newState := (slideStep d.config.side_slide now (hipCenterX leftHip rightHip)).1.state,
         feedback :=
           if (slideStep d.config.side_slide now (hipCenterX leftHip rightHip)).2 = true then
             getRandomFeedback (random 0) "side_slide"
           else some "" }) := by
  simp only [detectSideSlide, h23, h24, slideStep, hipCenterX]
  split_ifs <;> simp_all

theorem detectSideSlide_absent (d : Detector) (now : ℝ) (random : Nat → ℝ)
    (landmarks : LandmarkList) (currentState : String)
    (h : entry landmarks 23 = none ∨ entry landmarks 24 = none) :
    detectSideSlide d now random landmarks currentState =
      (d, { detected := false, newState := currentState, feedback := some "" }) := by
  simp only [detectSideSlide]
  rcases h with h | h
  · rw [h]
  · rw [h]
    cases entry landmarks 23 <;> rfl

theorem slideStep_thresholds (config : SideSlideConfig) (now x : ℝ) :
    (slideStep config now x).1.leftThreshold = config.leftThreshold ∧
    (slideStep config now x).1.rightThreshold = config.rightThreshold ∧
    (slideStep config now x).1.centerMin = config.centerMin ∧
    (slideStep config now x).1.centerMax = config.centerMax ∧
    (slideStep config now x).1.minInterval = config.minInterval := by
  simp only [slideStep]
  split_ifs <;> exact ⟨rfl, rfl, rfl, rfl, rfl⟩


theorem slideStep_outward_left (config : SideSlideConfig) (now x : ℝ)
    (hs : config.state = "center" ∨ config.state = "idle")
    (hx : x < config.leftThreshold) (ht : now - config.lastMoveTime > config.minInterval) :
    slideStep config now x = ({ config with state := "left", lastMoveTime := now }, true) := by
  simp only [slideStep, if_pos hs, if_pos (And.intro hx ht)]

theorem slideStep_outward_right (config : SideSlideConfig) (now x : ℝ)
    (hs : config.state = "center" ∨ config.state = "idle")
    (hlt : config.leftThreshold ≤ config.rightThreshold)
    (hx : x > config.rightThreshold) (ht : now - config.lastMoveTime > config.minInterval) :
    slideStep config now x = ({ config with state := "right", lastMoveTime := now }, true) := by
  have hno : ¬ (x < config.leftThreshold ∧ now - config.lastMoveTime > config.minInterval) := by
    rintro ⟨h, -⟩
    linarith
  simp only [slideStep, if_pos hs, if_neg hno, if_pos (And.intro hx ht)]

theorem slideStep_inward (config : SideSlideConfig) (now x : ℝ)
    (hs : config.state = "left" ∨ config.state = "right")
    (hx1 : x > config.centerMin) (hx2 : x < config.centerMax) :
    slideStep config now x = ({ config with state := "center" }, false) := by
  have hno : ¬ (config.state = "center" ∨ config.state = "idle") := by
    rcases hs with h | h <;> rw [h] <;> decide
  simp only [slideStep, if_neg hno, if_pos hs, if_pos (And.intro hx1 hx2)]

theorem slideStep_otherwise (config : SideSlideConfig) (now x : ℝ)
    (h1 : ¬ ((config.state = "center" ∨ config.state = "idle") ∧ x < config.leftThreshold ∧
      now - config.lastMoveTime > config.minInterval))
    (h2 : ¬ ((config.state = "center" ∨ config.state = "idle") ∧ x > config.rightThreshold ∧
      now - config.lastMoveTime > config.minInterval))
    (h3 : ¬ ((config.state = "left" ∨ config.state = "right") ∧ x > config.centerMin ∧
      x < config.centerMax)) :
    slideStep config now x = (config, false) := by
  simp only [slideStep]
  split_ifs with a b c e f
  · exact absurd ⟨a, b⟩ h1
  · exact absurd ⟨a, c⟩ h2
  · rfl
  · exact absurd ⟨e, f⟩ h3
  · rfl
  · rfl

theorem entry_slideAt (x : ℝ) :
    entry (slideAt x) 23 = some { x := x, y := 0.5, visibility := none } ∧
    entry (slideAt x) 24 = some { x := x, y := 0.5, visibility := none } :=
  ⟨rfl, rfl⟩

theorem hipCenterX_same (x y1 y2 : ℝ) (v w : Option ℝ) :
    hipCenterX { x := x, y := y1, visibility := v } { x := x, y := y2, visibility := w } = x := by
  simp only [hipCenterX]
  ring

/-- One step of the state machine, by cases: an outward move that is detected, or no
detection, with either no change of state or a return to center. -/
theorem slideStep_cases (config : SideSlideConfig) (now x : ℝ) :
    ((slideStep config now x).2 = true ∧
      (config.state = "center" ∨ config.state = "idle") ∧
      now - config.lastMoveTime > config.minInterval ∧
      ((slideStep config now x).1.state = "left" ∨ (slideStep config now x).1.state = "right") ∧
      (slideStep config now x).1.lastMoveTime = now) ∨
    ((slideStep config now x).2 = false ∧
      (slideStep config now x).1.lastMoveTime = config.lastMoveTime ∧
      ((slideStep config now x).1.state = config.state ∨
        ((config.state = "left" ∨ config.state = "right") ∧
          x > config.centerMin ∧ x < config.centerMax ∧
          (slideStep config now x).1.state = "center"))) := by
  simp only [slideStep]
  split_ifs with a b c e f
  · exact Or.inl ⟨rfl, a, b.2, Or.inl rfl, rfl⟩
  · exact Or.inl ⟨rfl, a, c.2, Or.inr rfl, rfl⟩
  · exact Or.inr ⟨rfl, rfl, Or.inl rfl⟩
  · exact Or.inr ⟨rfl, rfl, Or.inr ⟨e, f.1, f.2, rfl⟩⟩
  · exact Or.inr ⟨rfl, rfl, Or.inl rfl⟩
  · exact Or.inr ⟨rfl, rfl, Or.inl rfl⟩

/-- One call of `detectSideSlide`, by cases. -/
theorem sideSlideStep_cases (d : Detector) (call : SideSlideCall)
    (hthr : SideSlideThresholds d.config.side_slide) :
    SideSlideThresholds (sideSlideStep d call).config.side_slide ∧
    ((sideSlideDetected d call = true ∧
        (d.config.side_slide.state = "center" ∨ d.config.side_slide.state = "idle") ∧
        call.now - d.config.side_slide.lastMoveTime > 300 ∧
        ((sideSlideStep d call).config.side_slide.state = "left" ∨
          (sideSlideStep d call).config.side_slide.state = "right") ∧
        (sideSlideStep d call).config.side_slide.lastMoveTime = call.now) ∨
      (sideSlideDetected d call = false ∧
        (sideSlideStep d call).config.side_slide.lastMoveTime
          = d.config.side_slide.lastMoveTime ∧
        ((sideSlideStep d call).config.side_slide.state = d.config.side_slide.state ∨
          ((d.config.side_slide.state = "left" ∨ d.config.side_slide.state = "right") ∧
            ReturnsToCenter call ∧
            (sideSlideStep d call).config.side_slide.state = "center")))) := by
  cases h23 : entry call.landmarks 23 with
  | none =>
    have h := detectSideSlide_absent d call.now call.random call.landmarks call.currentState
      (Or.inl h23)
    unfold sideSlideStep sideSlideDetected
    rw [h]
    exact ⟨hthr, Or.inr ⟨rfl, rfl, Or.inl rfl⟩⟩
  | some leftHip =>
    cases h24 : entry call.landmarks 24 with
    | none =>
      have h := detectSideSlide_absent d call.now call.random call.landmarks call.currentState
        (Or.inr h24)
      unfold sideSlideStep sideSlideDetected
      rw [h]
      exact ⟨hthr, Or.inr ⟨rfl, rfl, Or.inl rfl⟩⟩
    | some rightHip =>
      simp only [sideSlideStep, sideSlideDetected,
        detectSideSlide_present d call.now call.random call.landmarks call.currentState
          leftHip rightHip h23 h24]
      obtain ⟨t1, t2, t3, t4, t5⟩ :=
        slideStep_thresholds d.config.side_slide call.now (hipCenterX leftHip rightHip)
      obtain ⟨hl, hr, hmin, hmax, hint⟩ := hthr
      refine ⟨⟨t1.trans hl, t2.trans hr, t3.trans hmin, t4.trans hmax, t5.trans hint⟩, ?_⟩
      rcases slideStep_cases d.config.side_slide call.now (hipCenterX leftHip rightHip) with
        ⟨h1, h2, h3, h4, h5⟩ | ⟨h1, h2, h3⟩
      · rw [hint] at h3
        exact Or.inl ⟨h1, h2, h3, h4, h5⟩
      · refine Or.inr ⟨h1, h2, ?_⟩
        rcases h3 with h3 | ⟨h3, h4, h5, h6⟩
        · exact Or.inl h3
        · rw [hmin] at h4
          rw [hmax] at h5
          exact Or.inr ⟨h3, ⟨leftHip, rightHip, h23, h24, h4, h5⟩, h6⟩

/-- Along a sequence of calls the thresholds stay and `lastMoveTime` never decreases. -/
theorem runSideSlide_lastMove : ∀ (calls : List SideSlideCall) (d : Detector),
    SideSlideThresholds d.config.side_slide →
    SideSlideThresholds (runSideSlide d calls).config.side_slide ∧
    d.config.side_slide.lastMoveTime ≤ (runSideSlide d calls).config.side_slide.lastMoveTime
  | [], _, hthr => ⟨hthr, le_refl _⟩
  | call :: rest, d, hthr => by
    obtain ⟨hthr1, hcase⟩ := sideSlideStep_cases d call hthr
    obtain ⟨hthr2, hle⟩ := runSideSlide_lastMove rest (sideSlideStep d call) hthr1
    refine ⟨hthr2, ?_⟩
    have hstep : d.config.side_slide.lastMoveTime
        ≤ (sideSlideStep d call).config.side_slide.lastMoveTime := by
      rcases hcase with ⟨-, -, h3, -, h5⟩ | ⟨-, h2, -⟩
      · rw [h5]; linarith
      · rw [h2]
    exact le_trans hstep hle

/-- From `left` or `right`, a sequence without a return to center leaves the state as it is. -/
theorem runSideSlide_stays : ∀ (calls : List SideSlideCall) (d : Detector),
    SideSlideThresholds d.config.side_slide →
    (d.config.side_slide.state = "left" ∨ d.config.side_slide.state = "right") →
    (∀ call ∈ calls, ¬ ReturnsToCenter call) →
    (runSideSlide d calls).config.side_slide.state = d.config.side_slide.state
  | [], _, _, _, _ => rfl
  | call :: rest, d, hthr, hs, hno => by
    obtain ⟨hthr1, hcase⟩ := sideSlideStep_cases d call hthr
    have hno1 : ¬ ReturnsToCenter call := hno call (by simp)
    have hsame : (sideSlideStep d call).config.side_slide.state = d.config.side_slide.state := by
      rcases hcase with ⟨-, h2, -⟩ | ⟨-, -, h3⟩
      · exfalso
        rcases hs with h | h <;> rw [h] at h2 <;> revert h2 <;> decide
      · rcases h3 with h3 | ⟨-, h4, -⟩
        · exact h3
        · exact absurd h4 hno1
    have ih := runSideSlide_stays rest (sideSlideStep d call) hthr1 (by rw [hsame]; exact hs)
      (fun c hc => hno c (List.mem_cons_of_mem _ hc))
    exact ih.trans hsame


theorem slideCall_step (state : String) (last now x : ℝ) :
    sideSlideStep (slideState state last) (slideCall now x) =
      { config := { (slideState state last).config with
          side_slide := (slideStep (slideState state last).config.side_slide now x).1 } } ∧
    sideSlideDetected (slideState state last) (slideCall now x) =
      (slideStep (slideState state last).config.side_slide now x).2 := by
  have h := detectSideSlide_present (slideState state last) now (fun _ => 0) (slideAt x) "idle"
    _ _ (entry_slideAt x).1 (entry_slideAt x).2
  rw [hipCenterX_same] at h
  unfold sideSlideStep sideSlideDetected
  simp only [slideCall]
  rw [h]
  exact ⟨rfl, rfl⟩

theorem slideCall_out_left (last now x : ℝ) (hx : x < 0.35) (ht : now - last > 300) :
    sideSlideStep (slideState "center" last) (slideCall now x) = slideState "left" now ∧
    sideSlideDetected (slideState "center" last) (slideCall now x) = true := by
  obtain ⟨h1, h2⟩ := slideCall_step "center" last now x
  rw [h1, h2, slideStep_outward_left _ _ _ (Or.inl rfl) hx ht]
  exact ⟨rfl, rfl⟩

theorem slideCall_in (last now x : ℝ) (hx1 : 0.45 < x) (hx2 : x < 0.55) :
    sideSlideStep (slideState "left" last) (slideCall now x) = slideState "center" last ∧
    sideSlideDetected (slideState "left" last) (slideCall now x) = false := by
  obtain ⟨h1, h2⟩ := slideCall_step "left" last now x
  rw [h1, h2, slideStep_inward _ _ _ (Or.inl rfl) hx1 hx2]
  exact ⟨rfl, rfl⟩

theorem slideCall_stay_center (last now x : ℝ) (hx1 : 0.35 ≤ x) (hx2 : x ≤ 0.65) :
    sideSlideStep (slideState "center" last) (slideCall now x) = slideState "center" last ∧
    sideSlideDetected (slideState "center" last) (slideCall now x) = false := by
  obtain ⟨h1, h2⟩ := slideCall_step "center" last now x
  have hc : (slideState "center" last).config.side_slide.state = "center" := rfl
  rw [h1, h2, slideStep_otherwise _ _ _
    (by rintro ⟨-, h, -⟩; exact absurd h (not_lt.mpr hx1))
    (by rintro ⟨-, h, -⟩; exact absurd h (not_lt.mpr hx2))
    (by rintro ⟨h, -⟩; rw [hc] at h; revert h; decide)]
  exact ⟨rfl, rfl⟩

theorem slideCall_stay_left (last now x : ℝ) (hx : x ≤ 0.45) :
    sideSlideStep (slideState "left" last) (slideCall now x) = slideState "left" last ∧
    sideSlideDetected (slideState "left" last) (slideCall now x) = false := by
  obtain ⟨h1, h2⟩ := slideCall_step "left" last now x
  have hc : (slideState "left" last).config.side_slide.state = "left" := rfl
  rw [h1, h2, slideStep_otherwise _ _ _
    (by rintro ⟨h, -⟩; rw [hc] at h; revert h; decide)
    (by rintro ⟨h, -⟩; rw [hc] at h; revert h; decide)
    (by rintro ⟨-, h, -⟩; exact absurd h (not_lt.mpr hx))]
  exact ⟨rfl, rfl⟩

theorem slideTrace_example :
    slideTrace fresh [slideCall 1000 0.5, slideCall 1400 0.3, slideCall 1800 0.3,
        slideCall 2200 0.48, slideCall 2600 0.3] =
      [("center", false), ("left", true), ("left", false), ("center", false), ("left", true)] := by
  have h0 := slideCall_stay_center 0 1000 0.5 (by norm_num) (by norm_num)
  have h1 := slideCall_out_left 0 1400 0.3 (by norm_num) (by norm_num)
  have h2 := slideCall_stay_left 1400 1800 0.3 (by norm_num)
  have h3 := slideCall_in 1400 2200 0.48 (by norm_num) (by norm_num)
  have h4 := slideCall_out_left 1400 2600 0.3 (by norm_num) (by norm_num)
  have hf : fresh = slideState "center" 0 := rfl
  rw [hf]
  simp only [slideTrace, h0.1, h0.2, h1.1, h1.2, h2.1, h2.2, h3.1, h3.2, h4.1, h4.2]
  rfl

/-- The part of C24 that the code satisfies: for a draw in `[0, 1)` and a type that is
`high_knees`, `side_slide`, or not a property name inherited from `Object.prototype`, the
result is the entry at index `⌊10 * r⌋` of the type's list (the high-knees list for an
unknown type), which exists. -/
theorem getRandomFeedback_member (r : ℝ) (h0 : 0 ≤ r) (h1 : r < 1) (exerciseType : String)
    (hkey : exerciseType ∉ objectPrototypeKeys) :
    Nat.floor (r * 10) < 10 ∧
    getRandomFeedback r exerciseType =
      (if exerciseType = "side_slide" then sideSlideFeedbacks else highKneesFeedbacks).get?
        (Nat.floor (r * 10)) ∧
    ∃ phrase ∈ (if exerciseType = "side_slide" then sideSlideFeedbacks else highKneesFeedbacks),
      getRandomFeedback r exerciseType = some phrase := by
  have hidx : Nat.floor (r * 10) < 10 := by
    rw [Nat.floor_lt (by positivity)]
    push_cast
    linarith
  have hlenH : (highKneesFeedbacks.length : ℝ) = 10 := by
    simp [highKneesFeedbacks]
  have hlenS : (sideSlideFeedbacks.length : ℝ) = 10 := by
    simp [sideSlideFeedbacks]
  have heq : getRandomFeedback r exerciseType =
      (if exerciseType = "side_slide" then sideSlideFeedbacks else highKneesFeedbacks).get?
        (Nat.floor (r * 10)) := by
    simp only [getRandomFeedback, hlenH, hlenS, if_neg hkey]
    by_cases hk : exerciseType = "high_knees"
    · have hs : ¬ exerciseType = "side_slide" := by rw [hk]; decide
      simp only [if_pos hk, if_neg hs]
    · by_cases hs : exerciseType = "side_slide"
      · simp only [if_neg hk, if_pos hs]
      · simp only [if_neg hk, if_neg hs]
  refine ⟨hidx, heq, ?_⟩
  rw [heq]
  have hlen : Nat.floor (r * 10) <
      (if exerciseType = "side_slide" then sideSlideFeedbacks else highKneesFeedbacks).length := by
    split_ifs
    · exact hidx
    · exact hidx
  refine ⟨_, List.get_mem _ (Nat.floor (r * 10)) hlen, ?_⟩
  exact List.get?_eq_get hlen

theorem legStep_up (config : HighKneesConfig) (now dyn : ℝ) (leg : LegState) (ratio : ℝ)
    (hup : leg.up = true) :
    ((legStep config now dyn leg ratio).up = false ↔ ratio < config.downRatio) ∧
    (ratio < config.downRatio →
      legStep config now dyn leg ratio = { up := false, lastCountTime := leg.lastCountTime }) ∧
    (¬ ratio < config.downRatio → legStep config now dyn leg ratio = leg) := by
  have h1 : ¬ (leg.up = false ∧ ratio > dyn) := by
    rintro ⟨h, -⟩
    rw [hup] at h
    exact Bool.noConfusion h
  by_cases h2 : ratio < config.downRatio
  · have heq : legStep config now dyn leg ratio
        = { up := false, lastCountTime := leg.lastCountTime } := by
      simp only [legStep, if_neg h1, if_pos (And.intro hup h2)]
    rw [heq]
    exact ⟨⟨fun _ => h2, fun _ => rfl⟩, fun _ => rfl, fun h => absurd h2 h⟩
  · have h3 : ¬ (leg.up = true ∧ ratio < config.downRatio) := fun h => h2 h.2
    have heq : legStep config now dyn leg ratio = leg := by
      simp only [legStep, if_neg h1, if_neg h3]
    rw [heq]
    refine ⟨⟨fun h => ?_, fun h => absurd h h2⟩, fun h => absurd h h2, fun _ => rfl⟩
    rw [hup] at h
    exact Bool.noConfusion h

theorem legStep_dead_band (config : HighKneesConfig) (now dyn : ℝ) (leg : LegState) (ratio : ℝ)
    (hlow : config.downRatio ≤ ratio) (hhigh : ratio ≤ dyn) :
    legStep config now dyn leg ratio = leg := by
  have h1 : ¬ (leg.up = false ∧ ratio > dyn) := fun h => absurd h.2 (not_lt.mpr hhigh)
  have h2 : ¬ (leg.up = true ∧ ratio < config.downRatio) :=
    fun h => absurd h.2 (not_lt.mpr hlow)
  simp only [legStep, if_neg h1, if_neg h2]

/-- A call of `detectHighKnees` either leaves the state as it is or finds hips, knees and
ankles and applies `legStep` to both legs with their lift ratios. -/
theorem highKneesStep_eq (d : Detector) (call : HighKneesCall) :
    (highKneesStep d call).config.high_knees.downRatio = d.config.high_knees.downRatio ∧
    (highKneesStep d call = d ∨
      ∃ leftHip rightHip leftKnee rightKnee leftAnkle rightAnkle : Landmark,
        entry call.landmarks 23 = some leftHip ∧ entry call.landmarks 24 = some rightHip ∧
        entry call.landmarks 25 = some leftKnee ∧ entry call.landmarks 26 = some rightKnee ∧
        entry call.landmarks 27 = some leftAnkle ∧ entry call.landmarks 28 = some rightAnkle ∧
        (highKneesStep d call).config.high_knees.side.left =
          legStep d.config.high_knees call.now (dynamicUpRatio d.config.high_knees call.now)
            d.config.high_knees.side.left (liftRatio leftHip leftKnee leftAnkle) ∧
        (highKneesStep d call).config.high_knees.side.right =
          legStep d.config.high_knees call.now (dynamicUpRatio d.config.high_knees call.now)
            d.config.high_knees.side.right (liftRatio rightHip rightKnee rightAnkle)) := by
  cases h23 : entry call.landmarks 23 with
  | none => simp [highKneesStep, detectHighKnees, h23]
  | some leftHip =>
  cases h24 : entry call.landmarks 24 with
  | none => simp [highKneesStep, detectHighKnees, h23, h24]
  | some rightHip =>
  cases h25 : entry call.landmarks 25 with
  | none => simp [highKneesStep, detectHighKnees, h23, h24, h25]
  | some leftKnee =>
  cases h26 : entry call.landmarks 26 with
  | none => simp [highKneesStep, detectHighKnees, h23, h24, h25, h26]
  | some rightKnee =>
  cases h27 : entry call.landmarks 27 with
  | none => simp [highKneesStep, detectHighKnees, h23, h24, h25, h26, h27]
  | some leftAnkle =>
  cases h28 : entry call.landmarks 28 with
  | none => simp [highKneesStep, detectHighKnees, h23, h24, h25, h26, h27, h28]
  | some rightAnkle =>
    obtain ⟨d1, r, hcall, -, -, hdown, -, -, hL, hR, -⟩ :=
      detectHighKnees_present d call.now call.random call.landmarks call.metrics
        call.currentState leftHip rightHip leftKnee rightKnee leftAnkle rightAnkle
        h23 h24 h25 h26 h27 h28
    have hstep : highKneesStep d call = d1 := by simp only [highKneesStep, hcall]
    rw [hstep]
    exact ⟨hdown, Or.inr ⟨leftHip, rightHip, leftKnee, rightKnee, leftAnkle, rightAnkle,
      rfl, rfl, rfl, rfl, rfl, rfl, hL, hR⟩⟩

/-- A leg's flag goes from true to false only in a call that lowers that leg. -/
theorem highKneesStep_lowers (d : Detector) (call : HighKneesCall)
    (hdown : d.config.high_knees.downRatio = 0.05) :
    (LeftLegNonZero call → d.config.high_knees.side.left.up = true →
      (highKneesStep d call).config.high_knees.side.left.up = false → LeftLowered call) ∧
    (RightLegNonZero call → d.config.high_knees.side.right.up = true →
      (highKneesStep d call).config.high_knees.side.right.up = false → RightLowered call) := by
  obtain ⟨-, hcase⟩ := highKneesStep_eq d call
  rcases hcase with h | ⟨lh, rh, lk, rk, la, ra, h23, h24, h25, h26, h27, h28, hL, hR⟩
  · rw [h]
    constructor
    · intro _ h1 h2
      rw [h1] at h2
      exact Bool.noConfusion h2
    · intro _ h1 h2
      rw [h1] at h2
      exact Bool.noConfusion h2
  · constructor
    · intro hnz h1 h2
      rw [hL] at h2
      have := ((legStep_up _ _ _ _ _ h1).1).mp h2
      rw [hdown] at this
      exact ⟨lh, rh, lk, rk, la, ra, h23, h24, h25, h26, h27, h28, hnz lh la h23 h27, this⟩
    · intro hnz h1 h2
      rw [hR] at h2
      have := ((legStep_up _ _ _ _ _ h1).1).mp h2
      rw [hdown] at this
      exact ⟨lh, rh, lk, rk, la, ra, h23, h24, h25, h26, h27, h28, hnz rh ra h24 h28, this⟩

/-- While no call lowers a leg of non-zero length, that leg's flag stays up. -/
theorem runHighKnees_stays_up : ∀ (calls : List HighKneesCall) (d : Detector),
    d.config.high_knees.downRatio = 0.05 →
    ((∀ call ∈ calls, LeftLegNonZero call) → d.config.high_knees.side.left.up = true →
      (∀ call ∈ calls, ¬ LeftLowered call) →
      (runHighKnees d calls).config.high_knees.side.left.up = true) ∧
    ((∀ call ∈ calls, RightLegNonZero call) → d.config.high_knees.side.right.up = true →
      (∀ call ∈ calls, ¬ RightLowered call) →
      (runHighKnees d calls).config.high_knees.side.right.up = true)
  | [], _, _ => ⟨fun _ h _ => h, fun _ h _ => h⟩
  | call :: rest, d, hdown => by
    obtain ⟨hdown1, -⟩ := highKneesStep_eq d call
    obtain ⟨hl, hr⟩ := highKneesStep_lowers d call hdown
    obtain ⟨ihl, ihr⟩ := runHighKnees_stays_up rest (highKneesStep d call) (hdown1.trans hdown)
    constructor
    · intro hnz hup hno
      have h1 : (highKneesStep d call).config.high_knees.side.left.up = true := by
        by_contra hc
        exact hno call (by simp) (hl (hnz call (by simp)) hup (by simpa using hc))
      exact ihl (fun c hc => hnz c (List.mem_cons_of_mem _ hc)) h1
        (fun c hc => hno c (List.mem_cons_of_mem _ hc))
    · intro hnz hup hno
      have h1 : (highKneesStep d call).config.high_knees.side.right.up = true := by
        by_contra hc
        exact hno call (by simp) (hr (hnz call (by simp)) hup (by simpa using hc))
      exact ihr (fun c hc => hnz c (List.mem_cons_of_mem _ hc)) h1
        (fun c hc => hno c (List.mem_cons_of_mem _ hc))

/-- The legs of `leftKneeCall` run from the hip at height 0.5 to the ankle at height 1. -/
theorem leftKneeCall_left_nonzero (now kneeLY : ℝ) : LeftLegNonZero (leftKneeCall now kneeLY) := by
  intro leftHip leftAnkle h23 h27
  have e := entry_legsAt 0.5 kneeLY 0.6
  have h23b : entry (legsAt 0.5 kneeLY 0.6) 23 = some leftHip := h23
  have h27b : entry (legsAt 0.5 kneeLY 0.6) 27 = some leftAnkle := h27
  rw [e.1] at h23b
  rw [e.2.2.2.2.1] at h27b
  rw [← Option.some.inj h23b, ← Option.some.inj h27b, legLength_same_x]
  norm_num


/-- The stored state after a call that finds hips, knees and ankles. -/
theorem highKneesStep_present (d : Detector) (call : HighKneesCall)
    (leftHip rightHip leftKnee rightKnee leftAnkle rightAnkle : Landmark)
    (h23 : entry call.landmarks 23 = some leftHip) (h24 : entry call.landmarks 24 = some rightHip)
    (h25 : entry call.landmarks 25 = some leftKnee)
    (h26 : entry call.landmarks 26 = some rightKnee)
    (h27 : entry call.landmarks 27 = some leftAnkle)
    (h28 : entry call.landmarks 28 = some rightAnkle) :
    highKneesStep d call =
      { config := { d.config with
          high_knees := { d.config.high_knees with
            side :=
              { left := legStep d.config.high_knees call.now
                  (dynamicUpRatio d.config.high_knees call.now) d.config.high_knees.side.left
                  (liftRatio leftHip leftKnee leftAnkle)
                right := legStep d.config.high_knees call.now
                  (dynamicUpRatio d.config.high_knees call.now) d.config.high_knees.side.right
                  (liftRatio rightHip rightKnee rightAnkle) } } } } := by
  simp only [highKneesStep, detectHighKnees, h23, h24, h25, h26, h27, h28, legStep]
  split_ifs <;> rfl

theorem legStep_keep_down (config : HighKneesConfig) (now dyn : ℝ) (leg : LegState) (ratio : ℝ)
    (hup : leg.up = false) (hle : ratio ≤ dyn) : legStep config now dyn leg ratio = leg := by
  have h1 : ¬ (leg.up = false ∧ ratio > dyn) := fun h => absurd h.2 (not_lt.mpr hle)
  have h2 : ¬ (leg.up = true ∧ ratio < config.downRatio) := by
    rintro ⟨h, -⟩
    rw [hup] at h
    exact Bool.noConfusion h
  simp only [legStep, if_neg h1, if_neg h2]

/-- The threshold of a state with the constructor's thresholds lies in `[0.105, 0.15]` once
both last count times are at most `now`. -/
theorem dynamicUpRatio_legsState (leftUp rightUp : Bool) (leftTime rightTime now : ℝ)
    (hl : leftTime ≤ now) (hr : rightTime ≤ now) :
    0.105 ≤ dynamicUpRatio (legsState leftUp leftTime rightUp rightTime).config.high_knees now ∧
    dynamicUpRatio (legsState leftUp leftTime rightUp rightTime).config.high_knees now ≤ 0.15 := by
  rw [dynamicUpRatio_eq _ now rfl rfl]
  exact thresholdAt_bounds _ (le_min (by simpa [legsState] using hl) (by simpa [legsState] using hr))

/-- A call with the left knee raised (lift ratio 0.4) and the right knee below its hip, on a
state with the left flag down and the right flag down: the left leg counts. -/
theorem leftKneeCall_counts (leftTime rightTime now : ℝ) (hl : leftTime + 150 < now)
    (hr : rightTime ≤ now) :
    highKneesStep (legsState false leftTime false rightTime) (leftKneeCall now 0.3) =
      legsState true now false rightTime := by
  have hdyn := dynamicUpRatio_legsState false false leftTime rightTime now (by linarith) hr
  rw [highKneesStep_present _ (leftKneeCall now 0.3) _ _ _ _ _ _ (entry_legsAt 0.5 0.3 0.6).1
    (entry_legsAt 0.5 0.3 0.6).2.1 (entry_legsAt 0.5 0.3 0.6).2.2.1
    (entry_legsAt 0.5 0.3 0.6).2.2.2.1 (entry_legsAt 0.5 0.3 0.6).2.2.2.2.1
    (entry_legsAt 0.5 0.3 0.6).2.2.2.2.2,
    liftRatio_legsAt 0.5 0.3 (by norm_num), liftRatio_legsAt 0.5 0.6 (by norm_num)]
  have hnow : (leftKneeCall now 0.3).now = now := rfl
  rw [hnow, legStep_of_fires _ _ _ _ _ ⟨rfl, by linarith [hdyn.2, show ((0.5:ℝ) - 0.3) / (1 - 0.5) = 0.4 by norm_num], by
      show now - leftTime > 150
      linarith⟩,
    legStep_keep_down _ _ _ _ _ rfl (by linarith [hdyn.1, show ((0.5:ℝ) - 0.6) / (1 - 0.5) = -0.2 by norm_num])]
  rfl

/-- A call with both knees below the hips on a state with the left flag up: the left flag
goes down and nothing else changes. -/
theorem leftKneeCall_lowers (leftTime rightTime now : ℝ) (hl : leftTime ≤ now)
    (hr : rightTime ≤ now) :
    highKneesStep (legsState true leftTime false rightTime) (leftKneeCall now 0.6) =
      legsState false leftTime false rightTime := by
  have hdyn := dynamicUpRatio_legsState true false leftTime rightTime now hl hr
  rw [highKneesStep_present _ (leftKneeCall now 0.6) _ _ _ _ _ _ (entry_legsAt 0.5 0.6 0.6).1
    (entry_legsAt 0.5 0.6 0.6).2.1 (entry_legsAt 0.5 0.6 0.6).2.2.1
    (entry_legsAt 0.5 0.6 0.6).2.2.2.1 (entry_legsAt 0.5 0.6 0.6).2.2.2.2.1
    (entry_legsAt 0.5 0.6 0.6).2.2.2.2.2,
    liftRatio_legsAt 0.5 0.6 (by norm_num)]
  have hnow : (leftKneeCall now 0.6).now = now := rfl
  have hlow : ((0.5:ℝ) - 0.6) / (1 - 0.5)
      < (legsState true leftTime false rightTime).config.high_knees.downRatio := by
    show ((0.5:ℝ) - 0.6) / (1 - 0.5) < 0.05
    norm_num
  rw [hnow, (legStep_up _ _ _ _ _ rfl).2.1 hlow,
    legStep_keep_down _ _ _ _ _ rfl (by linarith [hdyn.1, show ((0.5:ℝ) - 0.6) / (1 - 0.5) = -0.2 by norm_num])]
  rfl


theorem detectExercise_high_knees (d : Detector) (now : ℝ) (random : Nat → ℝ)
    (landmarks : LandmarkList) (metrics : Metrics) (currentState : String)
    (hlen : 29 ≤ landmarks.length) :
    detectExercise d now random (some landmarks) metrics "high_knees" currentState =
      detectHighKnees d now random landmarks metrics currentState := by
  simp only [detectExercise, if_neg (not_lt.mpr hlen), if_true]

theorem detectExercise_side_slide (d : Detector) (now : ℝ) (random : Nat → ℝ)
    (landmarks : LandmarkList) (metrics : Metrics) (currentState : String)
    (hlen : 29 ≤ landmarks.length) :
    detectExercise d now random (some landmarks) metrics "side_slide" currentState =
      some (detectSideSlide d now random landmarks currentState) := by
  have h : ¬ ("side_slide" = "high_knees") := by decide
  simp only [detectExercise, if_neg (not_lt.mpr hlen), if_neg h, if_true]

theorem dynamicUpRatio_floor (config : HighKneesConfig) (now : ℝ)
    (hup : config.upRatio = 0.15) : 0.105 ≤ dynamicUpRatio config now := by
  simp only [dynamicUpRatio, hup]
  have h1 : (0.7 : ℝ) ≤ max 0.7
      (1 - min (now - config.side.left.lastCountTime) (now - config.side.right.lastCountTime)
        / 1000 * config.speedCompensation) := le_max_left _ _
  nlinarith

theorem legsAt_ne (k1 k2 : ℝ) (h : k1 ≠ k2) : legsAt 0.5 k1 0.6 ≠ legsAt 0.5 k2 0.6 := by
  intro heq
  have h25 := congrArg (fun l => entry l 25) heq
  simp only [(entry_legsAt 0.5 k1 0.6).2.2.1, (entry_legsAt 0.5 k2 0.6).2.2.1,
    Option.some.injEq, Landmark.mk.injEq, true_and, and_true] at h25
  exact h h25

/-- On a fresh detector at time 1000 a call with the left knee raised by `0.5 - kneeLY` of a
leg of length 0.5, at least 0.1, counts for the left leg. -/
theorem fresh_left_knee_detected (kneeLY : ℝ) (hk : kneeLY ≤ 0.4) :
    ∃ (d1 : Detector) (r : DetectionResult),
      detectExercise fresh 1000 (fun _ => 0) (some (legsAt 0.5 kneeLY 0.6)) someMetrics
        "high_knees" "idle" = some (d1, r) ∧
      r.detected = true ∧
      d1.config.high_knees.side.left = { up := true, lastCountTime := 1000 } ∧
      d1.config.high_knees.upRatio = 0.15 ∧
      d1.config.high_knees.minInterval = 150 := by
  rw [detectExercise_high_knees _ _ _ _ _ _ (by simp [legsAt])]
  obtain ⟨d1, r, hcall, -, hup, -, hmin, -, hL, -, hdet, -, -⟩ :=
    detectHighKnees_present fresh 1000 (fun _ => 0) (legsAt 0.5 kneeLY 0.6) someMetrics "idle"
      _ _ _ _ _ _ (entry_legsAt 0.5 kneeLY 0.6).1 (entry_legsAt 0.5 kneeLY 0.6).2.1
      (entry_legsAt 0.5 kneeLY 0.6).2.2.1 (entry_legsAt 0.5 kneeLY 0.6).2.2.2.1
      (entry_legsAt 0.5 kneeLY 0.6).2.2.2.2.1 (entry_legsAt 0.5 kneeLY 0.6).2.2.2.2.2
  have hfires : Fires fresh.config.high_knees 1000 (dynamicUpRatio fresh.config.high_knees 1000)
      fresh.config.high_knees.side.left
      (liftRatio { x := 0.5, y := 0.5, visibility := none }
        { x := 0.5, y := kneeLY, visibility := none }
        { x := 0.5, y := 1, visibility := none }) := by
    refine ⟨rfl, ?_, ?_⟩
    · rw [dynamicUpRatio_fresh_1000, liftRatio_legsAt 0.5 kneeLY (by norm_num)]
      rw [gt_iff_lt, lt_div_iff₀ (by norm_num)]
      linarith
    · simp only [fresh]; norm_num
  exact ⟨d1, r, hcall, hdet.mpr (Or.inl hfires),
    by rw [hL, legStep_of_fires _ _ _ _ _ hfires], hup, hmin⟩

/-- On a detector whose left flag is up, a call with the right knee below its hip is not
detected. -/
theorem left_up_not_detected (d : Detector) (now kneeLY : ℝ)
    (hup : d.config.high_knees.upRatio = 0.15)
    (hflag : d.config.high_knees.side.left.up = true) :
    ∃ (d1 : Detector) (r : DetectionResult),
      detectExercise d now (fun _ => 0) (some (legsAt 0.5 kneeLY 0.6)) someMetrics
        "high_knees" "idle" = some (d1, r) ∧
      r.detected = false := by
  rw [detectExercise_high_knees _ _ _ _ _ _ (by simp [legsAt])]
  obtain ⟨d1, r, hcall, -, -, -, -, -, -, -, hdet, -, -⟩ :=
    detectHighKnees_present d now (fun _ => 0) (legsAt 0.5 kneeLY 0.6) someMetrics "idle"
      _ _ _ _ _ _ (entry_legsAt 0.5 kneeLY 0.6).1 (entry_legsAt 0.5 kneeLY 0.6).2.1
      (entry_legsAt 0.5 kneeLY 0.6).2.2.1 (entry_legsAt 0.5 kneeLY 0.6).2.2.2.1
      (entry_legsAt 0.5 kneeLY 0.6).2.2.2.2.1 (entry_legsAt 0.5 kneeLY 0.6).2.2.2.2.2
  refine ⟨d1, r, hcall, ?_⟩
  cases hr : r.detected with
  | false => rfl
  | true =>
    exfalso
    rcases hdet.mp hr with h | h
    · have := h.1
      rw [hflag] at this
      exact Bool.noConfusion this
    · have h2 := h.2.1
      rw [liftRatio_legsAt 0.5 0.6 (by norm_num)] at h2
      have h3 := dynamicUpRatio_floor d.config.high_knees now hup
      norm_num at h2
      linarith

/-! ### The detector claims -/

/-- C14: when the landmark list is null or has fewer than 29 entries, or the exercise type is
neither `high_knees` nor `side_slide`, `detectExercise` returns the neutral result with the
caller's state and leaves the whole detector state as it was. -/
theorem detectExercise_neutral (d : Detector) (now : ℝ) (random : Nat → ℝ)
    (landmarks : Option LandmarkList) (metrics : Metrics) (exerciseType currentState : String)
    (h : landmarks = none ∨ (∃ lms, landmarks = some lms ∧ lms.length < 29) ∨
      (exerciseType ≠ "high_knees" ∧ exerciseType ≠ "side_slide")) :
    detectExercise d now random landmarks metrics exerciseType currentState =
      some (d, { detected := false, newState := currentState, feedback := some "" }) := by
  rcases h with rfl | ⟨lms, rfl, hlen⟩ | ⟨h1, h2⟩
  · rfl
  · simp only [detectExercise, if_pos hlen]
  · cases landmarks with
    | none => rfl
    | some lms =>
      simp only [detectExercise, if_neg h1, if_neg h2]
      split <;> rfl

/-- C14, on a fresh detector: a list of 25 entries, and an unknown exercise type. -/
theorem detectExercise_neutral_witness :
    detectExercise fresh 1000 (fun _ => 0) (some (List.replicate 25 none)) someMetrics
        "high_knees" "idle" =
      some (fresh, { detected := false, newState := "idle", feedback := some "" }) ∧
    detectExercise fresh 1000 (fun _ => 0) (some (legsAt 0.5 0.3 0.6)) someMetrics
        "squat" "idle" =
      some (fresh, { detected := false, newState := "idle", feedback := some "" }) :=
  ⟨detectExercise_neutral fresh 1000 _ _ someMetrics "high_knees" "idle"
      (Or.inr (Or.inl ⟨_, rfl, by simp⟩)),
   detectExercise_neutral fresh 1000 _ _ someMetrics "squat" "idle"
      (Or.inr (Or.inr ⟨by decide, by decide⟩))⟩

/-- C15: with hips, knees and ankles present and non-zero leg lengths, `detectHighKnees`
returns, with `detected = true` exactly when at least one leg satisfies the rising condition
(flag down, lift ratio above the dynamic threshold, more than 150 ms since that leg's last
count); every leg that satisfies it gets its flag set and its `lastCountTime` stamped with
`now`; and when only the left (right) leg satisfies it `newState` is `up_left` (`up_right`). -/
theorem detectHighKnees_detects (d : Detector) (now : ℝ) (random : Nat → ℝ)
    (landmarks : LandmarkList) (metrics : Metrics) (currentState : String)
    (leftHip rightHip leftKnee rightKnee leftAnkle rightAnkle : Landmark)
    (h23 : entry landmarks 23 = some leftHip) (h24 : entry landmarks 24 = some rightHip)
    (h25 : entry landmarks 25 = some leftKnee) (h26 : entry landmarks 26 = some rightKnee)
    (h27 : entry landmarks 27 = some leftAnkle) (h28 : entry landmarks 28 = some rightAnkle)
    (_hleft : legLength leftHip leftAnkle ≠ 0) (_hright : legLength rightHip rightAnkle ≠ 0)
    (hmin : d.config.high_knees.minInterval = 150) :
    ∃ (d1 : Detector) (r : DetectionResult),
      detectHighKnees d now random landmarks metrics currentState = some (d1, r) ∧
      (r.detected = true ↔
        Rising d.config.high_knees now d.config.high_knees.side.left
          (liftRatio leftHip leftKnee leftAnkle) ∨
        Rising d.config.high_knees now d.config.high_knees.side.right
          (liftRatio rightHip rightKnee rightAnkle)) ∧
      (Rising d.config.high_knees now d.config.high_knees.side.left
          (liftRatio leftHip leftKnee leftAnkle) →
        d1.config.high_knees.side.left = { up := true, lastCountTime := now }) ∧
      (Rising d.config.high_knees now d.config.high_knees.side.right
          (liftRatio rightHip rightKnee rightAnkle) →
        d1.config.high_knees.side.right = { up := true, lastCountTime := now }) ∧
      (Rising d.config.high_knees now d.config.high_knees.side.left
          (liftRatio leftHip leftKnee leftAnkle) →
        ¬ Rising d.config.high_knees now d.config.high_knees.side.right
          (liftRatio rightHip rightKnee rightAnkle) → r.newState = "up_left") ∧
      (Rising d.config.high_knees now d.config.high_knees.side.right
          (liftRatio rightHip rightKnee rightAnkle) →
        ¬ Rising d.config.high_knees now d.config.high_knees.side.left
          (liftRatio leftHip leftKnee leftAnkle) → r.newState = "up_right") := by
  obtain ⟨d1, r, hcall, -, -, -, -, -, hL, hR, hdet, hright, hleft⟩ :=
    detectHighKnees_present d now random landmarks metrics currentState leftHip rightHip
      leftKnee rightKnee leftAnkle rightAnkle h23 h24 h25 h26 h27 h28
  have hiff : ∀ (leg : LegState) (ratio : ℝ),
      Rising d.config.high_knees now leg ratio ↔
        Fires d.config.high_knees now (dynamicUpRatio d.config.high_knees now) leg ratio := by
    intro leg ratio
    simp only [Rising, Fires, hmin]
  refine ⟨d1, r, hcall, ?_, ?_, ?_, ?_, ?_⟩
  · rw [hdet, hiff, hiff]
  · intro h
    rw [hL, legStep_of_fires _ _ _ _ _ ((hiff _ _).mp h)]
  · intro h
    rw [hR, legStep_of_fires _ _ _ _ _ ((hiff _ _).mp h)]
  · intro h1 h2
    exact hleft ((hiff _ _).mp h1) (fun h3 => h2 ((hiff _ _).mpr h3))
  · intro h1 _
    exact hright ((hiff _ _).mp h1)

/-- C15, on a fresh detector at time 1000 with the left knee raised (lift ratio 0.4) and the
right knee below its hip: the call counts, for the left leg. -/
theorem detectHighKnees_detects_witness :
    ∃ (d1 : Detector) (r : DetectionResult),
      detectHighKnees fresh 1000 (fun _ => 0) (legsAt 0.5 0.3 0.6) someMetrics "idle"
        = some (d1, r) ∧
      r.detected = true ∧ r.newState = "up_left" ∧
      d1.config.high_knees.side.left = { up := true, lastCountTime := 1000 } := by
  have hlen : legLength { x := 0.5, y := 0.5, visibility := none }
      { x := 0.5, y := 1, visibility := none } ≠ 0 := by
    rw [legLength_same_x]; norm_num
  obtain ⟨d1, r, hcall, hdet, hL, -, hnew, -⟩ :=
    detectHighKnees_detects fresh 1000 (fun _ => 0) (legsAt 0.5 0.3 0.6) someMetrics "idle"
      _ _ _ _ _ _ (entry_legsAt 0.5 0.3 0.6).1 (entry_legsAt 0.5 0.3 0.6).2.1
      (entry_legsAt 0.5 0.3 0.6).2.2.1 (entry_legsAt 0.5 0.3 0.6).2.2.2.1
      (entry_legsAt 0.5 0.3 0.6).2.2.2.2.1 (entry_legsAt 0.5 0.3 0.6).2.2.2.2.2 hlen hlen rfl
  have hrise : Rising fresh.config.high_knees 1000 fresh.config.high_knees.side.left
      (liftRatio { x := 0.5, y := 0.5, visibility := none }
        { x := 0.5, y := 0.3, visibility := none }
        { x := 0.5, y := 1, visibility := none }) := by
    refine ⟨rfl, ?_, ?_⟩
    · rw [dynamicUpRatio_fresh_1000, liftRatio_legsAt 0.5 0.3 (by norm_num)]
      norm_num
    · simp only [fresh]; norm_num
  have hnot : ¬ Rising fresh.config.high_knees 1000 fresh.config.high_knees.side.right
      (liftRatio { x := 0.5, y := 0.5, visibility := none }
        { x := 0.5, y := 0.6, visibility := none }
        { x := 0.5, y := 1, visibility := none }) := by
    rintro ⟨-, h, -⟩
    rw [dynamicUpRatio_fresh_1000, liftRatio_legsAt 0.5 0.6 (by norm_num)] at h
    norm_num at h
  exact ⟨d1, r, hcall, hdet.mpr (Or.inl hrise), hnew hrise hnot, hL hrise⟩

/-- C16: with the constructor's `upRatio` and `speedCompensation`, the up-threshold used by
`detectHighKnees` is `0.15 * max(0.7, 1 - (t / 1000) * 0.1)` for
`t = min(now - lastCountTime_left, now - lastCountTime_right)`; it lies in `[0.105, 0.15]`
when both last count times are at most `now`, and equals 0.105 when `t ≥ 3000`. -/
theorem dynamicUpRatio_value_and_bounds (config : HighKneesConfig) (now : ℝ)
    (hup : config.upRatio = 0.15) (hsc : config.speedCompensation = 0.1) :
    dynamicUpRatio config now =
      0.15 * max 0.7
        (1 - min (now - config.side.left.lastCountTime)
                 (now - config.side.right.lastCountTime) / 1000 * 0.1) ∧
    (config.side.left.lastCountTime ≤ now → config.side.right.lastCountTime ≤ now →
      0.105 ≤ dynamicUpRatio config now ∧ dynamicUpRatio config now ≤ 0.15) ∧
    (3000 ≤ min (now - config.side.left.lastCountTime)
               (now - config.side.right.lastCountTime) →
      dynamicUpRatio config now = 0.105) := by
  refine ⟨by simp only [dynamicUpRatio, hup, hsc], ?_, ?_⟩
  · intro hl hr
    rw [dynamicUpRatio_eq config now hup hsc]
    exact thresholdAt_bounds _ (le_min (by linarith) (by linarith))
  · intro ht
    rw [dynamicUpRatio_eq config now hup hsc]
    exact thresholdAt_floor _ ht

/-- C16, on a detector whose legs last counted at times 400 and 700, at time 1000: the
threshold is within `[0.105, 0.15]`. -/
theorem dynamicUpRatio_value_and_bounds_witness :
    0.105 ≤ dynamicUpRatio (countedAt 400 700).config.high_knees 1000 ∧
    dynamicUpRatio (countedAt 400 700).config.high_knees 1000 ≤ 0.15 :=
  (dynamicUpRatio_value_and_bounds (countedAt 400 700).config.high_knees 1000 rfl rfl).2.1
    (by simp only [countedAt]; norm_num) (by simp only [countedAt]; norm_num)

/-- C17, as stated, fails: the threshold for the shorter interval 0 is 0.15 and the one for
the longer interval 3000 is 0.105, so the shorter interval has the larger threshold. -/
theorem shorter_interval_has_higher_threshold :
    dynamicUpRatio (countedAt 1000 1000).config.high_knees 1000 = 0.15 ∧
    dynamicUpRatio (countedAt 1000 1000).config.high_knees 4000 = 0.105 ∧
    ¬ (dynamicUpRatio (countedAt 1000 1000).config.high_knees 1000 ≤
        dynamicUpRatio (countedAt 1000 1000).config.high_knees 4000) := by
  have h1 : dynamicUpRatio (countedAt 1000 1000).config.high_knees 1000 = 0.15 := by
    simp only [dynamicUpRatio, countedAt, fresh, sub_self, min_self]
    rw [max_eq_right (by norm_num)]
    norm_num
  have h2 : dynamicUpRatio (countedAt 1000 1000).config.high_knees 4000 = 0.105 := by
    simp only [dynamicUpRatio, countedAt, fresh, min_self]
    rw [max_eq_left (by norm_num)]
    norm_num
  refine ⟨h1, h2, ?_⟩
  rw [h1, h2]
  norm_num

/-- C17, amended: the threshold does not increase with the time since the last count (a
shorter interval gives a threshold at least as large as a longer one), and it is never
below 70% of the nominal 0.15. -/
theorem dynamicUpRatio_antitone (config : HighKneesConfig) (now1 now2 : ℝ)
    (hup : config.upRatio = 0.15) (hsc : config.speedCompensation = 0.1)
    (hle : min (now1 - config.side.left.lastCountTime) (now1 - config.side.right.lastCountTime)
      ≤ min (now2 - config.side.left.lastCountTime) (now2 - config.side.right.lastCountTime)) :
    dynamicUpRatio config now2 ≤ dynamicUpRatio config now1 ∧
    0.7 * 0.15 ≤ dynamicUpRatio config now2 ∧ 0.7 * 0.15 ≤ dynamicUpRatio config now1 := by
  rw [dynamicUpRatio_eq config now1 hup hsc, dynamicUpRatio_eq config now2 hup hsc]
  have hfloor : ∀ t : ℝ, 0.7 * 0.15 ≤ thresholdAt t := by
    intro t
    have h1 : (0.7 : ℝ) ≤ max 0.7 (1 - t / 1000 * 0.1) := le_max_left _ _
    simp only [thresholdAt]
    nlinarith
  exact ⟨thresholdAt_antitone _ _ hle, hfloor _, hfloor _⟩

/-- C17, amended, on a detector whose legs last counted at time 1000, at times 1000 and
4000. -/
theorem dynamicUpRatio_antitone_witness :
    dynamicUpRatio (countedAt 1000 1000).config.high_knees 4000 ≤
      dynamicUpRatio (countedAt 1000 1000).config.high_knees 1000 :=
  (dynamicUpRatio_antitone (countedAt 1000 1000).config.high_knees 1000 4000 rfl rfl
    (by simp only [countedAt, min_self]; norm_num)).1

/-- C18: along any sequence of `detectHighKnees` calls on a detector with the constructor's
`minInterval`, the timestamps of the calls in which a given leg counts are pairwise more than
150 ms apart, in call order; in particular, when a leg counts in one call and the next two
calls come within 100 ms of it, that leg counts exactly once in the three calls, whatever
its lift ratio does in them. -/
theorem highKnees_debounce (d : Detector) (hmin : d.config.high_knees.minInterval = 150) :
    (∀ calls : List HighKneesCall,
      (countTimes Sides.left d calls).Pairwise (fun earlier later => later - earlier > 150) ∧
      (countTimes Sides.right d calls).Pairwise (fun earlier later => later - earlier > 150)) ∧
    (∀ first second third : HighKneesCall,
      second.now ≤ first.now + 100 → third.now ≤ first.now + 100 →
      (d.config.high_knees.side.left.up = false →
        (highKneesStep d first).config.high_knees.side.left.up = true →
        countTimes Sides.left d [first, second, third] = [first.now]) ∧
      (d.config.high_knees.side.right.up = false →
        (highKneesStep d first).config.high_knees.side.right.up = true →
        countTimes Sides.right d [first, second, third] = [first.now])) := by
  refine ⟨fun calls => ⟨?_, ?_⟩, fun first second third h2 h3 => ⟨?_, ?_⟩⟩
  · exact (countTimes_spaced Sides.left (Or.inl rfl) calls d hmin).1
  · exact (countTimes_spaced Sides.right (Or.inr rfl) calls d hmin).1
  · intro hdown hup
    exact countTimes_once Sides.left (Or.inl rfl) d first second third hmin hdown hup h2 h3
  · intro hdown hup
    exact countTimes_once Sides.right (Or.inr rfl) d first second third hmin hdown hup h2 h3

/-- C18, on a fresh detector: the left knee up at time 1000 (lift ratio 0.4), down at 1050
(lift ratio -0.2) and up again at 1100 gives exactly one left count, at time 1000. -/
theorem highKnees_debounce_witness :
    countTimes Sides.left fresh
      [leftKneeCall 1000 0.3, leftKneeCall 1050 0.6, leftKneeCall 1100 0.3] = [1000] :=
  ((highKnees_debounce fresh rfl).2 (leftKneeCall 1000 0.3) (leftKneeCall 1050 0.6)
    (leftKneeCall 1100 0.3) (by simp only [leftKneeCall]; norm_num)
    (by simp only [leftKneeCall]; norm_num)).1 rfl highKneesStep_fresh_left_up

/-- C19: when both legs satisfy the rising condition in the same call, `detectHighKnees`
returns one result with `detected = true` and `newState = "up_right"`, and both legs have
their flag set and their `lastCountTime` equal to `now`. -/
theorem detectHighKnees_both_legs (d : Detector) (now : ℝ) (random : Nat → ℝ)
    (landmarks : LandmarkList) (metrics : Metrics) (currentState : String)
    (leftHip rightHip leftKnee rightKnee leftAnkle rightAnkle : Landmark)
    (h23 : entry landmarks 23 = some leftHip) (h24 : entry landmarks 24 = some rightHip)
    (h25 : entry landmarks 25 = some leftKnee) (h26 : entry landmarks 26 = some rightKnee)
    (h27 : entry landmarks 27 = some leftAnkle) (h28 : entry landmarks 28 = some rightAnkle)
    (hmin : d.config.high_knees.minInterval = 150)
    (hleft : Rising d.config.high_knees now d.config.high_knees.side.left
      (liftRatio leftHip leftKnee leftAnkle))
    (hright : Rising d.config.high_knees now d.config.high_knees.side.right
      (liftRatio rightHip rightKnee rightAnkle)) :
    ∃ (d1 : Detector) (r : DetectionResult),
      detectHighKnees d now random landmarks metrics currentState = some (d1, r) ∧
      r.detected = true ∧ r.newState = "up_right" ∧
      d1.config.high_knees.side.left = { up := true, lastCountTime := now } ∧
      d1.config.high_knees.side.right = { up := true, lastCountTime := now } := by
  obtain ⟨d1, r, hcall, -, -, -, -, -, hL, hR, hdet, hnew, -⟩ :=
    detectHighKnees_present d now random landmarks metrics currentState leftHip rightHip
      leftKnee rightKnee leftAnkle rightAnkle h23 h24 h25 h26 h27 h28
  have hfl : Fires d.config.high_knees now (dynamicUpRatio d.config.high_knees now)
      d.config.high_knees.side.left (liftRatio leftHip leftKnee leftAnkle) := by
    simpa only [Rising, Fires, hmin] using hleft
  have hfr : Fires d.config.high_knees now (dynamicUpRatio d.config.high_knees now)
      d.config.high_knees.side.right (liftRatio rightHip rightKnee rightAnkle) := by
    simpa only [Rising, Fires, hmin] using hright
  refine ⟨d1, r, hcall, hdet.mpr (Or.inl hfl), hnew hfr, ?_, ?_⟩
  · rw [hL, legStep_of_fires _ _ _ _ _ hfl]
  · rw [hR, legStep_of_fires _ _ _ _ _ hfr]

/-- C19, on a fresh detector at time 1000 with both knees raised (lift ratio 0.4). -/
theorem detectHighKnees_both_legs_witness :
    ∃ (d1 : Detector) (r : DetectionResult),
      detectHighKnees fresh 1000 (fun _ => 0) (legsAt 0.5 0.3 0.3) someMetrics "idle"
        = some (d1, r) ∧
      r.detected = true ∧ r.newState = "up_right" ∧
      d1.config.high_knees.side.left = { up := true, lastCountTime := 1000 } ∧
      d1.config.high_knees.side.right = { up := true, lastCountTime := 1000 } := by
  have hrise : Rising fresh.config.high_knees 1000 { up := false, lastCountTime := 0 }
      (liftRatio { x := 0.5, y := 0.5, visibility := none }
        { x := 0.5, y := 0.3, visibility := none }
        { x := 0.5, y := 1, visibility := none }) := by
    refine ⟨rfl, ?_, ?_⟩
    · rw [dynamicUpRatio_fresh_1000, liftRatio_legsAt 0.5 0.3 (by norm_num)]
      norm_num
    · norm_num
  exact detectHighKnees_both_legs fresh 1000 (fun _ => 0) (legsAt 0.5 0.3 0.3) someMetrics "idle"
    _ _ _ _ _ _ (entry_legsAt 0.5 0.3 0.3).1 (entry_legsAt 0.5 0.3 0.3).2.1
    (entry_legsAt 0.5 0.3 0.3).2.2.1 (entry_legsAt 0.5 0.3 0.3).2.2.2.1
    (entry_legsAt 0.5 0.3 0.3).2.2.2.2.1 (entry_legsAt 0.5 0.3 0.3).2.2.2.2.2 rfl hrise hrise

/-- C21: with both hips present and the constructor's thresholds, `detectSideSlide` follows
the transition table on `x = (leftHip.x + rightHip.x) / 2`: from `center` or `idle`, `x < 0.35`
(resp. `x > 0.65`) more than 300 ms after `lastMoveTime` gives `left` (resp. `right`),
`lastMoveTime = now` and `detected = true`; from `left` or `right`, `0.45 < x < 0.55` gives
`center` with `detected = false` and `lastMoveTime` unchanged; in every other case the state
is unchanged and `detected = false`; and the returned `newState` is the internal state
after the call. -/
theorem detectSideSlide_transition_table (d : Detector) (now : ℝ) (random : Nat → ℝ)
    (landmarks : LandmarkList) (currentState : String) (leftHip rightHip : Landmark)
    (h23 : entry landmarks 23 = some leftHip) (h24 : entry landmarks 24 = some rightHip)
    (hthr : SideSlideThresholds d.config.side_slide) :
    ∃ (d1 : Detector) (r : DetectionResult),
      detectSideSlide d now random landmarks currentState = (d1, r) ∧
      r.newState = d1.config.side_slide.state ∧
      ((d.config.side_slide.state = "center" ∨ d.config.side_slide.state = "idle") →
        hipCenterX leftHip rightHip < 0.35 → now - d.config.side_slide.lastMoveTime > 300 →
        d1.config.side_slide.state = "left" ∧ d1.config.side_slide.lastMoveTime = now ∧
        r.detected = true) ∧
      ((d.config.side_slide.state = "center" ∨ d.config.side_slide.state = "idle") →
        hipCenterX leftHip rightHip > 0.65 → now - d.config.side_slide.lastMoveTime > 300 →
        d1.config.side_slide.state = "right" ∧ d1.config.side_slide.lastMoveTime = now ∧
        r.detected = true) ∧
      ((d.config.side_slide.state = "left" ∨ d.config.side_slide.state = "right") →
        0.45 < hipCenterX leftHip rightHip → hipCenterX leftHip rightHip < 0.55 →
        d1.config.side_slide.state = "center" ∧
        d1.config.side_slide.lastMoveTime = d.config.side_slide.lastMoveTime ∧
        r.detected = false) ∧
      (¬ ((d.config.side_slide.state = "center" ∨ d.config.side_slide.state = "idle") ∧
          hipCenterX leftHip rightHip < 0.35 ∧ now - d.config.side_slide.lastMoveTime > 300) →
        ¬ ((d.config.side_slide.state = "center" ∨ d.config.side_slide.state = "idle") ∧
          hipCenterX leftHip rightHip > 0.65 ∧ now - d.config.side_slide.lastMoveTime > 300) →
        ¬ ((d.config.side_slide.state = "left" ∨ d.config.side_slide.state = "right") ∧
          0.45 < hipCenterX leftHip rightHip ∧ hipCenterX leftHip rightHip < 0.55) →
        d1 = d ∧ r.detected = false) := by
  obtain ⟨hl, hr, hmin, hmax, hint⟩ := hthr
  rw [detectSideSlide_present d now random landmarks currentState leftHip rightHip h23 h24]
  refine ⟨_, _, rfl, rfl, ?_, ?_, ?_, ?_⟩
  · intro hs hx ht
    rw [slideStep_outward_left _ _ _ hs (by rw [hl]; exact hx) (by rw [hint]; exact ht)]
    exact ⟨rfl, rfl, rfl⟩
  · intro hs hx ht
    rw [slideStep_outward_right _ _ _ hs (by rw [hl, hr]; norm_num) (by rw [hr]; exact hx)
      (by rw [hint]; exact ht)]
    exact ⟨rfl, rfl, rfl⟩
  · intro hs hx1 hx2
    rw [slideStep_inward _ _ _ hs (by rw [hmin]; exact hx1) (by rw [hmax]; exact hx2)]
    exact ⟨rfl, rfl, rfl⟩
  · intro h1 h2 h3
    rw [slideStep_otherwise _ _ _ (by rw [hl, hint]; exact h1) (by rw [hr, hint]; exact h2)
      (by rw [hmin, hmax]; exact h3)]
    exact ⟨rfl, rfl⟩


/-- C21, on a fresh detector at time 1000 with the hips at x = 0.3: the state becomes `left`,
`lastMoveTime` becomes 1000 and the call is detected. -/
theorem detectSideSlide_transition_table_witness :
    ∃ (d1 : Detector) (r : DetectionResult),
      detectSideSlide fresh 1000 (fun _ => 0) (slideAt 0.3) "idle" = (d1, r) ∧
      d1.config.side_slide.state = "left" ∧ d1.config.side_slide.lastMoveTime = 1000 ∧
      r.detected = true ∧ r.newState = "left" := by
  obtain ⟨d1, r, h, hnew, hleft, -, -, -⟩ :=
    detectSideSlide_transition_table fresh 1000 (fun _ => 0) (slideAt 0.3) "idle" _ _
      (entry_slideAt 0.3).1 (entry_slideAt 0.3).2 ⟨rfl, rfl, rfl, rfl, rfl⟩
  have h3 := hleft (Or.inl rfl) (by rw [hipCenterX_same]; norm_num)
    (by simp only [fresh]; norm_num)
  exact ⟨d1, r, h, h3.1, h3.2.1, h3.2.2, by rw [hnew, h3.1]⟩

/-- C22: on a detector with the constructor's thresholds, between two calls of
`detectSideSlide` that return `detected = true` there is a call whose hip center x lies
strictly between 0.45 and 0.55, and the two calls are more than 300 ms apart; no call takes
the internal state from `left` to `right` or from `right` to `left`; and on a fresh detector
the hip center sequence 0.5, 0.3, 0.3, 0.48, 0.3 at times 400 ms apart gives the states
center, left, left, center, left with `detected` only at indices 1 and 4. -/
theorem sideSlide_hysteresis :
    (∀ (d : Detector) (first last : SideSlideCall) (between : List SideSlideCall),
      SideSlideThresholds d.config.side_slide →
      sideSlideDetected d first = true →
      sideSlideDetected (runSideSlide (sideSlideStep d first) between) last = true →
      (∃ call ∈ between, ReturnsToCenter call) ∧ last.now - first.now > 300) ∧
    (∀ (d : Detector) (call : SideSlideCall), SideSlideThresholds d.config.side_slide →
      (d.config.side_slide.state = "left" →
        (sideSlideStep d call).config.side_slide.state ≠ "right") ∧
      (d.config.side_slide.state = "right" →
        (sideSlideStep d call).config.side_slide.state ≠ "left")) ∧
    slideTrace fresh [slideCall 1000 0.5, slideCall 1400 0.3, slideCall 1800 0.3,
        slideCall 2200 0.48, slideCall 2600 0.3] =
      [("center", false), ("left", true), ("left", false), ("center", false), ("left", true)] := by
  refine ⟨?_, ?_, slideTrace_example⟩
  · intro d first last between hthr hfirst hlast
    obtain ⟨hthr1, hcase1⟩ := sideSlideStep_cases d first hthr
    rcases hcase1 with ⟨-, -, -, hstate, hmove⟩ | ⟨hno, -⟩
    · obtain ⟨hthr2, hle⟩ := runSideSlide_lastMove between (sideSlideStep d first) hthr1
      obtain ⟨-, hcase2⟩ := sideSlideStep_cases _ last hthr2
      rcases hcase2 with ⟨-, hcenter, htime, -, -⟩ | ⟨hno, -⟩
      · refine ⟨?_, ?_⟩
        · by_contra hnone
          have hnone2 : ∀ call ∈ between, ¬ ReturnsToCenter call :=
            fun call hc hr => hnone ⟨call, hc, hr⟩
          have hstay := runSideSlide_stays between (sideSlideStep d first) hthr1 hstate hnone2
          rw [hstay] at hcenter
          rcases hstate with h | h <;> rw [h] at hcenter <;> revert hcenter <;> decide
        · rw [hmove] at hle
          linarith
      · rw [hno] at hlast
        exact absurd hlast (by decide)
    · rw [hno] at hfirst
      exact absurd hfirst (by decide)
  · intro d call hthr
    obtain ⟨-, hcase⟩ := sideSlideStep_cases d call hthr
    constructor
    · intro hs
      rcases hcase with ⟨-, h2, -⟩ | ⟨-, -, h3⟩
      · rw [hs] at h2
        exact absurd h2 (by decide)
      · rcases h3 with h3 | ⟨-, -, h5⟩
        · rw [h3, hs]; decide
        · rw [h5]; decide
    · intro hs
      rcases hcase with ⟨-, h2, -⟩ | ⟨-, -, h3⟩
      · rw [hs] at h2
        exact absurd h2 (by decide)
      · rcases h3 with h3 | ⟨-, -, h5⟩
        · rw [h3, hs]; decide
        · rw [h5]; decide

/-- C22, on a fresh detector: a move to the left at time 1000 and one at time 2000 with, in
between, calls with the hips at x = 0.3 and x = 0.5. -/
theorem sideSlide_hysteresis_witness :
    (∃ call ∈ [slideCall 1200 0.3, slideCall 1500 0.5], ReturnsToCenter call) ∧
    (slideCall 2000 0.3).now - (slideCall 1000 0.3).now > 300 := by
  have h1 := slideCall_out_left 0 1000 0.3 (by norm_num) (by norm_num)
  have h2 := slideCall_stay_left 1000 1200 0.3 (by norm_num)
  have h3 := slideCall_in 1000 1500 0.5 (by norm_num) (by norm_num)
  have h4 := slideCall_out_left 1000 2000 0.3 (by norm_num) (by norm_num)
  have hf : fresh = slideState "center" 0 := rfl
  refine sideSlide_hysteresis.1 fresh (slideCall 1000 0.3) (slideCall 2000 0.3)
    [slideCall 1200 0.3, slideCall 1500 0.5] ⟨rfl, rfl, rfl, rfl, rfl⟩ ?_ ?_
  · rw [hf]; exact h1.2
  · rw [hf]
    simp only [runSideSlide, List.foldl, h1.1, h2.1, h3.1]
    exact h4.2

/-- C23: `reset('high_knees')` puts both legs' flags to false and both `lastCountTime` to 0,
`reset('side_slide')` puts the lateral state to `center` and `lastMoveTime` to 0, so that the
exercise's runtime state is the one of a fresh detector; either leaves the other exercise's
record and every threshold and interval as they were; `reset` is idempotent; and `reset`
with any other type changes nothing. This holds in every detector state. -/
theorem reset_restores_initial_state (d : Detector) :
    ((reset d "high_knees").config.high_knees.side = fresh.config.high_knees.side ∧
      (reset d "high_knees").config.high_knees.side.left = { up := false, lastCountTime := 0 } ∧
      (reset d "high_knees").config.high_knees.side.right = { up := false, lastCountTime := 0 } ∧
      (reset d "high_knees").config.high_knees.upRatio = d.config.high_knees.upRatio ∧
      (reset d "high_knees").config.high_knees.downRatio = d.config.high_knees.downRatio ∧
      (reset d "high_knees").config.high_knees.minInterval = d.config.high_knees.minInterval ∧
      (reset d "high_knees").config.high_knees.speedCompensation
        = d.config.high_knees.speedCompensation ∧
      (reset d "high_knees").config.side_slide = d.config.side_slide) ∧
    ((reset d "side_slide").config.side_slide.state = "center" ∧
      (reset d "side_slide").config.side_slide.lastMoveTime = 0 ∧
      (reset d "side_slide").config.side_slide.state = fresh.config.side_slide.state ∧
      (reset d "side_slide").config.side_slide.lastMoveTime
        = fresh.config.side_slide.lastMoveTime ∧
      (reset d "side_slide").config.side_slide.leftThreshold
        = d.config.side_slide.leftThreshold ∧
      (reset d "side_slide").config.side_slide.rightThreshold
        = d.config.side_slide.rightThreshold ∧
      (reset d "side_slide").config.side_slide.centerMin = d.config.side_slide.centerMin ∧
      (reset d "side_slide").config.side_slide.centerMax = d.config.side_slide.centerMax ∧
      (reset d "side_slide").config.side_slide.minInterval = d.config.side_slide.minInterval ∧
      (reset d "side_slide").config.high_knees = d.config.high_knees) ∧
    (∀ exerciseType : String, reset (reset d exerciseType) exerciseType = reset d exerciseType) ∧
    (∀ exerciseType : String, exerciseType ≠ "high_knees" → exerciseType ≠ "side_slide" →
      reset d exerciseType = d) := by
  refine ⟨⟨rfl, rfl, rfl, rfl, rfl, rfl, rfl, rfl⟩,
    ⟨rfl, rfl, rfl, rfl, rfl, rfl, rfl, rfl, rfl, rfl⟩, ?_, ?_⟩
  · intro exerciseType
    by_cases h1 : exerciseType = "high_knees"
    · simp only [reset, if_pos h1]
    · by_cases h2 : exerciseType = "side_slide"
      · simp only [reset, if_neg h1, if_pos h2]
      · simp only [reset, if_neg h1, if_neg h2]
  · intro exerciseType h1 h2
    simp only [reset, if_neg h1, if_neg h2]

/-- C23, on a detector in the middle of a session: resetting with the unknown type `squat`
changes nothing. -/
theorem reset_restores_initial_state_witness : reset busyDetector "squat" = busyDetector :=
  (reset_restores_initial_state busyDetector).2.2.2 "squat" (by decide) (by decide)

/-- C24, at the failing input: for the type `toString`, a property every object inherits,
the lookup `feedbacks[exerciseType]` is not empty, no fallback happens and the result is
`undefined`, not a phrase of the high-knees list. -/
theorem getRandomFeedback_inherited_key :
    "toString" ≠ "high_knees" ∧ "toString" ≠ "side_slide" ∧
    getRandomFeedback 0 "toString" = none ∧
    (∀ phrase ∈ highKneesFeedbacks, getRandomFeedback 0 "toString" ≠ some phrase) := by
  have h : getRandomFeedback 0 "toString" = none := by
    have h1 : ¬ ("toString" = "high_knees") := by decide
    have h2 : ¬ ("toString" = "side_slide") := by decide
    have h3 : "toString" ∈ objectPrototypeKeys := by decide
    simp only [getRandomFeedback, if_neg h1, if_neg h2, if_pos h3]
  refine ⟨by decide, by decide, h, ?_⟩
  intro phrase _
  rw [h]
  exact fun hh => Option.noConfusion hh

/-- C25, at the failing input: with hips and knees present and the left ankle absent in a
list of 29 entries, the high-knees detection raises instead of returning the neutral
result. -/
theorem detectExercise_raises_on_absent_ankle :
    missingLeftAnkle.length = 29 ∧
    detectExercise fresh 1000 (fun _ => 0) (some missingLeftAnkle) someMetrics
      "high_knees" "idle" = none := by
  refine ⟨rfl, ?_⟩
  have hlen : ¬ missingLeftAnkle.length < 29 := by decide
  have h23 : entry missingLeftAnkle 23 = some { x := 0.5, y := 0.5, visibility := none } := rfl
  have h24 : entry missingLeftAnkle 24 = some { x := 0.5, y := 0.5, visibility := none } := rfl
  have h25 : entry missingLeftAnkle 25 = some { x := 0.5, y := 0.3, visibility := none } := rfl
  have h26 : entry missingLeftAnkle 26 = some { x := 0.5, y := 0.6, visibility := none } := rfl
  have h27 : entry missingLeftAnkle 27 = none := rfl
  simp only [detectExercise, if_neg hlen, if_true, detectHighKnees, h23, h24, h25, h26, h27]

/-- C26: with hips, knees and ankles present, legs of non-zero length and the constructor's
`downRatio`, a leg whose flag is up has it put down exactly when its lift ratio is below
0.05, its `lastCountTime` then stays and any event of that call is the other leg's; a lift
ratio between 0.05 and the dynamic threshold changes nothing for that leg; hence, in a
sequence of calls whose legs have non-zero length, between two calls in which the same leg
counts there is a call that acts on the legs with that leg's lift ratio below 0.05. -/
theorem highKnees_count_needs_lowering :
    (∀ (d : Detector) (now : ℝ) (random : Nat → ℝ) (landmarks : LandmarkList)
      (metrics : Metrics) (currentState : String)
      (leftHip rightHip leftKnee rightKnee leftAnkle rightAnkle : Landmark),
      entry landmarks 23 = some leftHip → entry landmarks 24 = some rightHip →
      entry landmarks 25 = some leftKnee → entry landmarks 26 = some rightKnee →
      entry landmarks 27 = some leftAnkle → entry landmarks 28 = some rightAnkle →
      legLength leftHip leftAnkle ≠ 0 → legLength rightHip rightAnkle ≠ 0 →
      d.config.high_knees.downRatio = 0.05 →
      ∃ (d1 : Detector) (r : DetectionResult),
        detectHighKnees d now random landmarks metrics currentState = some (d1, r) ∧
        (d.config.high_knees.side.left.up = true →
          (d1.config.high_knees.side.left.up = false ↔
            liftRatio leftHip leftKnee leftAnkle < 0.05) ∧
          d1.config.high_knees.side.left.lastCountTime
            = d.config.high_knees.side.left.lastCountTime ∧
          (r.detected = true ↔
            Fires d.config.high_knees now (dynamicUpRatio d.config.high_knees now)
              d.config.high_knees.side.right (liftRatio rightHip rightKnee rightAnkle))) ∧
        (d.config.high_knees.side.right.up = true →
          (d1.config.high_knees.side.right.up = false ↔
            liftRatio rightHip rightKnee rightAnkle < 0.05) ∧
          d1.config.high_knees.side.right.lastCountTime
            = d.config.high_knees.side.right.lastCountTime ∧
          (r.detected = true ↔
            Fires d.config.high_knees now (dynamicUpRatio d.config.high_knees now)
              d.config.high_knees.side.left (liftRatio leftHip leftKnee leftAnkle))) ∧
        (0.05 ≤ liftRatio leftHip leftKnee leftAnkle →
          liftRatio leftHip leftKnee leftAnkle ≤ dynamicUpRatio d.config.high_knees now →
          d1.config.high_knees.side.left = d.config.high_knees.side.left) ∧
        (0.05 ≤ liftRatio rightHip rightKnee rightAnkle →
          liftRatio rightHip rightKnee rightAnkle ≤ dynamicUpRatio d.config.high_knees now →
          d1.config.high_knees.side.right = d.config.high_knees.side.right)) ∧
    (∀ (d : Detector) (first last : HighKneesCall) (between : List HighKneesCall),
      d.config.high_knees.downRatio = 0.05 →
      ((∀ call ∈ first :: (between ++ [last]), LeftLegNonZero call) →
        d.config.high_knees.side.left.up = false →
        (highKneesStep d first).config.high_knees.side.left.up = true →
        (runHighKnees (highKneesStep d first) between).config.high_knees.side.left.up = false →
        (highKneesStep (runHighKnees (highKneesStep d first) between)
          last).config.high_knees.side.left.up = true →
        ∃ call ∈ between, LeftLowered call) ∧
      ((∀ call ∈ first :: (between ++ [last]), RightLegNonZero call) →
        d.config.high_knees.side.right.up = false →
        (highKneesStep d first).config.high_knees.side.right.up = true →
        (runHighKnees (highKneesStep d first) between).config.high_knees.side.right.up = false →
        (highKneesStep (runHighKnees (highKneesStep d first) between)
          last).config.high_knees.side.right.up = true →
        ∃ call ∈ between, RightLowered call)) := by
  constructor
  · intro d now random landmarks metrics currentState leftHip rightHip leftKnee rightKnee
      leftAnkle rightAnkle h23 h24 h25 h26 h27 h28 _ _ hdown
    obtain ⟨d1, r, hcall, -, -, -, -, -, hL, hR, hdet, -, -⟩ :=
      detectHighKnees_present d now random landmarks metrics currentState leftHip rightHip
        leftKnee rightKnee leftAnkle rightAnkle h23 h24 h25 h26 h27 h28
    refine ⟨d1, r, hcall, ?_, ?_, ?_, ?_⟩
    · intro hup
      have hs := legStep_up d.config.high_knees now (dynamicUpRatio d.config.high_knees now)
        d.config.high_knees.side.left (liftRatio leftHip leftKnee leftAnkle) hup
      rw [hdown] at hs
      refine ⟨by rw [hL]; exact hs.1, ?_, ?_⟩
      · rw [hL]
        by_cases hlow : liftRatio leftHip leftKnee leftAnkle < 0.05
        · rw [hs.2.1 hlow]
        · rw [hs.2.2 hlow]
      · rw [hdet]
        constructor
        · rintro (h | h)
          · have := h.1
            rw [hup] at this
            exact Bool.noConfusion this
          · exact h
        · exact Or.inr
    · intro hup
      have hs := legStep_up d.config.high_knees now (dynamicUpRatio d.config.high_knees now)
        d.config.high_knees.side.right (liftRatio rightHip rightKnee rightAnkle) hup
      rw [hdown] at hs
      refine ⟨by rw [hR]; exact hs.1, ?_, ?_⟩
      · rw [hR]
        by_cases hlow : liftRatio rightHip rightKnee rightAnkle < 0.05
        · rw [hs.2.1 hlow]
        · rw [hs.2.2 hlow]
      · rw [hdet]
        constructor
        · rintro (h | h)
          · exact h
          · have := h.1
            rw [hup] at this
            exact Bool.noConfusion this
        · exact Or.inl
    · intro hlow hhigh
      rw [hL]
      exact legStep_dead_band _ _ _ _ _ (by rw [hdown]; exact hlow) hhigh
    · intro hlow hhigh
      rw [hR]
      exact legStep_dead_band _ _ _ _ _ (by rw [hdown]; exact hlow) hhigh
  · intro d first last between hdown
    obtain ⟨hdown1, -⟩ := highKneesStep_eq d first
    obtain ⟨hl, hr⟩ := runHighKnees_stays_up between (highKneesStep d first) (hdown1.trans hdown)
    constructor
    · intro hnz _ hup hdownflag _
      by_contra hnone
      have hall : ∀ call ∈ between, ¬ LeftLowered call := fun call hc hlow => hnone ⟨call, hc, hlow⟩
      have := hl (fun c hc => hnz c (by simp [hc])) hup hall
      rw [hdownflag] at this
      exact Bool.noConfusion this
    · intro hnz _ hup hdownflag _
      by_contra hnone
      have hall : ∀ call ∈ between, ¬ RightLowered call :=
        fun call hc hlow => hnone ⟨call, hc, hlow⟩
      have := hr (fun c hc => hnz c (by simp [hc])) hup hall
      rw [hdownflag] at this
      exact Bool.noConfusion this

/-- C26, on a fresh detector with legs of length 0.5: the left leg counts at time 1000 and
again at time 1300, its flag is down after the call at time 1100 in between, and that call
has the left lift ratio below 0.05. -/
theorem highKnees_count_needs_lowering_witness :
    (∀ call ∈ [leftKneeCall 1000 0.3, leftKneeCall 1100 0.6, leftKneeCall 1300 0.3],
      LeftLegNonZero call) ∧
    fresh.config.high_knees.side.left.up = false ∧
    (highKneesStep fresh (leftKneeCall 1000 0.3)).config.high_knees.side.left.up = true ∧
    (runHighKnees (highKneesStep fresh (leftKneeCall 1000 0.3))
      [leftKneeCall 1100 0.6]).config.high_knees.side.left.up = false ∧
    (highKneesStep (runHighKnees (highKneesStep fresh (leftKneeCall 1000 0.3))
      [leftKneeCall 1100 0.6]) (leftKneeCall 1300 0.3)).config.high_knees.side.left.up = true ∧
    ∃ call ∈ [leftKneeCall 1100 0.6], LeftLowered call := by
  have h1 : highKneesStep fresh (leftKneeCall 1000 0.3) = legsState true 1000 false 0 :=
    leftKneeCall_counts 0 0 1000 (by norm_num) (by norm_num)
  have h2 : highKneesStep (legsState true 1000 false 0) (leftKneeCall 1100 0.6)
      = legsState false 1000 false 0 :=
    leftKneeCall_lowers 1000 0 1100 (by norm_num) (by norm_num)
  have h3 : highKneesStep (legsState false 1000 false 0) (leftKneeCall 1300 0.3)
      = legsState true 1300 false 0 :=
    leftKneeCall_counts 1000 0 1300 (by norm_num) (by norm_num)
  have hnz : ∀ call ∈ [leftKneeCall 1000 0.3, leftKneeCall 1100 0.6, leftKneeCall 1300 0.3],
      LeftLegNonZero call := by
    intro call hc
    simp only [List.mem_cons, List.mem_singleton, List.not_mem_nil, or_false] at hc
    rcases hc with rfl | rfl | rfl <;> exact leftKneeCall_left_nonzero _ _
  have hup1 : (highKneesStep fresh (leftKneeCall 1000 0.3)).config.high_knees.side.left.up
      = true := by rw [h1]; rfl
  have hdown2 : (runHighKnees (highKneesStep fresh (leftKneeCall 1000 0.3))
      [leftKneeCall 1100 0.6]).config.high_knees.side.left.up = false := by
    simp only [runHighKnees, List.foldl, h1, h2]; rfl
  have hup3 : (highKneesStep (runHighKnees (highKneesStep fresh (leftKneeCall 1000 0.3))
      [leftKneeCall 1100 0.6]) (leftKneeCall 1300 0.3)).config.high_knees.side.left.up
      = true := by
    simp only [runHighKnees, List.foldl, h1, h2, h3]; rfl
  exact ⟨hnz, rfl, hup1, hdown2, hup3,
    (highKnees_count_needs_lowering.2 fresh (leftKneeCall 1000 0.3)
      (leftKneeCall 1300 0.3) [leftKneeCall 1100 0.6] rfl).1 hnz rfl hup1 hdown2 hup3⟩

/-- C27: two subjects `A` and `B`, each with the left knee raised above the threshold, and
the time 1000: on a fresh detector the call for `B` is detected, but made right after the
call for `A` on the same detector it is not, the call for `A` having set the shared left
flag and `lastCountTime`. -/
theorem shared_detector_suppresses_count :
    ∃ (A B : LandmarkList) (now : ℝ) (dA : Detector) (rA rB rB2 : DetectionResult)
      (dB dB2 : Detector),
      A ≠ B ∧
      detectExercise fresh now (fun _ => 0) (some B) someMetrics "high_knees" "idle"
        = some (dB, rB) ∧ rB.detected = true ∧
      detectExercise fresh now (fun _ => 0) (some A) someMetrics "high_knees" "idle"
        = some (dA, rA) ∧ rA.detected = true ∧
      dA.config.high_knees.side.left = { up := true, lastCountTime := now } ∧
      detectExercise dA now (fun _ => 0) (some B) someMetrics "high_knees" "idle"
        = some (dB2, rB2) ∧ rB2.detected = false := by
  obtain ⟨dB, rB, hB, hBdet, -, -, -⟩ := fresh_left_knee_detected 0.25 (by norm_num)
  obtain ⟨dA, rA, hA, hAdet, hAleft, hAup, -⟩ := fresh_left_knee_detected 0.3 (by norm_num)
  obtain ⟨dB2, rB2, hB2, hB2det⟩ :=
    left_up_not_detected dA 1000 0.25 hAup (by rw [hAleft])
  exact ⟨legsAt 0.5 0.3 0.6, legsAt 0.5 0.25 0.6, 1000, dA, rA, rB, rB2, dB, dB2,
    legsAt_ne 0.3 0.25 (by norm_num), hB, hBdet, hA, hAdet, hAleft, hB2, hB2det⟩

/-- C29: with at least 29 entries and both hips present, `detectExercise` with type
`side_slide` returns, and returns the same result (detected, newState, feedback) and the
same stored state whatever `currentState` the caller passes. -/
theorem side_slide_ignores_caller_state (d : Detector) (now : ℝ) (random : Nat → ℝ)
    (landmarks : LandmarkList) (metrics : Metrics) (leftHip rightHip : Landmark)
    (hlen : 29 ≤ landmarks.length)
    (h23 : entry landmarks 23 = some leftHip) (h24 : entry landmarks 24 = some rightHip) :
    ∃ (d1 : Detector) (r : DetectionResult),
      ∀ currentState : String,
        detectExercise d now random (some landmarks) metrics "side_slide" currentState
          = some (d1, r) := by
  refine ⟨(detectSideSlide d now random landmarks "").1,
    (detectSideSlide d now random landmarks "").2, fun currentState => ?_⟩
  rw [detectExercise_side_slide d now random landmarks metrics currentState hlen,
    detectSideSlide_present d now random landmarks currentState leftHip rightHip h23 h24,
    detectSideSlide_present d now random landmarks "" leftHip rightHip h23 h24]

/-- C29, on a fresh detector at time 1000 with the hips at x = 0.3: the caller states `idle`
and `up_left` give the same result and state. -/
theorem side_slide_ignores_caller_state_witness :
    detectExercise fresh 1000 (fun _ => 0) (some (slideAt 0.3)) someMetrics "side_slide" "idle"
      = detectExercise fresh 1000 (fun _ => 0) (some (slideAt 0.3)) someMetrics "side_slide"
          "up_left" := by
  obtain ⟨d1, r, h⟩ := side_slide_ignores_caller_state fresh 1000 (fun _ => 0) (slideAt 0.3)
    someMetrics _ _ (by simp [slideAt]) (entry_slideAt 0.3).1 (entry_slideAt 0.3).2
  rw [h "idle", h "up_left"]

end ExerciseDetector

end
